import Mathlib

/-!
# Excel Analytics Platform: chart specification validation and chart data assembly

A shallow embedding of the chart pipeline of the front end:

* `src/frontend/src/utils/chartUtils.js` (`formatChartPreviewData`, `formatChartData`),
* `src/frontend/src/pages/ChartCreator.js` (`generateChartPreview`, `saveChart`),
* `src/frontend/src/pages/ChartEdit.js` (`generateChartPreview`, `saveChart`).

React state is an explicit record, a handler is a function from the record (and the
reply of the server, where it awaits one) to the new record and the list of effects it
issued (requests posted, timers scheduled).
-/

namespace ExcelAnalytics

/-! ## JavaScript values -/

deriving instance DecidableEq for Except

/-- The operator `a || d` on an optional string: `undefined`, `null` and the empty
string are falsy. -/
def orElse (a : Option String) (d : String) : String :=
  match a with
  | some s => if s = "" then d else s
  | none => d

/-- The expression `s || undefined` of the config builders. -/
def orUndefined (s : String) : Option String :=
  if s = "" then none else some s

/-- The expression `s.charAt(0).toUpperCase() + s.slice(1)`. It is only evaluated for
the chart types `scatter` and `bubble`, on which upper-casing is the ASCII one. -/
def capitalize (s : String) : String :=
  match s.toList with
  | [] => ""
  | c :: cs => String.mk (c.toUpper :: cs)

/-- A property read from a JSON object and then tested with `!v`, `Array.isArray(v)`
and `v.length`. -/
inductive JsField (α : Type) where
  /-- The value is `undefined`, `null` or another falsy value. -/
  | absent
  /-- The value is truthy and not an array; the flag tells whether `v.length === 0`. -/
  | nonArray (zeroLength : Bool)
  /-- The value is an array. -/
  | array (items : List α)
  deriving DecidableEq, Repr

/-- An entry of a dataset's `data`: a number, or a point `{x, y}` / `{x, y, r}`. -/
inductive Datum where
  | num (v : Int)
  | point (x y : Int) (r : Option Int)
  deriving DecidableEq, Repr

/-- A dataset of the server's `processedData.datasets`. -/
structure RawDataset where
  label : Option String
  data : JsField Datum
  deriving DecidableEq, Repr

/-- The `processedData` object returned by `/api/charts/preview`; an entry of
`datasets` may be `null` (`none`). -/
structure ProcessedData where
  labels : JsField String
  datasets : JsField (Option RawDataset)
  deriving DecidableEq, Repr

/-- A color attribute of an output dataset. -/
inductive Color where
  /-- The value `undefined` (an index outside the palette). -/
  | undefined
  /-- One color. -/
  | single (c : String)
  /-- A list of colors, `chartColors.slice(0, n)`. -/
  | list (cs : List String)
  deriving DecidableEq, Repr

/-- A dataset of the object handed to Chart.js; `none` is an absent key, and
`pointRadius = some none` is the key `pointRadius` holding `null`. -/
structure ChartDataset where
  label : Option String
  data : List Datum
  backgroundColor : Color
  borderColor : Option Color
  borderWidth : Option Nat
  fill : Option Bool
  pointRadius : Option (Option Nat)
  deriving DecidableEq, Repr

/-- The object handed to Chart.js; `labels = none` is an absent `labels` key. -/
structure ChartData where
  labels : Option (List String)
  datasets : List ChartDataset
  deriving DecidableEq, Repr

/-! ## `chartUtils.js` -/

/-- The palette `formatChartPreviewData` falls back to. -/
def defaultPreviewColors : List String :=
  ["#4285F4", "#EA4335", "#FBBC05", "#34A853", "#8E24AA",
   "#00ACC1", "#FB8C00", "#607D8B", "#FF5722", "#009688"]

/-- The palette in effect: `chartColors` when it is a non-empty array (`none` is a
missing or non-array argument), the default palette otherwise. -/
def effectivePalette (chartColors : Option (List String)) : List String :=
  match chartColors with
  | some (c :: cs) => c :: cs
  | _ => defaultPreviewColors

/-- The lookup `chartColors[i]`. -/
def colorAt (palette : List String) (i : Nat) : Color :=
  match palette[i]? with
  | some c => Color.single c
  | none => Color.undefined

/-- The filter `dataset && dataset.data && Array.isArray(dataset.data) &&
dataset.data.length > 0`, keeping the label and the data of each dataset that passes. -/
def validDatasets (datasets : List (Option RawDataset)) : List (Option String × List Datum) :=
  datasets.filterMap fun dataset =>
    match dataset with
    | some ⟨label, JsField.array (x :: xs)⟩ => some (label, x :: xs)
    | _ => none

/-- The label ``dataset.label || `Dataset ${index + 1}` ``. -/
def datasetLabel (label : Option String) (index : Nat) : String :=
  orElse label ("Dataset " ++ toString (index + 1))

/-- The single dataset built for a pie, doughnut or polarArea chart:
`{ data, backgroundColor: chartColors.slice(0, labels.length), borderWidth: 1 }`. -/
def pieDataset (palette : List String) (data : List Datum) (labels : List String) :
    ChartDataset :=
  { label := none
    data := data
    backgroundColor := Color.list (palette.take labels.length)
    borderColor := none
    borderWidth := some 1
    fill := none
    pointRadius := none }

/-- The dataset built by the `map` callback of the scatter and bubble branch. -/
def pointDataset (palette : List String) (chartType : String) (index : Nat)
    (dataset : Option String × List Datum) : ChartDataset :=
  { label := some (datasetLabel dataset.1 index)
    data := dataset.2
    backgroundColor := colorAt palette (index % palette.length)
    borderColor := some (colorAt palette (index % palette.length))
    borderWidth := none
    fill := none
    pointRadius := if chartType = "bubble" then some none else none }

/-- The dataset built by the `map` callback of the branch of the other chart types. -/
def seriesDataset (palette : List String) (chartType : String) (index : Nat)
    (dataset : Option String × List Datum) : ChartDataset :=
  { label := some (datasetLabel dataset.1 index)
    data := dataset.2
    backgroundColor := colorAt palette (index % palette.length)
    borderColor := some (colorAt palette (index % palette.length))
    borderWidth := some 1
    fill := if chartType = "line" then some false else none
    pointRadius := none }

/-- The function `formatChartPreviewData(processedData, chartType, chartColors)`;
`none` is the result `null`. -/
def formatChartPreviewData (processedData : Option ProcessedData) (chartType : String)
    (chartColors : Option (List String)) : Option ChartData :=
  match processedData with
  | none => none
  | some pd =>
    if chartType = "" then none
    else
      let palette := effectivePalette chartColors
      match pd.datasets with
      | JsField.absent => none
      | JsField.nonArray _ => none
      | JsField.array [] => none
      | JsField.array (first :: rest) =>
        -- for every type but scatter and bubble, `labels` must be an array
        let labels : Option (List String) :=
          match pd.labels with
          | JsField.array items => some items
          | _ => none
        if chartType ∉ ["scatter", "bubble"] ∧ labels = none then none
        else if chartType ∈ ["pie", "doughnut", "polarArea"] then
          match first, labels with
          | some ⟨_, JsField.array data⟩, some items =>
            some { labels := some items, datasets := [pieDataset palette data items] }
          | _, _ => none
        else if chartType ∈ ["scatter", "bubble"] then
          match validDatasets (first :: rest) with
          | [] => none
          | valid =>
            some { labels := none, datasets := valid.mapIdx (pointDataset palette chartType) }
        else
          match validDatasets (first :: rest) with
          | [] => none
          | valid =>
            some { labels := labels, datasets := valid.mapIdx (seriesDataset palette chartType) }

/-! ## `chartUtils.js`: `formatChartData` -/

/-- The value of a `fill` attribute: a boolean, or the string `'origin'`. -/
inductive FillMode where
  | flag (value : Bool)
  | origin
  deriving DecidableEq, Repr

/-- An axis field of a stored config, `config.xAxis` or `config.yAxis`. -/
inductive AxisField where
  /-- The field is an array of column names. -/
  | columns (names : List String)
  /-- The field is not an array: a string, or `undefined` (`none`). -/
  | other (value : Option String)
  deriving DecidableEq, Repr

/-- The fields of `chart.config` read by `formatChartData`. -/
structure ViewerConfig where
  xAxis : AxisField
  yAxis : AxisField
  deriving DecidableEq, Repr

/-- The fields of the `chart` argument read by `formatChartData`; `none` is a missing
(falsy) property. -/
structure ViewerChart where
  title : Option String
  type : Option String
  processedData : Option ProcessedData
  config : Option ViewerConfig
  deriving DecidableEq, Repr

/-- A dataset built by `formatChartData`; `none` is an absent key or one holding
`undefined`. The label is the one the input dataset is spread with. -/
structure ViewerDataset where
  label : Option String
  data : List Datum
  backgroundColor : Color
  borderColor : Color
  borderWidth : Nat
  pointBackgroundColor : Option Color
  pointBorderColor : Option String
  pointHoverRadius : Option Nat
  pointHoverBackgroundColor : Option Color
  pointHoverBorderColor : Option String
  fill : Option FillMode
  deriving DecidableEq, Repr

/-- The `data` object built by `formatChartData`: `processedData.labels` as it came and
the datasets. -/
structure ViewerData where
  labels : JsField String
  datasets : List ViewerDataset
  deriving DecidableEq, Repr

/-- The `title` of a cartesian scale. -/
structure AxisTitle where
  display : Bool
  text : Option String
  color : String
  deriving DecidableEq, Repr

/-- One entry of `options.scales`: the axis title (the radial scale has none), the
colors of ticks and grid, and `beginAtZero` where it is set. -/
structure ScaleOptions where
  title : Option AxisTitle
  tickColor : String
  gridColor : String
  beginAtZero : Option Bool
  deriving DecidableEq, Repr

/-- The tooltip label callback in effect: the default one (`label: value`) or the one of
the pie family (`label: value (percentage%)`). -/
inductive TooltipLabel where
  | datasetValue
  | percentage
  deriving DecidableEq, Repr

/-- The `options` object built by `formatChartData`, without its constant font sizes and
paddings. `scales = none` is a deleted `scales` key; otherwise the keys of `scales` are
listed in order with their values. -/
structure ChartOptions where
  responsive : Bool
  maintainAspectRatio : Bool
  legendPosition : String
  legendColor : String
  titleDisplay : Bool
  titleText : String
  titleColor : String
  tooltipEnabled : Bool
  tooltipLabel : TooltipLabel
  scales : Option (List (String × ScaleOptions))
  animationDuration : Nat
  animationEasing : String
  deriving DecidableEq, Repr

/-- The result `{ data, options }` of `formatChartData`. -/
structure FormattedChart where
  data : ViewerData
  options : ChartOptions
  deriving DecidableEq, Repr

/-- The palette `colors` of `formatChartData`. -/
def viewerColors : List String :=
  ["#4285F4", "#EA4335", "#FBBC05", "#34A853", "#8E24AA", "#00ACC1",
   "#FB8C00", "#607D8B", "#FF5722", "#009688", "#3F51B5", "#795548"]

/-- The test `processedData.datasets.some(dataset => dataset && dataset.data &&
Array.isArray(dataset.data) && dataset.data.length > 0)`. -/
def hasValidDataset (datasets : List (Option RawDataset)) : Bool :=
  datasets.any fun dataset =>
    match dataset with
    | some ⟨_, JsField.array (_ :: _)⟩ => true
    | _ => false

/-- The background color of a line dataset,
``rgba(${index * 50 % 255}, ${(index * 80 + 100) % 255}, ${(index * 120 + 50) % 255}, 0.2)``. -/
def lineBackground (index : Nat) : String :=
  "rgba(" ++ toString (index * 50 % 255) ++ ", " ++ toString ((index * 80 + 100) % 255) ++
    ", " ++ toString ((index * 120 + 50) % 255) ++ ", 0.2)"

/-- The callback of `processedData.datasets.map` in `formatChartData`. -/
def viewerDataset (type : String) (isDarkMode : Bool) (index : Nat)
    (dataset : Option RawDataset) : ViewerDataset :=
  match dataset with
  | none =>
    { label := some ("Dataset " ++ toString (index + 1))
      data := []
      backgroundColor := colorAt viewerColors (index % viewerColors.length)
      borderColor := colorAt viewerColors (index % viewerColors.length)
      borderWidth := 2
      pointBackgroundColor := none
      pointBorderColor := none
      pointHoverRadius := none
      pointHoverBackgroundColor := none
      pointHoverBorderColor := none
      fill := none }
  | some raw =>
    { label := raw.label
      data := match raw.data with
        | JsField.array items => items
        | _ => []
      backgroundColor :=
        if type = "line" then Color.single (lineBackground index)
        else colorAt viewerColors (index % viewerColors.length)
      borderColor := colorAt viewerColors (index % viewerColors.length)
      borderWidth := 2
      pointBackgroundColor := some (colorAt viewerColors (index % viewerColors.length))
      pointBorderColor := some (if isDarkMode then "#121212" else "#ffffff")
      pointHoverRadius := some 5
      pointHoverBackgroundColor := some (colorAt viewerColors (index % viewerColors.length))
      pointHoverBorderColor := some (if isDarkMode then "#121212" else "#ffffff")
      fill := if type = "line" then some FillMode.origin else none }

/-- The text of an axis title,
`Array.isArray(field) ? field.join(', ') : field`. -/
def axisTitleText (field : AxisField) : Option String :=
  match field with
  | AxisField.columns names => some (", ".intercalate names)
  | AxisField.other value => value

/-- The `options` object of `formatChartData`, after the adjustments for the pie family
and for radar. -/
def viewerOptions (title : Option String) (type : String) (config : ViewerConfig)
    (isDarkMode : Bool) : ChartOptions :=
  let textColor := if isDarkMode then "#e0e0e0" else "#333333"
  let gridColor := if isDarkMode then "rgba(255, 255, 255, 0.1)" else "rgba(0, 0, 0, 0.1)"
  let options : ChartOptions :=
    { responsive := true
      maintainAspectRatio := false
      legendPosition := "top"
      legendColor := textColor
      titleDisplay := true
      titleText := orElse title "Chart"
      titleColor := textColor
      tooltipEnabled := true
      tooltipLabel := TooltipLabel.datasetValue
      scales := some
        [("x", { title := some { display := true, text := axisTitleText config.xAxis,
                                 color := textColor }
                 tickColor := textColor
                 gridColor := gridColor
                 beginAtZero := none }),
         ("y", { title := some { display := true, text := axisTitleText config.yAxis,
                                 color := textColor }
                 tickColor := textColor
                 gridColor := gridColor
                 beginAtZero := some true })]
      animationDuration := 1000
      animationEasing := "easeOutQuart" }
  if type = "pie" ∨ type = "doughnut" ∨ type = "polarArea" then
    { options with
      scales := none
      legendPosition := "right"
      tooltipLabel := TooltipLabel.percentage }
  else if type = "radar" then
    { options with
      scales := some
        [("r", { title := none
                 tickColor := textColor
                 gridColor := gridColor
                 beginAtZero := some true })] }
  else options

/-- The function `formatChartData(chart, isDarkMode)`; `none` is the result `null`. -/
def formatChartData (chart : Option ViewerChart) (isDarkMode : Bool) :
    Option FormattedChart :=
  match chart with
  | none => none
  | some chart =>
    match chart.processedData, chart.config with
    | none, _ => none
    | some _, none => none
    | some processedData, some config =>
      let type := orElse chart.type ""
      if type = "" then none
      else
        match processedData.datasets with
        | JsField.absent => none
        | JsField.nonArray _ => none
        | JsField.array [] => none
        | JsField.array (first :: rest) =>
          let labelsOk : Bool :=
            match processedData.labels with
            | JsField.array (_ :: _) => true
            | _ => false
          if !hasValidDataset (first :: rest) then none
          else if type ∉ ["scatter", "bubble"] ∧ labelsOk = false then none
          else
            some
              { data :=
                  { labels := processedData.labels
                    datasets := (first :: rest).mapIdx fun index dataset =>
                      viewerDataset type isDarkMode index dataset }
                options := viewerOptions chart.title type config isDarkMode }

/-! ## `ChartCreator.js` -/

/-- The `config` object of a chart specification as it is sent to the server; `none`
is an absent key (or one holding `undefined`, which JSON drops). -/
structure ChartConfig where
  type : Option String
  title : Option String
  description : Option String
  xAxis : List String
  yAxis : List String
  categoryField : Option String
  sizeField : Option String
  aggregationMethod : Option String
  deriving DecidableEq, Repr

/-- An error caught by a handler: `err.userMessage`, `err.response?.data?.message`
and `err.message`. -/
structure ApiError where
  userMessage : Option String
  responseMessage : Option String
  message : String
  deriving DecidableEq, Repr

/-- The value `new Error(message)`. -/
def ApiError.thrown (message : String) : ApiError :=
  { userMessage := none, responseMessage := none, message := message }

/-- The body `{ title, description, type, excelDataId, config }` that
`ChartCreator.saveChart` sends. -/
structure CreatorChartData where
  title : String
  description : String
  type : String
  excelDataId : String
  config : ChartConfig
  deriving DecidableEq, Repr

/-- The body `{ title, description, type, config, excelData, file }` that
`ChartEdit.saveChart` sends. -/
structure EditChartData where
  title : String
  description : String
  type : String
  config : ChartConfig
  excelData : String
  file : Option String
  deriving DecidableEq, Repr

/-- An effect issued by a handler. -/
inductive Effect where
  /-- The call `api.post('/api/charts/preview', { excelDataId, config })`. -/
  | postPreview (excelDataId : String) (config : ChartConfig)
  /-- The call `setTimeout(() => generateChartPreview(retryCount), delay)`. -/
  | scheduleRetry (retryCount : Nat) (delay : Nat)
  /-- The call `api.post('/api/charts', chartData)` of `ChartCreator.saveChart`. -/
  | createChart (chartData : CreatorChartData)
  /-- The call `api.put('/api/charts/' + id, chartData)` of `ChartCreator.saveChart`. -/
  | updateChart (id : String) (chartData : CreatorChartData)
  /-- The call `api.put('/api/charts/' + id, chartData)` of `ChartEdit.saveChart`. -/
  | putChart (id : String) (chartData : EditChartData)
  deriving DecidableEq, Repr

/-- The React state of `ChartCreator` read or written by `generateChartPreview` and
`saveChart`. The selected aggregation method is `none` when the state holds
`undefined`. -/
structure CreatorState where
  selectedExcelData : String
  chartType : String
  chartTitle : String
  chartDescription : String
  xAxisColumns : List String
  yAxisColumns : List String
  categoryColumn : String
  sizeColumn : String
  aggregationMethod : Option String
  chartColors : List String
  activeStep : Nat
  loading : Bool
  error : Option String
  errorMessage : Option String
  previewData : Option ChartData
  deriving DecidableEq, Repr

/-- The `config` of a chart as the server returns it. -/
structure ServerConfig where
  xAxis : JsField String
  yAxis : JsField String
  categoryField : Option String
  sizeField : Option String
  aggregationMethod : Option String
  deriving DecidableEq, Repr

/-- The chart object returned by `GET /api/charts/:id`, with `chart.excelData?._id` and
`chart.file?._id` flattened. -/
structure ServerChart where
  title : Option String
  description : Option String
  type : Option String
  excelDataId : Option String
  fileId : Option String
  config : Option ServerConfig
  deriving DecidableEq, Repr

/-- The message of the category-field check of the preview handlers and of
`ChartCreator.saveChart`. -/
def categoryMessage (chartType : String) : String :=
  capitalize chartType ++
    " charts require a Category field to group data points. Please select a category field."

namespace ChartCreator

/-- The state updates of `ChartCreator.fetchChartData` (edit mode) once the chart has
arrived and its data source is known, on the fields of the state kept here: data source,
title, description, type and the fields of `chart.config`. -/
def loadChart (s : CreatorState) (chart : ServerChart) : CreatorState :=
  let s₁ := { s with
    selectedExcelData := orElse chart.excelDataId ""
    chartTitle := orElse chart.title "Untitled Chart"
    chartDescription := orElse chart.description ""
    chartType := orElse chart.type "bar" }
  match chart.config with
  | some config =>
    { s₁ with
      xAxisColumns := match config.xAxis with
        | JsField.array (x :: xs) => x :: xs
        | _ => []
      yAxisColumns := match config.yAxis with
        | JsField.array ys => ys
        | _ => []
      categoryColumn := orElse config.categoryField ""
      sizeColumn := orElse config.sizeField ""
      aggregationMethod := some (orElse config.aggregationMethod "sum") }
  | none => { s₁ with xAxisColumns := [], yAxisColumns := [] }

/-- The validation prefix of `ChartCreator.generateChartPreview`: the message passed to
`setError` by the first check that fails, or the data source to use. -/
def previewValidation (s : CreatorState) (forcedExcelDataId : Option String) :
    Except String String :=
  let excelDataId := orElse forcedExcelDataId s.selectedExcelData
  if excelDataId = "" then
    Except.error "No data source selected. Please select an Excel sheet first."
  else if s.chartType = "" then
    Except.error "No chart type selected. Please select a chart type first."
  else
    let requiresXAxis : Bool := !decide (s.chartType ∈ ["pie", "doughnut", "polarArea"])
    if requiresXAxis && decide (s.xAxisColumns.length = 0) then
      Except.error "Please select at least one X-axis column for this chart type."
    else if s.yAxisColumns.length = 0 then
      Except.error "Please select at least one Y-axis column."
    else if s.chartType = "bubble" ∧ s.sizeColumn = "" then
      Except.error "Bubble charts require a Size field to determine bubble size. Please select a numeric field."
    else if s.chartType ∈ ["scatter", "bubble"] ∧ s.categoryColumn = "" then
      Except.error (categoryMessage s.chartType)
    else
      Except.ok excelDataId

/-- The `config` object built by `ChartCreator.generateChartPreview`. -/
def previewConfig (s : CreatorState) : ChartConfig :=
  { type := some s.chartType
    title := some s.chartTitle
    description := some s.chartDescription
    xAxis := s.xAxisColumns
    yAxis := s.yAxisColumns
    categoryField := orUndefined s.categoryColumn
    sizeField := orUndefined s.sizeColumn
    aggregationMethod := some (orElse s.aggregationMethod "sum") }

/-- The part of `ChartCreator.generateChartPreview` between the reply of the server
and `setPreviewData`: the formatted chart data, or the error thrown. -/
def previewFromReply (s : CreatorState) (reply : Except ApiError (Option ProcessedData)) :
    Except ApiError ChartData :=
  match reply with
  | Except.error err => Except.error err
  | Except.ok processedData =>
    let datasetsMissing : Bool :=
      match processedData with
      | none => true
      | some pd =>
        match pd.datasets with
        | JsField.absent => true
        | JsField.nonArray zeroLength => zeroLength
        | JsField.array items => decide (items.length = 0)
    let labelsMissing : Bool :=
      match processedData with
      | none => true
      | some pd =>
        match pd.labels with
        | JsField.absent => true
        | JsField.nonArray zeroLength => zeroLength
        | JsField.array items => decide (items.length = 0)
    if datasetsMissing then
      Except.error (ApiError.thrown
        "Invalid chart data received from server. The data may be empty or in an incorrect format.")
    else if !decide (s.chartType ∈ ["scatter", "bubble"]) && labelsMissing then
      Except.error (ApiError.thrown
        "No labels found in the chart data. Please check your X-axis selection.")
    else
      match formatChartPreviewData processedData s.chartType (some s.chartColors) with
      | none =>
        Except.error (ApiError.thrown
          "Failed to format chart data. Please check your selections and try again.")
      | some chartData => Except.ok chartData

/-- The message `Attempting to reconnect... (${retryCount + 1}/3)`. -/
def reconnectMessage (retryCount : Nat) : String :=
  "Attempting to reconnect... (" ++ toString (retryCount + 1) ++ "/3)"

/-- The message shown by `generateChartPreview` once the retries are used up. -/
def previewFailureMessage (err : ApiError) : String :=
  orElse err.userMessage
    (orElse err.responseMessage
      (if err.message = "Network Error" then
        "Network connection issue. Please check your internet connection."
      else
        "Failed to load chart data. Please try refreshing the page or selecting different data."))

/-- One run of `ChartCreator.generateChartPreview(retryCount, forcedExcelDataId)`,
given the reply the server makes if the preview request is posted: the new state and the
effects issued, in order. -/
def generateChartPreview (s : CreatorState) (retryCount : Nat)
    (forcedExcelDataId : Option String)
    (reply : Except ApiError (Option ProcessedData)) : CreatorState × List Effect :=
  let s₁ := { s with loading := true, error := none }
  match previewValidation s forcedExcelDataId with
  | Except.error message => ({ s₁ with error := some message, loading := false }, [])
  | Except.ok excelDataId =>
    let posted := Effect.postPreview excelDataId (previewConfig s)
    match previewFromReply s reply with
    | Except.ok chartData =>
      ({ s₁ with previewData := some chartData, loading := false }, [posted])
    | Except.error err =>
      if retryCount < 3 then
        ({ s₁ with error := some (reconnectMessage retryCount) },
          [posted, Effect.scheduleRetry (retryCount + 1) (2000 * (retryCount + 1))])
      else
        ({ s₁ with error := some (previewFailureMessage err), loading := false }, [posted])

/-- The white space of JavaScript, as removed by `trim()` and matched by `\s`. -/
def isJsSpace (c : Char) : Bool :=
  let n := c.toNat
  n = 0x09 || n = 0x0A || n = 0x0B || n = 0x0C || n = 0x0D || n = 0x20 || n = 0xA0 ||
  n = 0x1680 || (0x2000 ≤ n && n ≤ 0x200A) || n = 0x2028 || n = 0x2029 || n = 0x202F ||
  n = 0x205F || n = 0x3000 || n = 0xFEFF

/-- The method `s.trim()`, on the characters of the string. -/
def jsTrim (s : List Char) : List Char :=
  ((s.dropWhile isJsSpace).reverse.dropWhile isJsSpace).reverse

/-- The property `s.length`: the number of UTF-16 code units. -/
def jsLength (s : List Char) : Nat :=
  (s.map fun c => if c.toNat < 0x10000 then 1 else 2).sum

/-- The test `/^[a-zA-Z0-9\s]+$/.test(s)`. -/
def titlePattern (s : List Char) : Bool :=
  !s.isEmpty && s.all fun c =>
    ('a' ≤ c && c ≤ 'z') || ('A' ≤ c && c ≤ 'Z') || ('0' ≤ c && c ≤ '9') || isJsSpace c

/-- The validation prefix of `ChartCreator.saveChart`: the message of the first check
that fails, with the step the wizard moves to. -/
def saveValidation (s : CreatorState) : Except (String × Nat) Unit :=
  let trimmed := jsTrim s.chartTitle.toList
  let tooShort : Bool := trimmed.isEmpty || decide (jsLength trimmed < 3)
  if tooShort || !titlePattern s.chartTitle.toList then
    Except.error
      (if tooShort then "Please enter a chart title with at least 3 characters."
       else "Chart title can only contain letters, numbers, and spaces.", 2)
  else if s.chartType = "" then
    Except.error ("Please select a chart type before saving.", 1)
  else if s.selectedExcelData = "" then
    Except.error ("Please select a data source before saving.", 0)
  else
    let requiresXAxis : Bool := !decide (s.chartType ∈ ["pie", "doughnut", "polarArea"])
    if requiresXAxis && decide (s.xAxisColumns.length = 0) then
      Except.error ("Please select at least one X-axis column for this chart type.", 2)
    else if s.yAxisColumns.length = 0 then
      Except.error ("Please select at least one Y-axis column.", 2)
    else if s.chartType = "bubble" ∧ s.sizeColumn = "" then
      Except.error
        ("Bubble charts require a Size field to determine bubble size. Please select a numeric field.", 2)
    else if s.chartType ∈ ["scatter", "bubble"] ∧ s.categoryColumn = "" then
      Except.error (categoryMessage s.chartType, 2)
    else
      Except.ok ()

/-- The object `chartData` built by `ChartCreator.saveChart`. -/
def saveData (s : CreatorState) : CreatorChartData :=
  { title := String.mk (jsTrim s.chartTitle.toList)
    description := String.mk (jsTrim s.chartDescription.toList)
    type := s.chartType
    excelDataId := s.selectedExcelData
    config :=
      { type := none
        title := none
        description := none
        xAxis := s.xAxisColumns
        yAxis := s.yAxisColumns
        categoryField := orUndefined s.categoryColumn
        sizeField := orUndefined s.sizeColumn
        aggregationMethod := some (orElse s.aggregationMethod "sum") } }

/-- The handler `ChartCreator.saveChart` up to the request it awaits: the new state and
the request sent, if any. `id` is `isEditMode ? params.id : null`. -/
def saveChart (s : CreatorState) (isEditMode : Bool) (id : Option String) :
    CreatorState × List Effect :=
  let s₁ := { s with loading := true, error := none, errorMessage := none }
  match saveValidation s with
  | Except.error (message, step) =>
    ({ s₁ with error := some message, errorMessage := some message, activeStep := step,
               loading := false }, [])
  | Except.ok () =>
    let actionType := if isEditMode then "Updating" else "Saving"
    let s₂ := { s₁ with errorMessage := some (actionType ++ " chart... Please wait.") }
    if isEditMode && orElse id "" != "" then
      (s₂, [Effect.updateChart (orElse id "") (saveData s)])
    else
      (s₂, [Effect.createChart (saveData s)])

end ChartCreator

/-! ## `ChartEdit.js` -/

/-- The React state of `ChartEdit` read or written by `generateChartPreview` and
`saveChart`. It has no aggregation method. -/
structure EditState where
  chart : Option ServerChart
  chartType : String
  chartTitle : String
  chartDescription : String
  xAxisColumns : List String
  yAxisColumns : List String
  categoryColumn : String
  sizeColumn : String
  chartColors : List String
  previewLoading : Bool
  saving : Bool
  error : Option String
  successMessage : Option String
  previewData : Option ChartData
  deriving DecidableEq, Repr

namespace ChartEdit

/-- The identifier `chart.excelData._id`, when `chart`, `chart.excelData` and the
identifier are all truthy. -/
def excelDataId (s : EditState) : Option String :=
  match s.chart with
  | some chart => orUndefined (orElse chart.excelDataId "")
  | none => none

/-- The state updates of `ChartEdit.fetchChartData` once the chart has arrived and its
data source is known: the chart itself, title, description, type and the fields of
`chart.config`. -/
def loadChart (s : EditState) (chart : ServerChart) : EditState :=
  let s₁ := { s with
    chart := some chart
    chartTitle := orElse chart.title "Untitled Chart"
    chartDescription := orElse chart.description ""
    chartType := orElse chart.type "bar" }
  match chart.config with
  | some config =>
    { s₁ with
      xAxisColumns := match config.xAxis with
        | JsField.array (x :: xs) => x :: xs
        | _ => []
      yAxisColumns := match config.yAxis with
        | JsField.array ys => ys
        | _ => []
      categoryColumn := orElse config.categoryField ""
      sizeColumn := orElse config.sizeField "" }
  | none => { s₁ with xAxisColumns := [], yAxisColumns := [] }

/-- The validation prefix of `ChartEdit.generateChartPreview`: the message of the first
check that fails, or the data source to use. -/
def previewValidation (s : EditState) : Except String String :=
  match excelDataId s with
  | none => Except.error "Chart data is missing or invalid."
  | some dataId =>
    if s.chartType = "" then
      Except.error "No chart type selected."
    else
      let requiresXAxis : Bool := !decide (s.chartType ∈ ["pie", "doughnut", "polarArea"])
      if requiresXAxis && decide (s.xAxisColumns.length = 0) then
        Except.error "Please select at least one X-axis column for this chart type."
      else if s.yAxisColumns.length = 0 then
        Except.error "Please select at least one Y-axis column."
      else if s.chartType = "bubble" ∧ s.sizeColumn = "" then
        Except.error "Bubble charts require a Size field to determine bubble size. Please select a numeric field."
      else if s.chartType ∈ ["scatter", "bubble"] ∧ s.categoryColumn = "" then
        Except.error (categoryMessage s.chartType)
      else
        Except.ok dataId

/-- The `config` object built by `ChartEdit.generateChartPreview`. -/
def previewConfig (s : EditState) : ChartConfig :=
  { type := some s.chartType
    title := some s.chartTitle
    description := some s.chartDescription
    xAxis := s.xAxisColumns
    yAxis := s.yAxisColumns
    categoryField := orUndefined s.categoryColumn
    sizeField := orUndefined s.sizeColumn
    aggregationMethod := none }

/-- The handler `ChartEdit.generateChartPreview` up to the request it awaits: the new
state and the request posted, if any. -/
def generateChartPreview (s : EditState) : EditState × List Effect :=
  let s₁ := { s with previewLoading := true, error := none }
  match previewValidation s with
  | Except.error message => ({ s₁ with error := some message, previewLoading := false }, [])
  | Except.ok dataId => (s₁, [Effect.postPreview dataId (previewConfig s)])

/-- The validation prefix of `ChartEdit.saveChart`: the message of the first check
that fails, or the data source of the chart. -/
def saveValidation (s : EditState) : Except String String :=
  if s.chartTitle = "" ∨ ChartCreator.jsTrim s.chartTitle.toList = [] then
    Except.error "Please enter a chart title."
  else if s.chartType = "" then
    Except.error "Please select a chart type."
  else
    match excelDataId s with
    | none => Except.error "Chart data source is missing or invalid."
    | some dataId =>
      let requiresXAxis : Bool := !decide (s.chartType ∈ ["pie", "doughnut", "polarArea"])
      if requiresXAxis && decide (s.xAxisColumns.length = 0) then
        Except.error "Please select at least one X-axis column for this chart type."
      else if s.yAxisColumns.length = 0 then
        Except.error "Please select at least one Y-axis column."
      else if s.chartType = "bubble" ∧ s.sizeColumn = "" then
        Except.error "Bubble charts require a Size field. Please select a numeric field for the size."
      else if s.chartType ∈ ["scatter", "bubble"] ∧ s.categoryColumn = "" then
        Except.error (capitalize s.chartType ++
          " charts require a Category field. Please select a category field.")
      else
        Except.ok dataId

/-- The object `chartData` built by `ChartEdit.saveChart` for the data source
`dataId`. -/
def saveData (s : EditState) (dataId : String) : EditChartData :=
  { title := s.chartTitle
    description := s.chartDescription
    type := s.chartType
    config :=
      { type := none
        title := none
        description := none
        xAxis := s.xAxisColumns
        yAxis := s.yAxisColumns
        categoryField := orUndefined s.categoryColumn
        sizeField := orUndefined s.sizeColumn
        aggregationMethod := none }
    excelData := dataId
    file := match s.chart with
      | some chart => chart.fileId
      | none => none }

/-- The handler `ChartEdit.saveChart` up to the request it awaits, for the chart `id` of
the route: the new state and the request sent, if any. -/
def saveChart (s : EditState) (id : String) : EditState × List Effect :=
  let s₁ := { s with saving := true, error := none, successMessage := none }
  match saveValidation s with
  | Except.error message => ({ s₁ with error := some message, saving := false }, [])
  | Except.ok dataId => (s₁, [Effect.putChart id (saveData s dataId)])

end ChartEdit

/-- The chart configuration carried by a request; a timer carries none. -/
def Effect.config : Effect → Option ChartConfig
  | Effect.postPreview _ config => some config
  | Effect.scheduleRetry _ _ => none
  | Effect.createChart chartData => some chartData.config
  | Effect.updateChart _ chartData => some chartData.config
  | Effect.putChart _ chartData => some chartData.config

/-! ## `ChartCreator.js`: the axis handlers -/

/-- The part of the state of `ChartCreator` that the axis handlers read and write. -/
structure AxisSelection where
  chartType : String
  xAxisColumns : List String
  yAxisColumns : List String
  tempXAxisColumn : String
  tempYAxisColumn : String
  axisUpdateMode : String
  deriving DecidableEq, Repr

namespace ChartCreator

/-- The state of the axis selection when the component is mounted. -/
def initialAxisSelection : AxisSelection :=
  { chartType := "bar"
    xAxisColumns := []
    yAxisColumns := []
    tempXAxisColumn := ""
    tempYAxisColumn := ""
    axisUpdateMode := "immediate" }

/-- The handler `handleChartTypeChange(type)`. -/
def handleChartTypeChange (s : AxisSelection) (type : String) : AxisSelection :=
  let s₁ := { s with chartType := type }
  if type ∈ ["pie", "doughnut", "polarArea"] then { s₁ with xAxisColumns := [] } else s₁

/-- The handler `handleTempXAxisChange(event)`, with `value` for `event.target.value`. -/
def handleTempXAxisChange (s : AxisSelection) (value : String) : AxisSelection :=
  let s₁ := { s with tempXAxisColumn := value }
  if s.axisUpdateMode = "immediate" then
    if value ∉ s.xAxisColumns ∧ value ≠ "" then
      { s₁ with xAxisColumns := s.xAxisColumns ++ [value] }
    else s₁
  else s₁

/-- The handler `handleTempYAxisChange(event)`, with `value` for `event.target.value`. -/
def handleTempYAxisChange (s : AxisSelection) (value : String) : AxisSelection :=
  let s₁ := { s with tempYAxisColumn := value }
  if s.axisUpdateMode = "immediate" then
    if value ∉ s.yAxisColumns ∧ value ≠ "" then
      { s₁ with yAxisColumns := s.yAxisColumns ++ [value] }
    else s₁
  else s₁

/-- The handler `addAxisToChart(axisType)`. -/
def addAxisToChart (s : AxisSelection) (axisType : String) : AxisSelection :=
  if axisType = "x" ∧ s.tempXAxisColumn ≠ "" ∧ s.tempXAxisColumn ∉ s.xAxisColumns then
    { s with xAxisColumns := s.xAxisColumns ++ [s.tempXAxisColumn], tempXAxisColumn := "" }
  else if axisType = "y" ∧ s.tempYAxisColumn ≠ "" ∧ s.tempYAxisColumn ∉ s.yAxisColumns then
    { s with yAxisColumns := s.yAxisColumns ++ [s.tempYAxisColumn], tempYAxisColumn := "" }
  else s

/-- The handler `removeAxisFromChart(axisType, columnName)`. -/
def removeAxisFromChart (s : AxisSelection) (axisType : String) (columnName : String) :
    AxisSelection :=
  if axisType = "x" then
    { s with xAxisColumns := s.xAxisColumns.filter fun col => col ≠ columnName }
  else if axisType = "y" then
    { s with yAxisColumns := s.yAxisColumns.filter fun col => col ≠ columnName }
  else s

/-- The handler `toggleAxisUpdateMode()`. -/
def toggleAxisUpdateMode (s : AxisSelection) : AxisSelection :=
  { s with axisUpdateMode := if s.axisUpdateMode = "immediate" then "manual" else "immediate" }

/-- A call of one of the axis handlers. -/
inductive AxisAction where
  | tempXAxisChange (value : String)
  | tempYAxisChange (value : String)
  | addAxis (axisType : String)
  | removeAxis (axisType : String) (columnName : String)
  | chartTypeChange (type : String)
  | toggleUpdateMode
  deriving DecidableEq, Repr

/-- The state after one handler call. -/
def applyAxisAction (s : AxisSelection) : AxisAction → AxisSelection
  | AxisAction.tempXAxisChange value => handleTempXAxisChange s value
  | AxisAction.tempYAxisChange value => handleTempYAxisChange s value
  | AxisAction.addAxis axisType => addAxisToChart s axisType
  | AxisAction.removeAxis axisType columnName => removeAxisFromChart s axisType columnName
  | AxisAction.chartTypeChange type => handleChartTypeChange s type
  | AxisAction.toggleUpdateMode => toggleAxisUpdateMode s

/-- The state after a sequence of handler calls, each seeing the state left by the one
before. -/
def runAxisActions (s : AxisSelection) (actions : List AxisAction) : AxisSelection :=
  actions.foldl applyAxisAction s

end ChartCreator

/-! ## `api.js`: the retrying client -/

/-- The method `s.includes(sub)` on strings. -/
def jsIncludes (s sub : String) : Bool :=
  s.toList.tails.any fun tail => sub.toList.isPrefixOf tail

/-- The fields of `error.response` read by the interceptor: the status and
`data?.message`. -/
structure AxiosResponse where
  status : Nat
  dataMessage : Option String
  deriving DecidableEq, Repr

/-- The fields of a request config read by the interceptors; `retryCount = none` is a
config on which no retry count has been set. -/
structure RequestConfig where
  url : Option String
  retryCount : Option Nat
  deriving DecidableEq, Repr

/-- The fields of an error of the HTTP client read or written by the response
interceptor. -/
structure AxiosError where
  message : String
  code : Option String
  response : Option AxiosResponse
  config : Option RequestConfig
  userMessage : Option String
  deriving DecidableEq, Repr

namespace Api

/-- The first request interceptor: `config.retryCount = config.retryCount || 0`. -/
def requestInterceptor (config : RequestConfig) : RequestConfig :=
  { config with retryCount := some (config.retryCount.getD 0) }

/-- The status of the response of an error, if it has a response. -/
def status (error : AxiosError) : Option Nat :=
  error.response.map fun response => response.status

/-- The value `error.response?.data?.message`. -/
def dataMessage (error : AxiosError) : Option String :=
  error.response.bind fun response => response.dataMessage

/-- The test `error.response && error.response.status >= 500`. -/
def isServerError (error : AxiosError) : Bool :=
  match error.response with
  | some response => decide (500 ≤ response.status)
  | none => false

/-- The message for an error without a response whose message is `Network Error`. -/
def networkMessage (online : Bool) : String :=
  if !online then
    "You appear to be offline. Please check your internet connection and try again."
  else
    "Unable to connect to the server. The server might be down or unreachable. Please try again later."

/-- The message for a timeout. -/
def timeoutMessage : String :=
  "Request timed out. The server is taking too long to respond. Please try again later."

/-- The message for a response with a status of 500 or more. -/
def serverMessage : String :=
  "Server error occurred. Our team has been notified. Please try again later."

/-- The message for a 404 response. -/
def notFoundMessage : String :=
  "The requested resource was not found. Please check the URL and try again."

/-- The message set when the device is offline as the retry timer fires. -/
def connectionLostMessage : String :=
  "Network connection lost. Please check your internet connection and try again."

/-- The message for a 401 response. -/
def sessionExpiredMessage : String :=
  "Your session has expired. Please log in again."

/-- The value of `error.userMessage` after the six conditional assignments of the
response interceptor, in the order of the source: 401, network error, timeout, 5xx, 404
and 400; a later assignment overwrites an earlier one. `online` is `navigator.onLine`. -/
def assignedUserMessage (online : Bool) (error : AxiosError) : Option String :=
  let m₁ := if status error = some 401 then some sessionExpiredMessage else error.userMessage
  let m₂ := if error.message = "Network Error" then some (networkMessage online) else m₁
  let m₃ := if error.code = some "ECONNABORTED" then some timeoutMessage else m₂
  let m₄ := if isServerError error then some serverMessage else m₃
  let m₅ := if status error = some 404 then some notFoundMessage else m₄
  if status error = some 400 then
    some (orElse (dataMessage error) "Invalid request. Please check your input and try again.")
  else m₅

/-- The error after all assignments to `error.userMessage`: the six conditional ones and
the fallback `if (!error.userMessage)`. -/
def withUserMessage (online : Bool) (error : AxiosError) : AxiosError :=
  let unexpected := "An unexpected error occurred. Please try again."
  if orElse (assignedUserMessage online error) "" = "" then
    { error with userMessage := some (orElse (dataMessage error) unexpected) }
  else { error with userMessage := assignedUserMessage online error }

/-- The test `config.url && (config.url.includes('/api/charts') ||
config.url.includes('/charts/'))`. -/
def isChartOperation (config : RequestConfig) : Bool :=
  match config.url with
  | some url => url != "" && (jsIncludes url "/api/charts" || jsIncludes url "/charts/")
  | none => false

/-- The constant `maxRetries`: 5 for a chart operation, 3 otherwise. -/
def maxRetries (config : RequestConfig) : Nat :=
  if isChartOperation config then 5 else 3

/-- The constant `shouldRetry`; a config without a retry count is not retried
(`undefined < maxRetries` is false). -/
def shouldRetry (online : Bool) (error : AxiosError) (config : RequestConfig) : Bool :=
  online &&
  (error.message == "Network Error" || error.code == some "ECONNABORTED" ||
    isServerError error || (isChartOperation config && status error == some 404)) &&
  (match config.retryCount with
    | some retryCount => decide (retryCount < maxRetries config)
    | none => false)

/-- What the response error interceptor returns. -/
inductive Outcome where
  /-- The error is handed to the caller: `Promise.reject(error)`. -/
  | rejected (error : AxiosError)
  /-- A retry is scheduled with the incremented config, after `baseBackoff` plus a
  random jitter between -100 and 100 plus `additionalDelay` milliseconds; `error` is kept
  for the case that the device is offline when the timer fires. -/
  | retrying (error : AxiosError) (config : RequestConfig) (baseBackoff : Nat)
      (additionalDelay : Nat)
  /-- The interceptor throws on `config.url` because `error.config` is undefined. -/
  | typeError
  deriving DecidableEq, Repr

/-- The config after `config.retryCount = config.retryCount + 1`. -/
def incremented (config : RequestConfig) : RequestConfig :=
  { config with retryCount := some (config.retryCount.getD 0 + 1) }

/-- The delay `1000 * Math.pow(2, config.retryCount - 1)` of a retry, before jitter. -/
def baseBackoff (config : RequestConfig) : Nat :=
  1000 * 2 ^ (config.retryCount.getD 0 - 1)

/-- The delay added for a chart operation: 1000 on the first retry, 500 afterwards. -/
def additionalDelay (config : RequestConfig) : Nat :=
  if isChartOperation config then (if config.retryCount = some 1 then 1000 else 500) else 0

/-- The response error interceptor, with `online` for `navigator.onLine`. The retry
count is incremented on the config object that the error refers to as well. -/
def responseError (online : Bool) (error : AxiosError) : Outcome :=
  match error.config with
  | none => Outcome.typeError
  | some config =>
    let error₁ := withUserMessage online error
    if shouldRetry online error config then
      let config₁ := incremented config
      Outcome.retrying { error₁ with config := some config₁ } config₁
        (baseBackoff config₁) (additionalDelay config₁)
    else Outcome.rejected error₁

/-- The function `verifyAndRetry` run by the timer: the error handed to the caller when
the device is offline, or the config with which `api(config)` is called. -/
def verifyAndRetry (online : Bool) (error : AxiosError) (config : RequestConfig) :
    Except AxiosError RequestConfig :=
  if !online then
    Except.error { error with userMessage := some connectionLostMessage }
  else Except.ok config

/-- One failed attempt as the environment presents it: what the HTTP client reports,
`navigator.onLine` when the interceptor runs and when the retry timer fires. -/
structure Failure where
  message : String
  code : Option String
  response : Option AxiosResponse
  online : Bool
  onlineAtTimer : Bool
  deriving DecidableEq, Repr

/-- The reply to one attempt. -/
inductive Reply where
  | success
  | failure (failure : Failure)
  deriving DecidableEq, Repr

/-- How a call of `api(config)` ends for its caller. -/
inductive RunResult where
  | resolved
  | rejected (error : AxiosError)
  | typeError
  /-- The replies given do not cover the last attempt sent. -/
  | pending
  deriving DecidableEq, Repr

/-- The error that the HTTP client raises for a failed attempt sent with `config`. -/
def failureError (failure : Failure) (config : RequestConfig) : AxiosError :=
  { message := failure.message
    code := failure.code
    response := failure.response
    config := some config
    userMessage := none }

/-- A call `api(config)` against the given replies, one per attempt: how it ends, and
the configs of the requests sent, in order. Each attempt passes the request interceptor;
a failure passes the response error interceptor, and a retry calls `api` again with the
incremented config. -/
def send (config : RequestConfig) : List Reply → RunResult × List RequestConfig
  | [] => (RunResult.pending, [requestInterceptor config])
  | Reply.success :: _ => (RunResult.resolved, [requestInterceptor config])
  | Reply.failure failure :: rest =>
    let sent := requestInterceptor config
    match responseError failure.online (failureError failure sent) with
    | Outcome.rejected error₁ => (RunResult.rejected error₁, [sent])
    | Outcome.typeError => (RunResult.typeError, [sent])
    | Outcome.retrying error₁ config₁ _ _ =>
      match verifyAndRetry failure.onlineAtTimer error₁ config₁ with
      | Except.error error₂ => (RunResult.rejected error₂, [sent])
      | Except.ok config₂ =>
        let next := send config₂ rest
        (next.1, sent :: next.2)

end Api

/-! ## The Y-axis column filters -/

/-- An entry of `column.uniqueValues`: a number, a string, or a value such as `null` or a
boolean, which `parseFloat` turns into `NaN`. -/
inductive SampleValue where
  | number (v : Int)
  | text (s : String)
  | other
  deriving DecidableEq, Repr

/-- A column of `dataColumns`, as the pages build it from the server's profile. -/
structure DataColumn where
  name : String
  type : String
  isNumericField : Bool
  uniqueValues : List SampleValue
  deriving DecidableEq, Repr

/-- The test `!isNaN(parseFloat(s))` on a string: after leading white space and an
optional sign the string starts with a digit, with a dot followed by a digit, or with
`Infinity`. -/
def parseFloatIsNumber (s : String) : Bool :=
  let trimmed := s.toList.dropWhile ChartCreator.isJsSpace
  let unsigned :=
    match trimmed with
    | '+' :: rest => rest
    | '-' :: rest => rest
    | rest => rest
  match unsigned with
  | [] => false
  | [c] => c.isDigit
  | c :: d :: _ =>
    c.isDigit || (c == '.' && d.isDigit) || "Infinity".toList.isPrefixOf unsigned

/-- The test `!isNaN(parseFloat(val))` on an entry of `uniqueValues`. -/
def SampleValue.isNumber : SampleValue → Bool
  | SampleValue.number _ => true
  | SampleValue.text s => parseFloatIsNumber s
  | SampleValue.other => false

/-- The test `isNumeric` of the Y-axis filter of `ChartCreator` (the same expression is
used for `hasNumericColumns`). -/
def isNumericColumn (column : DataColumn) : Bool :=
  column.type == "number" || column.isNumericField ||
  (jsIncludes column.type "int" || jsIncludes column.type "float" ||
    jsIncludes column.type "decimal" || jsIncludes column.type "double") ||
  (column.type == "mixed" && column.uniqueValues.any SampleValue.isNumber)

/-- The `filterFn` of the Y-axis `AxisSelect` of `ChartCreator`. -/
def ChartCreator.yAxisFilter (dataColumns : List DataColumn) (yAxisColumns : List String)
    (column : DataColumn) : Bool :=
  let isNumeric := isNumericColumn column
  let hasNumericColumns := dataColumns.any isNumericColumn
  (isNumeric || !hasNumericColumns) && !yAxisColumns.contains column.name

/-- The `filterFn` of the Y-axis `AxisSelect` of `ChartEdit`. -/
def ChartEdit.yAxisFilter (yAxisColumns : List String) (column : DataColumn) : Bool :=
  column.isNumericField && !yAxisColumns.contains column.name

/-- The columns that `AxisSelect` offers: `columns.filter(filterFunction)`. -/
def offeredColumns (filterFunction : DataColumn → Bool) (columns : List DataColumn) :
    List DataColumn :=
  columns.filter filterFunction

/-! ## `ChartViewer.js`: `fetchChart` -/

namespace ChartViewer

/-- What the health check of one run of `fetchChart` comes to. -/
inductive HealthReply where
  /-- The check answers with `database.state === 1` and `querySuccess` true. -/
  | connected
  /-- The check answers with `database.state === 1` and `querySuccess` false. -/
  | queryFailing
  /-- The check answers with `database.state !== 1`. -/
  | disconnected
  /-- The check fails (the request is rejected or the answer cannot be read). -/
  | failed
  deriving DecidableEq, Repr

/-- The fields of a caught error read by `fetchChart`: `err.code`,
`err.response?.status`, `err.response?.data?.message` and `err.message`. An error thrown
by `fetchChart` itself has the message only. -/
structure FetchError where
  code : Option String
  status : Option Nat
  serverMessage : Option String
  message : String
  deriving DecidableEq, Repr

/-- What the request for the chart comes to, unless the health check sends `fetchChart`
back to its start. -/
inductive FetchReply where
  /-- The chart arrives, passes the checks and is formatted. -/
  | loaded
  /-- The request is rejected, or a check of the data throws. -/
  | error (err : FetchError)
  deriving DecidableEq, Repr

/-- The replies to one run of `fetchChart`. -/
structure Attempt where
  health : HealthReply
  fetch : FetchReply
  deriving DecidableEq, Repr

/-- The error branch in which a retry is scheduled. -/
inductive RetryKind where
  | notFound
  | server
  deriving DecidableEq, Repr

/-- How one run of `fetchChart(retryCount)` ends. -/
inductive Step where
  /-- The chart is shown: `setChartData`, `setChartOptions`, `setLoading(false)`. -/
  | loaded
  /-- The error is shown: `setError(errorMessage)`, `setLoading(false)`. -/
  | failed (errorMessage : String)
  /-- The database is not ready: after 2 seconds `fetchChart(retryCount)` is called, with
  the same retry count. -/
  | healthWait
  /-- A notice is shown and `fetchChart(retryCount + 1)` is scheduled. -/
  | retry (kind : RetryKind) (notice : String)
  deriving DecidableEq, Repr

/-- The `catch` block of `fetchChart`. -/
def handleError (retryCount : Nat) (err : FetchError) : Step :=
  if err.code = some "ECONNABORTED" then
    Step.failed "Request timed out. The server is taking too long to respond."
  else if err.status = some 404 then
    if retryCount < 8 then
      Step.retry RetryKind.notFound
        ("Chart data not found. Retrying (" ++ toString (retryCount + 1) ++ "/8)...")
    else Step.failed "Chart not found. It may have been deleted."
  else if err.status = some 403 then
    Step.failed "You do not have permission to view this chart."
  else
    match err.status with
    | some status =>
      if 500 ≤ status then
        if retryCount < 5 then
          Step.retry RetryKind.server
            ("Server error. Retrying (" ++ toString (retryCount + 1) ++ "/5)...")
        else Step.failed ("Server error (" ++ toString status ++ "). Please try again later.")
      else if orElse err.serverMessage "" ≠ "" then Step.failed (orElse err.serverMessage "")
      else if err.message ≠ "" then Step.failed err.message
      else Step.failed "Failed to load chart"
    | none =>
      if orElse err.serverMessage "" ≠ "" then Step.failed (orElse err.serverMessage "")
      else if err.message ≠ "" then Step.failed err.message
      else Step.failed "Failed to load chart"

/-- One run of `fetchChart(retryCount)` for the chart `id`. -/
def fetchChartStep (id : String) (retryCount : Nat) (attempt : Attempt) : Step :=
  if id = "" then
    handleError retryCount
      { code := none, status := none, serverMessage := none, message := "Invalid chart ID" }
  else
    match attempt.health with
    | HealthReply.queryFailing => Step.healthWait
    | HealthReply.disconnected => Step.healthWait
    | _ =>
      match attempt.fetch with
      | FetchReply.loaded => Step.loaded
      | FetchReply.error err => handleError retryCount err

/-- The runs of `fetchChart` started by `fetchChart(retryCount)`, one per attempt for
which replies are given, each run calling the next as its step says. -/
def fetchChart (id : String) : Nat → List Attempt → List Step
  | _, [] => []
  | retryCount, attempt :: rest =>
    match fetchChartStep id retryCount attempt with
    | Step.healthWait => Step.healthWait :: fetchChart id retryCount rest
    | Step.retry kind notice => Step.retry kind notice :: fetchChart id (retryCount + 1) rest
    | step => [step]

/-- Whether a step schedules a retry of the given kind. -/
def Step.isRetry (kind : RetryKind) : Step → Bool
  | Step.retry kind₁ _ => kind₁ == kind
  | _ => false

/-- Whether the health check of an attempt reports a database that is not ready. -/
def Attempt.databaseNotReady (attempt : Attempt) : Bool :=
  match attempt.health with
  | HealthReply.queryFailing => true
  | HealthReply.disconnected => true
  | _ => false

/-- Whether a step ends the loading of the chart. -/
def Step.isFinal : Step → Bool
  | Step.loaded => true
  | Step.failed _ => true
  | _ => false

end ChartViewer

/-! ## The series aggregator -/

namespace SeriesAggregator

/-- Modelled from the spec: the raw cell value of a sheet (the aggregator runs on the
server, whose code is not part of the sources kept here). A cell holds a number, a
string (dates are strings here), or is empty. -/
inductive Cell where
  | number (value : ℚ)
  | text (value : String)
  | empty
  deriving DecidableEq

/-- Modelled from the spec: the Sheet of the data model, an ordered list of header names
and an ordered list of rows, each an ordered list of cells aligned to the headers. -/
structure Sheet where
  headers : List String
  rows : List (List Cell)

/-- Modelled from the spec: what the spec leaves to the implementation of the aggregator:
which strings parse as a number, how a number is written in a grouping key, and the
separator of the string join. -/
structure Coercion where
  parse : String → Option ℚ
  showNumber : ℚ → String
  separator : String

/-- Modelled from the spec: the cell of a row under a column name; rows may be ragged and
a missing cell is treated as empty. -/
def cellAt (headers : List String) (row : List Cell) (column : String) : Cell :=
  if headers.indexOf column < headers.length then
    row.getD (headers.indexOf column) Cell.empty
  else Cell.empty

/-- Modelled from the spec: the numeric coercion of a cell: a number is itself, a string
counts when it parses as a number, an empty cell has no value. -/
def coerce (c : Coercion) : Cell → Option ℚ
  | Cell.number value => some value
  | Cell.text value => c.parse value
  | Cell.empty => none

/-- Modelled from the spec: the text of a cell inside a grouping key. -/
def keyPart (c : Coercion) : Cell → String
  | Cell.number value => c.showNumber value
  | Cell.text value => value
  | Cell.empty => ""

/-- Modelled from the spec: the grouping key of a row, the string join of the row's values
for all `xAxis` columns. -/
def groupingKey (c : Coercion) (headers xAxis : List String) (row : List Cell) : String :=
  c.separator.intercalate (xAxis.map fun column => keyPart c (cellAt headers row column))

/-- Modelled from the spec: adding a row to the groups built so far: it joins the group of
its key, or opens a new group after the existing ones (first-seen order). -/
def addRow (key : String) (row : List Cell) :
    List (String × List (List Cell)) → List (String × List (List Cell))
  | [] => [(key, [row])]
  | (k, rows) :: rest =>
    if k = key then (k, rows ++ [row]) :: rest else (k, rows) :: addRow key row rest

/-- Modelled from the spec: the groups of the category-keyed strategy, built row by row. -/
def groupRows (c : Coercion) (headers xAxis : List String) (rows : List (List Cell)) :
    List (String × List (List Cell)) :=
  rows.foldl (fun groups row => addRow (groupingKey c headers xAxis row) row groups) []

/-- Modelled from the spec: `aggregationMethod` of the ChartSpec. -/
inductive AggregationMethod where
  | sum
  | average
  | count
  | min
  | max
  deriving DecidableEq

/-- Modelled from the spec: the aggregation function over the coercible values of a group;
an empty group gives 0 for sum and count and no value for average, min and max. -/
def aggregateValues : AggregationMethod → List ℚ → Option ℚ
  | AggregationMethod.sum, values => some values.sum
  | AggregationMethod.count, values => some (values.length : ℚ)
  | AggregationMethod.average, values =>
    if values.isEmpty then none else some (values.sum / (values.length : ℚ))
  | AggregationMethod.min, [] => none
  | AggregationMethod.min, value :: values => some (values.foldl Min.min value)
  | AggregationMethod.max, [] => none
  | AggregationMethod.max, value :: values => some (values.foldl Max.max value)

/-- Modelled from the spec: a Series of the category-keyed strategy, a label and one
aggregated value per label of the chart. -/
structure Series where
  label : String
  data : List (Option ℚ)
  deriving DecidableEq

/-- Modelled from the spec: the output of the aggregator for the category-keyed chart
types. -/
structure Aggregated where
  labels : List String
  datasets : List Series
  deriving DecidableEq

/-- Modelled from the spec: the failure of the aggregator. -/
inductive AggregatorError where
  | emptyResult
  deriving DecidableEq

/-- Modelled from the spec: the coercible numeric values of a y-column in a group of
rows. -/
def coercibleValues (c : Coercion) (headers : List String) (column : String)
    (rows : List (List Cell)) : List ℚ :=
  rows.filterMap fun row => coerce c (cellAt headers row column)

/-- Modelled from the spec: the category-keyed strategy of SeriesAggregator (bar, line,
pie, doughnut, radar, polarArea): the labels are the keys of the groups in first-seen
order, each `yAxis` column gives one Series with the aggregated value of every group, and
the aggregation fails with `EmptyResultError` when every Series has zero data points. -/
def aggregate (c : Coercion) (sheet : Sheet) (xAxis yAxis : List String)
    (method : AggregationMethod) : Except AggregatorError Aggregated :=
  let groups := groupRows c sheet.headers xAxis sheet.rows
  let datasets : List Series := yAxis.map fun column =>
    { label := column
      data := groups.map fun group =>
        aggregateValues method (coercibleValues c sheet.headers column group.2) }
  if datasets.all fun series => series.data.isEmpty then
    Except.error AggregatorError.emptyResult
  else Except.ok { labels := groups.map Prod.fst, datasets := datasets }

/-- Modelled from the spec: the ordered list of distinct keys, each at the place where it
is first seen. -/
def firstSeen (keys : List String) : List String :=
  keys.foldl (fun seen key => if key ∈ seen then seen else seen ++ [key]) []

end SeriesAggregator

/-! ## Sample states -/

/-- A `ChartCreator` state at the preview step: a bar chart of `Sales` by `Region`. -/
def sampleCreator : CreatorState :=
  { selectedExcelData := "sheet-1"
    chartType := "bar"
    chartTitle := "Sales by Region"
    chartDescription := ""
    xAxisColumns := ["Region"]
    yAxisColumns := ["Sales"]
    categoryColumn := ""
    sizeColumn := ""
    aggregationMethod := some "average"
    chartColors := ["#4CAF50", "#2196F3", "#FFC107", "#F44336", "#9C27B0", "#00BCD4",
      "#FF9800", "#795548"]
    activeStep := 3
    loading := false
    error := none
    errorMessage := none
    previewData := none }

/-- The sample state with chart type pie and no X-axis column. -/
def samplePie : CreatorState :=
  { sampleCreator with chartType := "pie", xAxisColumns := [] }

/-- The sample state with chart type scatter and no category field. -/
def sampleScatter : CreatorState :=
  { sampleCreator with chartType := "scatter" }

/-- The sample state with chart type bubble and neither a category nor a size field. -/
def sampleBubble : CreatorState :=
  { sampleCreator with chartType := "bubble" }

/-- A stored chart: `Sales` by `Region` as a bar chart, aggregated by average. -/
def sampleServerChart : ServerChart :=
  { title := some "Sales by Region"
    description := none
    type := some "bar"
    excelDataId := some "sheet-1"
    fileId := some "file-1"
    config := some
      { xAxis := JsField.array ["Region"]
        yAxis := JsField.array ["Sales"]
        categoryField := none
        sizeField := none
        aggregationMethod := some "average" } }

/-- The data the server computes for the sample chart. -/
def sampleProcessed : ProcessedData :=
  { labels := JsField.array ["East", "West"]
    datasets := JsField.array
      [some { label := some "Sales", data := JsField.array [Datum.num 15, Datum.num 5] }] }

/-- Data with four datasets, the second of which is `null`. -/
def sampleSeries : ProcessedData :=
  { labels := JsField.array ["East", "West"]
    datasets := JsField.array
      [some { label := some "Sales", data := JsField.array [Datum.num 30, Datum.num 5] },
       none,
       some { label := none, data := JsField.array [Datum.num 7, Datum.num 2] },
       some { label := some "Units", data := JsField.array [Datum.num 4, Datum.num 1] }] }

/-- The chart data that `formatChartPreviewData` builds from `sampleSeries` for a line
chart and the palette `["red", "blue"]`. -/
def sampleSeriesChart : ChartData :=
  { labels := some ["East", "West"]
    datasets :=
      [{ label := some "Sales", data := [Datum.num 30, Datum.num 5],
         backgroundColor := Color.single "red", borderColor := some (Color.single "red"),
         borderWidth := some 1, fill := some false, pointRadius := none },
       { label := some "Dataset 2", data := [Datum.num 7, Datum.num 2],
         backgroundColor := Color.single "blue", borderColor := some (Color.single "blue"),
         borderWidth := some 1, fill := some false, pointRadius := none },
       { label := some "Units", data := [Datum.num 4, Datum.num 1],
         backgroundColor := Color.single "red", borderColor := some (Color.single "red"),
         borderWidth := some 1, fill := some false, pointRadius := none }] }

/-- The chart data that `formatChartPreviewData` builds from `sampleSeries` for a pie
chart and the palette `["red", "blue", "green"]`. -/
def samplePieChart : ChartData :=
  { labels := some ["East", "West"]
    datasets :=
      [{ label := none, data := [Datum.num 30, Datum.num 5],
         backgroundColor := Color.list ["red", "blue"], borderColor := none,
         borderWidth := some 1, fill := none, pointRadius := none }] }

/-- A `ChartEdit` state: the same bar chart, loaded from the server. -/
def sampleEdit : EditState :=
  { chart := some sampleServerChart
    chartType := "bar"
    chartTitle := "Sales by Region"
    chartDescription := ""
    xAxisColumns := ["Region"]
    yAxisColumns := ["Sales"]
    categoryColumn := ""
    sizeColumn := ""
    chartColors := ["#4CAF50", "#2196F3", "#FFC107", "#F44336", "#9C27B0", "#00BCD4",
      "#FF9800", "#795548"]
    previewLoading := false
    saving := false
    error := none
    successMessage := none
    previewData := none }

/-- The sample `ChartEdit` state with chart type bubble, a size field and no category
field. -/
def sampleEditBubble : EditState :=
  { sampleEdit with chartType := "bubble", sizeColumn := "Units" }

/-- Data with nine labels and one dataset of nine values. -/
def sampleNineLabels : ProcessedData :=
  { labels := JsField.array ["Jan", "Feb", "Mar", "Apr", "May", "Jun", "Jul", "Aug", "Sep"]
    datasets := JsField.array
      [some { label := some "Sales",
              data := JsField.array
                [Datum.num 1, Datum.num 2, Datum.num 3, Datum.num 4, Datum.num 5,
                 Datum.num 6, Datum.num 7, Datum.num 8, Datum.num 9] }] }

/-- Bubble data: two categories, the second with a point of radius 0. -/
def samplePoints : ProcessedData :=
  { labels := JsField.absent
    datasets := JsField.array
      [some { label := some "East",
              data := JsField.array [Datum.point 10 3 (some 4), Datum.point 20 5 (some 2)] },
       some { label := some "Empty", data := JsField.array [] },
       some { label := some "West", data := JsField.array [Datum.point 5 1 (some 0)] }] }

/-- The chart data that `formatChartPreviewData` builds from `samplePoints` for a bubble
chart and the palette `["red", "blue"]`. -/
def samplePointsChart : ChartData :=
  { labels := none
    datasets :=
      [{ label := some "East", data := [Datum.point 10 3 (some 4), Datum.point 20 5 (some 2)],
         backgroundColor := Color.single "red", borderColor := some (Color.single "red"),
         borderWidth := none, fill := none, pointRadius := some none },
       { label := some "West", data := [Datum.point 5 1 (some 0)],
         backgroundColor := Color.single "blue", borderColor := some (Color.single "blue"),
         borderWidth := none, fill := none, pointRadius := some none }] }

/-- A stored chart of the given type over the given data, as `ChartViewer` receives it:
X axis `Region` and `Year`, Y axis `Sales`. -/
def sampleViewerChart (type : String) (processedData : ProcessedData) : ViewerChart :=
  { title := some "Sales by Region"
    type := some type
    processedData := some processedData
    config := some
      { xAxis := AxisField.columns ["Region", "Year"]
        yAxis := AxisField.columns ["Sales"] } }

/-- A request for the list of uploads, as a caller passes it to `api`. -/
def sampleUploadsConfig : RequestConfig :=
  { url := some "/api/uploads", retryCount := none }

/-- A request for a chart, as a caller passes it to `api`. -/
def sampleChartConfig : RequestConfig :=
  { url := some "/api/charts/42", retryCount := none }

/-- The error of a 404 response to the request for the list of uploads. -/
def sampleNotFoundError : AxiosError :=
  { message := "Request failed with status code 404"
    code := some "ERR_BAD_REQUEST"
    response := some { status := 404, dataMessage := some "Not found" }
    config := some (Api.requestInterceptor sampleUploadsConfig)
    userMessage := none }

/-- A failed attempt with a 503 response while the device stays online. -/
def sampleServerFailure : Api.Failure :=
  { message := "Request failed with status code 503"
    code := some "ERR_BAD_RESPONSE"
    response := some { status := 503, dataMessage := none }
    online := true
    onlineAtTimer := true }

/-- A failed attempt that the HTTP client reports with the message `Network Error` and
that carries a 400 response, while the device stays online. -/
def sampleNetworkBadRequest : Api.Failure :=
  { message := "Network Error"
    code := some "ERR_NETWORK"
    response := some { status := 400, dataMessage := none }
    online := true
    onlineAtTimer := true }

/-- The profile of a string column. -/
def sampleRegionColumn : DataColumn :=
  { name := "Region", type := "string", isNumericField := false,
    uniqueValues := [SampleValue.text "East", SampleValue.text "West"] }

/-- The profile of a numeric column. -/
def sampleSalesColumn : DataColumn :=
  { name := "Sales", type := "number", isNumericField := true,
    uniqueValues := [SampleValue.number 10, SampleValue.number 20] }

/-- The profile of a sheet without any numeric column. -/
def sampleTextColumns : List DataColumn :=
  [sampleRegionColumn,
   { name := "Manager", type := "string", isNumericField := false,
     uniqueValues := [SampleValue.text "Ann"] }]

/-- An attempt whose health check reports a database that is not connected. -/
def sampleDisconnected : ChartViewer.Attempt :=
  { health := ChartViewer.HealthReply.disconnected, fetch := ChartViewer.FetchReply.loaded }

/-- An attempt whose health check passes and whose chart request gets a 404 response. -/
def sampleNotFoundAttempt : ChartViewer.Attempt :=
  { health := ChartViewer.HealthReply.connected
    fetch := ChartViewer.FetchReply.error
      { code := some "ERR_BAD_REQUEST", status := some 404, serverMessage := none,
        message := "Request failed with status code 404" } }

/-- The sheet of Example A: the rows East/10, East/20 and West/5. -/
def sampleRegionSheet : SeriesAggregator.Sheet :=
  { headers := ["Region", "Sales"]
    rows := [[SeriesAggregator.Cell.text "East", SeriesAggregator.Cell.number 10],
             [SeriesAggregator.Cell.text "East", SeriesAggregator.Cell.number 20],
             [SeriesAggregator.Cell.text "West", SeriesAggregator.Cell.number 5]] }

/-- The aggregated data of Example A. -/
def sampleRegionSums : SeriesAggregator.Aggregated :=
  { labels := ["East", "West"], datasets := [{ label := "Sales", data := [some 30, some 5] }] }

/-! ## Facts about the helpers -/

theorem orElse_ne_empty (a : Option String) (d : String) (h : d ≠ "") : orElse a d ≠ "" := by
  unfold orElse
  split
  · split <;> assumption
  · exact h

theorem categoryMessage_scatter : categoryMessage "scatter" =
    "Scatter charts require a Category field to group data points. Please select a category field." := by
  decide

theorem categoryMessage_bubble : categoryMessage "bubble" =
    "Bubble charts require a Category field to group data points. Please select a category field." := by
  decide

/-- The preview validation of `ChartCreator` accepts a state exactly when none of its six
checks fires, and then returns the data source in use. -/
theorem ChartCreator.previewValidation_ok_iff (s : CreatorState) (forced : Option String)
    (dataId : String) :
    ChartCreator.previewValidation s forced = Except.ok dataId ↔
      (dataId = orElse forced s.selectedExcelData ∧ dataId ≠ "" ∧ s.chartType ≠ "" ∧
        (s.chartType ∈ ["pie", "doughnut", "polarArea"] ∨ s.xAxisColumns ≠ []) ∧
        s.yAxisColumns ≠ [] ∧
        ¬ (s.chartType = "bubble" ∧ s.sizeColumn = "") ∧
        ¬ (s.chartType ∈ ["scatter", "bubble"] ∧ s.categoryColumn = "")) := by
  unfold ChartCreator.previewValidation
  simp only []
  split_ifs with h1 h2 h3 h4 h5 h6 <;> simp_all
  constructor
  · rintro rfl
    exact ⟨rfl, h1, by tauto⟩
  · rintro ⟨rfl, -, -⟩
    rfl

/-- The preview validation of `ChartEdit` accepts a state exactly when none of its six
checks fires, and then returns the data source of the chart. -/
theorem ChartEdit.editValidation_ok_iff (s : EditState) (dataId : String) :
    ChartEdit.previewValidation s = Except.ok dataId ↔
      (ChartEdit.excelDataId s = some dataId ∧ s.chartType ≠ "" ∧
        (s.chartType ∈ ["pie", "doughnut", "polarArea"] ∨ s.xAxisColumns ≠ []) ∧
        s.yAxisColumns ≠ [] ∧
        ¬ (s.chartType = "bubble" ∧ s.sizeColumn = "") ∧
        ¬ (s.chartType ∈ ["scatter", "bubble"] ∧ s.categoryColumn = "")) := by
  unfold ChartEdit.previewValidation
  cases hid : ChartEdit.excelDataId s with
  | none => simp
  | some d =>
    simp only []
    split_ifs with h2 h3 h4 h5 h6 <;> simp_all
    tauto

/-- A run of `ChartCreator.generateChartPreview` whose validation fails only records the
message and clears the loading flag. -/
theorem ChartCreator.generateChartPreview_of_error (s : CreatorState) (retryCount : Nat)
    (forced : Option String) (reply : Except ApiError (Option ProcessedData)) (message : String)
    (h : ChartCreator.previewValidation s forced = Except.error message) :
    ChartCreator.generateChartPreview s retryCount forced reply =
      ({ s with error := some message, loading := false }, []) := by
  simp [ChartCreator.generateChartPreview, h]

/-- The preview validation of `ChartCreator` rejects a state as soon as one of its six
checks fires. -/
theorem ChartCreator.previewValidation_error_of_check (s : CreatorState)
    (forced : Option String)
    (hfail : orElse forced s.selectedExcelData = "" ∨ s.chartType = "" ∨
      (s.chartType ∉ ["pie", "doughnut", "polarArea"] ∧ s.xAxisColumns = []) ∨
      s.yAxisColumns = [] ∨ (s.chartType = "bubble" ∧ s.sizeColumn = "") ∨
      (s.chartType ∈ ["scatter", "bubble"] ∧ s.categoryColumn = "")) :
    ∃ message, ChartCreator.previewValidation s forced = Except.error message := by
  cases hv : ChartCreator.previewValidation s forced with
  | error message => exact ⟨message, rfl⟩
  | ok dataId =>
    exfalso
    rw [ChartCreator.previewValidation_ok_iff] at hv
    obtain ⟨rfl, h1, h2, h3, h4, h5, h6⟩ := hv
    rcases hfail with h | h | h | h | h | h
    · exact h1 h
    · exact h2 h
    · rcases h3 with h3 | h3
      · exact h.1 h3
      · exact h3 h.2
    · exact h4 h
    · exact h5 h
    · exact h6 h

/-- The effects of a run of `ChartCreator.generateChartPreview` are at most the preview
request built from the state and one retry timer. -/
theorem ChartCreator.generateChartPreview_effects (s : CreatorState) (retryCount : Nat)
    (forced : Option String) (reply : Except ApiError (Option ProcessedData)) (e : Effect)
    (he : e ∈ (ChartCreator.generateChartPreview s retryCount forced reply).2) :
    (∃ dataId, e = Effect.postPreview dataId (ChartCreator.previewConfig s)) ∨
    (∃ n delay, e = Effect.scheduleRetry n delay) := by
  unfold ChartCreator.generateChartPreview at he
  cases hv : ChartCreator.previewValidation s forced with
  | error message => simp [hv] at he
  | ok dataId =>
    simp only [hv] at he
    cases hr : ChartCreator.previewFromReply s reply with
    | ok chartData =>
      simp only [hr, List.mem_singleton] at he
      exact Or.inl ⟨dataId, he⟩
    | error err =>
      simp only [hr] at he
      split_ifs at he
      · simp only [List.mem_cons, List.mem_singleton, List.not_mem_nil, or_false] at he
        rcases he with he | he
        · exact Or.inl ⟨dataId, he⟩
        · exact Or.inr ⟨_, _, he⟩
      · simp only [List.mem_singleton] at he
        exact Or.inl ⟨dataId, he⟩

/-- The only effect of `ChartCreator.saveChart` is a request that carries the chart data
built from the state. -/
theorem ChartCreator.saveChart_effects (s : CreatorState) (isEditMode : Bool)
    (id : Option String) (e : Effect)
    (he : e ∈ (ChartCreator.saveChart s isEditMode id).2) :
    e = Effect.createChart (ChartCreator.saveData s) ∨
    ∃ chartId, e = Effect.updateChart chartId (ChartCreator.saveData s) := by
  unfold ChartCreator.saveChart at he
  cases hv : ChartCreator.saveValidation s with
  | error failure => simp [hv] at he
  | ok u =>
    simp only [hv] at he
    split_ifs at he <;> simp only [List.mem_singleton] at he <;>
      first
        | exact Or.inl he
        | exact Or.inr ⟨_, he⟩

/-- For a chart type outside pie, doughnut and polarArea, a non-null result of
`formatChartPreviewData` holds the valid datasets of the input, mapped in order by the
callback of the scatter and bubble branch or by the one of the other types. -/
theorem formatChartPreviewData_datasets (processedData : Option ProcessedData)
    (chartType : String) (chartColors : Option (List String)) (chartData : ChartData)
    (htype : chartType ∉ ["pie", "doughnut", "polarArea"])
    (h : formatChartPreviewData processedData chartType chartColors = some chartData) :
    ∃ pd datasets, processedData = some pd ∧ pd.datasets = JsField.array datasets ∧
      validDatasets datasets ≠ [] ∧
      (chartData.datasets =
          (validDatasets datasets).mapIdx
            (pointDataset (effectivePalette chartColors) chartType) ∨
        chartData.datasets =
          (validDatasets datasets).mapIdx
            (seriesDataset (effectivePalette chartColors) chartType)) := by
  cases processedData with
  | none => simp [formatChartPreviewData] at h
  | some pd =>
    refine ⟨pd, ?_⟩
    cases hds : pd.datasets with
    | absent => simp [formatChartPreviewData, hds] at h
    | nonArray z => simp [formatChartPreviewData, hds] at h
    | array ds =>
      cases ds with
      | nil => simp [formatChartPreviewData, hds] at h
      | cons first rest =>
        refine ⟨first :: rest, rfl, rfl, ?_⟩
        cases hv : validDatasets (first :: rest) with
        | nil =>
          exfalso
          simp only [formatChartPreviewData, hds, hv, if_neg htype] at h
          split_ifs at h
        | cons v vs =>
          refine ⟨by simp, ?_⟩
          simp only [formatChartPreviewData, hds, hv, if_neg htype] at h
          split_ifs at h with h1 h2 h3
          · left
            simp only [Option.some.injEq] at h
            rw [← h]
          · right
            simp only [Option.some.injEq] at h
            rw [← h]

/-! ## Validation of a chart specification -/

/-- C1: in `ChartCreator.generateChartPreview`, a state with a selected data source, a
chart type among pie, doughnut and polarArea, no X-axis column and at least one Y-axis
column passes every validation check, and the preview request is posted with the config
built from the state. -/
theorem generateChartPreview_pie_family_needs_no_xAxis (s : CreatorState) (retryCount : Nat)
    (forced : Option String) (reply : Except ApiError (Option ProcessedData))
    (hsrc : s.selectedExcelData ≠ "")
    (htype : s.chartType ∈ ["pie", "doughnut", "polarArea"])
    (_hx : s.xAxisColumns = []) (hy : s.yAxisColumns ≠ []) :
    ChartCreator.previewValidation s forced = Except.ok (orElse forced s.selectedExcelData) ∧
    (ChartCreator.generateChartPreview s retryCount forced reply).2.head? =
      some (Effect.postPreview (orElse forced s.selectedExcelData)
        (ChartCreator.previewConfig s)) := by
  have hok : ChartCreator.previewValidation s forced =
      Except.ok (orElse forced s.selectedExcelData) := by
    rw [ChartCreator.previewValidation_ok_iff]
    refine ⟨rfl, orElse_ne_empty _ _ hsrc, ?_, Or.inl htype, hy, ?_, ?_⟩
    · rintro h
      rw [h] at htype
      revert htype
      decide
    · rintro ⟨h, -⟩
      rw [h] at htype
      revert htype
      decide
    · rintro ⟨h, -⟩
      simp only [List.mem_cons, List.mem_singleton, List.not_mem_nil, or_false] at h htype
      rcases h with h | h <;> rw [h] at htype <;> revert htype <;> decide
  refine ⟨hok, ?_⟩
  unfold ChartCreator.generateChartPreview
  simp only [hok]
  cases ChartCreator.previewFromReply s reply with
  | ok cd => rfl
  | error err =>
    simp only []
    split_ifs <;> rfl

theorem generateChartPreview_pie_family_needs_no_xAxis_witness :
    samplePie.selectedExcelData
      ≠ "" ∧
    ChartCreator.previewValidation samplePie
      none = Except.ok "sheet-1" ∧
    (ChartCreator.generateChartPreview samplePie
      0 none (Except.ok none)).2.head? =
      some (Effect.postPreview "sheet-1"
        (ChartCreator.previewConfig samplePie)) :=
  ⟨by decide,
    generateChartPreview_pie_family_needs_no_xAxis
      samplePie 0 none (Except.ok none)
      (by decide) (by decide) rfl (by decide)⟩

/-- C2, as stated, fails: a bubble chart with a data source, both axes, no category
field and no size field is rejected by `ChartCreator.generateChartPreview` with the
size-field message, which is not the category-field one. -/
theorem generateChartPreview_bubble_without_fields_reports_size :
    sampleBubble.selectedExcelData ≠ "" ∧
    sampleBubble.chartType ∈
      ["scatter", "bubble"] ∧
    sampleBubble.xAxisColumns ≠ [] ∧
    sampleBubble.yAxisColumns ≠ [] ∧
    sampleBubble.categoryColumn = "" ∧
    ChartCreator.previewValidation sampleBubble none =
      Except.error
        "Bubble charts require a Size field to determine bubble size. Please select a numeric field." ∧
    ChartCreator.previewValidation sampleBubble none ≠
      Except.error (categoryMessage "bubble") := by
  decide

/-- C2 (amended): for a chart type scatter or bubble with a data source and non-empty
axes, an empty category field makes `generateChartPreview` (of `ChartCreator` and of
`ChartEdit`) stop with a validation message, no request being posted. The message is the
category-field one ("... charts require a Category field ...") for scatter, and for
bubble when the size field is there; for a bubble chart whose size field is missing too
it is the size-field one. -/
theorem generateChartPreview_missing_category (s : CreatorState) (e : EditState)
    (retryCount : Nat) (forced : Option String) (reply : Except ApiError (Option ProcessedData))
    (dataId : String)
    (hsrc : s.selectedExcelData ≠ "") (hsrc' : ChartEdit.excelDataId e = some dataId)
    (htype : s.chartType ∈ ["scatter", "bubble"]) (htype' : e.chartType ∈ ["scatter", "bubble"])
    (hx : s.xAxisColumns ≠ []) (hx' : e.xAxisColumns ≠ [])
    (hy : s.yAxisColumns ≠ []) (hy' : e.yAxisColumns ≠ [])
    (hcat : s.categoryColumn = "") (hcat' : e.categoryColumn = "") :
    ((ChartCreator.generateChartPreview s retryCount forced reply).2 = [] ∧
      ((s.chartType = "bubble" → s.sizeColumn ≠ "") →
        (ChartCreator.generateChartPreview s retryCount forced reply).1.error =
          some (categoryMessage s.chartType)) ∧
      (s.chartType = "bubble" → s.sizeColumn = "" →
        (ChartCreator.generateChartPreview s retryCount forced reply).1.error = some
          "Bubble charts require a Size field to determine bubble size. Please select a numeric field.")) ∧
    ((ChartEdit.generateChartPreview e).2 = [] ∧
      ((e.chartType = "bubble" → e.sizeColumn ≠ "") →
        (ChartEdit.generateChartPreview e).1.error = some (categoryMessage e.chartType)) ∧
      (e.chartType = "bubble" → e.sizeColumn = "" →
        (ChartEdit.generateChartPreview e).1.error = some
          "Bubble charts require a Size field to determine bubble size. Please select a numeric field.")) ∧
    categoryMessage "scatter" =
      "Scatter charts require a Category field to group data points. Please select a category field." ∧
    categoryMessage "bubble" =
      "Bubble charts require a Category field to group data points. Please select a category field." := by
  have hne : orElse forced s.selectedExcelData ≠ "" := orElse_ne_empty _ _ hsrc
  simp only [List.mem_cons, List.mem_singleton, List.not_mem_nil, or_false] at htype htype'
  have hnopie : s.chartType ∉ ["pie", "doughnut", "polarArea"] := by
    rcases htype with h | h <;> rw [h] <;> decide
  have hnopie' : e.chartType ∉ ["pie", "doughnut", "polarArea"] := by
    rcases htype' with h | h <;> rw [h] <;> decide
  have hnempty : s.chartType ≠ "" := by
    rcases htype with h | h <;> rw [h] <;> decide
  have hnempty' : e.chartType ≠ "" := by
    rcases htype' with h | h <;> rw [h] <;> decide
  have hv : (s.chartType = "bubble" → s.sizeColumn ≠ "") →
      ChartCreator.previewValidation s forced = Except.error (categoryMessage s.chartType) := by
    intro hsize
    simp [ChartCreator.previewValidation, hne, hnempty, hnopie, hx, hy, hcat, htype]
    exact fun hb hs => absurd hs (hsize hb)
  have hw : s.chartType = "bubble" → s.sizeColumn = "" →
      ChartCreator.previewValidation s forced = Except.error
        "Bubble charts require a Size field to determine bubble size. Please select a numeric field." := by
    intro hb hs
    simp [ChartCreator.previewValidation, hne, hnempty, hnopie, hx, hy, hb, hs]
  have hv' : (e.chartType = "bubble" → e.sizeColumn ≠ "") →
      ChartEdit.previewValidation e = Except.error (categoryMessage e.chartType) := by
    intro hsize
    simp [ChartEdit.previewValidation, hsrc', hnempty', hnopie', hx', hy', hcat', htype']
    exact fun hb hs => absurd hs (hsize hb)
  have hw' : e.chartType = "bubble" → e.sizeColumn = "" →
      ChartEdit.previewValidation e = Except.error
        "Bubble charts require a Size field to determine bubble size. Please select a numeric field." := by
    intro hb hs
    simp [ChartEdit.previewValidation, hsrc', hnempty', hnopie', hx', hy', hb, hs]
  refine ⟨⟨?_, ?_, ?_⟩, ⟨?_, ?_, ?_⟩, categoryMessage_scatter, categoryMessage_bubble⟩
  · by_cases hsize : s.chartType = "bubble" ∧ s.sizeColumn = ""
    · simp [ChartCreator.generateChartPreview, hw hsize.1 hsize.2]
    · simp [ChartCreator.generateChartPreview, hv (fun hb hs => hsize ⟨hb, hs⟩)]
  · intro hsize
    simp [ChartCreator.generateChartPreview, hv hsize]
  · intro hb hs
    simp [ChartCreator.generateChartPreview, hw hb hs]
  · by_cases hsize : e.chartType = "bubble" ∧ e.sizeColumn = ""
    · simp [ChartEdit.generateChartPreview, hw' hsize.1 hsize.2]
    · simp [ChartEdit.generateChartPreview, hv' (fun hb hs => hsize ⟨hb, hs⟩)]
  · intro hsize
    simp [ChartEdit.generateChartPreview, hv' hsize]
  · intro hb hs
    simp [ChartEdit.generateChartPreview, hw' hb hs]

theorem generateChartPreview_missing_category_witness :
    (ChartCreator.generateChartPreview sampleScatter 0 none (Except.ok none)).2 = [] ∧
    (ChartCreator.generateChartPreview sampleScatter 0 none (Except.ok none)).1.error =
      some (categoryMessage "scatter") ∧
    (ChartEdit.generateChartPreview sampleEditBubble).2 = [] ∧
    (ChartEdit.generateChartPreview sampleEditBubble).1.error =
      some (categoryMessage "bubble") :=
  have h := generateChartPreview_missing_category sampleScatter sampleEditBubble 0 none
    (Except.ok none) "sheet-1" (by decide) (by decide) (by decide) (by decide) (by decide)
    (by decide) (by decide) (by decide) rfl rfl
  ⟨h.1.1, h.1.2.1 (by decide), h.2.1.1, h.2.1.2.1 (by decide)⟩

/-- C3: with a data source, a chart type and non-empty X and Y axes, the validation of
`ChartCreator.generateChartPreview` accepts the state if and only if a scatter or bubble
chart has a category field and a bubble chart has a size field; for bar, line, pie,
doughnut, radar and polarArea a missing category or size field is never an error. -/
theorem previewValidation_accepts_iff (s : CreatorState) (forced : Option String)
    (hsrc : s.selectedExcelData ≠ "") (htype : s.chartType ≠ "")
    (hx : s.xAxisColumns ≠ []) (hy : s.yAxisColumns ≠ []) :
    (ChartCreator.previewValidation s forced = Except.ok (orElse forced s.selectedExcelData) ↔
      ((s.chartType ∈ ["scatter", "bubble"] → s.categoryColumn ≠ "") ∧
        (s.chartType = "bubble" → s.sizeColumn ≠ ""))) ∧
    ((∃ message, ChartCreator.previewValidation s forced = Except.error message) ↔
      ¬ ((s.chartType ∈ ["scatter", "bubble"] → s.categoryColumn ≠ "") ∧
        (s.chartType = "bubble" → s.sizeColumn ≠ ""))) ∧
    (s.chartType ∈ ["bar", "line", "pie", "doughnut", "radar", "polarArea"] →
      ChartCreator.previewValidation s forced =
        Except.ok (orElse forced s.selectedExcelData)) := by
  have hiff : ChartCreator.previewValidation s forced =
        Except.ok (orElse forced s.selectedExcelData) ↔
      ((s.chartType ∈ ["scatter", "bubble"] → s.categoryColumn ≠ "") ∧
        (s.chartType = "bubble" → s.sizeColumn ≠ "")) := by
    rw [ChartCreator.previewValidation_ok_iff]
    constructor
    · rintro ⟨-, -, -, -, -, h5, h6⟩
      exact ⟨fun h hc => h6 ⟨h, hc⟩, fun h hc => h5 ⟨h, hc⟩⟩
    · rintro ⟨h6, h5⟩
      exact ⟨rfl, orElse_ne_empty _ _ hsrc, htype, Or.inr hx, hy,
        fun h => h5 h.1 h.2, fun h => h6 h.1 h.2⟩
  refine ⟨hiff, ?_, ?_⟩
  · rw [← hiff]
    constructor
    · rintro ⟨message, hm⟩ hok
      rw [hm] at hok
      exact Except.noConfusion hok
    · intro hno
      cases hv : ChartCreator.previewValidation s forced with
      | error message => exact ⟨message, rfl⟩
      | ok dataId =>
        exfalso
        apply hno
        have hid := ((ChartCreator.previewValidation_ok_iff s forced dataId).1 hv).1
        rw [hv, hid]
  · intro hmem
    rw [hiff]
    simp only [List.mem_cons, List.mem_singleton, List.not_mem_nil, or_false] at hmem ⊢
    constructor
    · intro h
      rcases hmem with h' | h' | h' | h' | h' | h' <;> rw [h'] at h <;>
        exact absurd h (by decide)
    · intro h
      rcases hmem with h' | h' | h' | h' | h' | h' <;> rw [h'] at h <;>
        exact absurd h (by decide)

theorem previewValidation_accepts_iff_witness :
    (ChartCreator.previewValidation sampleCreator none = Except.ok (orElse none "sheet-1") ↔
      ((sampleCreator.chartType ∈ ["scatter", "bubble"] → sampleCreator.categoryColumn ≠ "") ∧
        (sampleCreator.chartType = "bubble" → sampleCreator.sizeColumn ≠ ""))) ∧
    ((∃ message, ChartCreator.previewValidation sampleCreator none = Except.error message) ↔
      ¬ ((sampleCreator.chartType ∈ ["scatter", "bubble"] →
          sampleCreator.categoryColumn ≠ "") ∧
        (sampleCreator.chartType = "bubble" → sampleCreator.sizeColumn ≠ ""))) ∧
    (sampleCreator.chartType ∈ ["bar", "line", "pie", "doughnut", "radar", "polarArea"] →
      ChartCreator.previewValidation sampleCreator none = Except.ok (orElse none "sheet-1")) :=
  previewValidation_accepts_iff sampleCreator none (by decide) (by decide) (by decide)
    (by decide)

/-- C4, as stated, fails: for a bubble chart with a data source, both axes and neither a
category nor a size field, `generateChartPreview` and `saveChart` of `ChartCreator`
report the size-field message, not the category-field one. -/
theorem bubble_without_fields_reports_size_not_category :
    sampleBubble.chartType = "bubble" ∧ sampleBubble.selectedExcelData ≠ "" ∧
    sampleBubble.xAxisColumns ≠ [] ∧ sampleBubble.yAxisColumns ≠ [] ∧
    sampleBubble.categoryColumn = "" ∧ sampleBubble.sizeColumn = "" ∧
    (ChartCreator.generateChartPreview sampleBubble 0 none (Except.ok none)).1.error =
      some "Bubble charts require a Size field to determine bubble size. Please select a numeric field." ∧
    (ChartCreator.generateChartPreview sampleBubble 0 none (Except.ok none)).1.error ≠
      some (categoryMessage "bubble") ∧
    (ChartCreator.saveChart sampleBubble false none).1.error =
      some "Bubble charts require a Size field to determine bubble size. Please select a numeric field." ∧
    (ChartCreator.saveChart sampleBubble false none).1.error ≠
      some (categoryMessage "bubble") := by
  decide

/-- C4 (amended): the checks of `ChartCreator.generateChartPreview` and of
`ChartCreator.saveChart` (after its title check) run in the order type, xAxis, yAxis,
sizeField, categoryField, and the first that fails is the one reported: for a bubble
chart with a data source and non-empty axes, a missing size field yields the size-field
message whether or not the category field is missing too, and the category-field message
is reported only once the size field is there. -/
theorem bubble_validation_order (s : CreatorState) (forced : Option String)
    (hsrc : s.selectedExcelData ≠ "") (htype : s.chartType = "bubble")
    (htitle : 3 ≤ ChartCreator.jsLength (ChartCreator.jsTrim s.chartTitle.toList))
    (hpattern : ChartCreator.titlePattern s.chartTitle.toList = true) :
    (s.xAxisColumns = [] →
      ChartCreator.previewValidation s forced =
        Except.error "Please select at least one X-axis column for this chart type." ∧
      ChartCreator.saveValidation s =
        Except.error ("Please select at least one X-axis column for this chart type.", 2)) ∧
    (s.xAxisColumns ≠ [] → s.yAxisColumns = [] →
      ChartCreator.previewValidation s forced =
        Except.error "Please select at least one Y-axis column." ∧
      ChartCreator.saveValidation s =
        Except.error ("Please select at least one Y-axis column.", 2)) ∧
    (s.xAxisColumns ≠ [] → s.yAxisColumns ≠ [] → s.sizeColumn = "" →
      ChartCreator.previewValidation s forced = Except.error
        "Bubble charts require a Size field to determine bubble size. Please select a numeric field." ∧
      ChartCreator.saveValidation s = Except.error
        ("Bubble charts require a Size field to determine bubble size. Please select a numeric field.", 2)) ∧
    (s.xAxisColumns ≠ [] → s.yAxisColumns ≠ [] → s.sizeColumn ≠ "" → s.categoryColumn = "" →
      ChartCreator.previewValidation s forced = Except.error (categoryMessage "bubble") ∧
      ChartCreator.saveValidation s = Except.error (categoryMessage "bubble", 2)) := by
  have hne : orElse forced s.selectedExcelData ≠ "" := orElse_ne_empty _ _ hsrc
  have hlen : ¬ ChartCreator.jsLength (ChartCreator.jsTrim s.chartTitle.data) < 3 :=
    Nat.not_lt.mpr htitle
  have hnonempty : ¬ ChartCreator.jsTrim s.chartTitle.data = [] := by
    intro ht
    apply hlen
    rw [ht]
    decide
  have hpattern : ChartCreator.titlePattern s.chartTitle.data = true := hpattern
  have hnopie : ("bubble" : String) ∉ ["pie", "doughnut", "polarArea"] := by decide
  have hbne : ("bubble" : String) ≠ "" := by decide
  have hmem : ("bubble" : String) ∈ ["scatter", "bubble"] := by decide
  refine ⟨?_, ?_, ?_, ?_⟩
  · intro hx
    constructor
    · simp [ChartCreator.previewValidation, hne, htype, hx, hnopie, hbne]
    · simp [ChartCreator.saveValidation, hnonempty, hlen, hpattern, hsrc, htype, hx, hnopie,
        hbne]
  · intro hx hy
    constructor
    · simp [ChartCreator.previewValidation, hne, htype, hx, hy, hnopie, hbne]
    · simp [ChartCreator.saveValidation, hnonempty, hlen, hpattern, hsrc, htype, hx, hy,
        hnopie, hbne]
  · intro hx hy hsize
    constructor
    · simp [ChartCreator.previewValidation, hne, htype, hx, hy, hsize, hnopie, hbne]
    · simp [ChartCreator.saveValidation, hnonempty, hlen, hpattern, hsrc, htype, hx, hy,
        hsize, hnopie, hbne]
  · intro hx hy hsize hcat
    constructor
    · simp [ChartCreator.previewValidation, hne, htype, hx, hy, hsize, hcat, hnopie, hbne,
        hmem]
    · simp [ChartCreator.saveValidation, hnonempty, hlen, hpattern, hsrc, htype, hx, hy,
        hsize, hcat, hnopie, hbne, hmem]

theorem bubble_validation_order_witness :
    sampleBubble.selectedExcelData ≠ "" ∧ sampleBubble.chartType = "bubble" ∧
    ChartCreator.previewValidation sampleBubble none = Except.error
      "Bubble charts require a Size field to determine bubble size. Please select a numeric field." ∧
    ChartCreator.saveValidation sampleBubble = Except.error
      ("Bubble charts require a Size field to determine bubble size. Please select a numeric field.", 2) :=
  ⟨by decide, by decide,
    (bubble_validation_order sampleBubble none (by decide) (by decide) (by decide)
      (by decide)).2.2.1 (by decide) (by decide) (by decide)⟩

/-- C5: with a data source and a chart type, `ChartCreator.generateChartPreview` rejects
a bar, line, radar, scatter or bubble chart that has no X-axis column with the X-axis
message (whatever the Y axis holds: the X-axis check comes first), and rejects a chart of
any type that passes the X-axis check and has no Y-axis column with the Y-axis message;
in both cases no request is posted. -/
theorem generateChartPreview_axis_checks (s : CreatorState) (retryCount : Nat)
    (forced : Option String) (reply : Except ApiError (Option ProcessedData))
    (hsrc : s.selectedExcelData ≠ "") (htype : s.chartType ≠ "") :
    (s.chartType ∈ ["bar", "line", "radar", "scatter", "bubble"] → s.xAxisColumns = [] →
      ChartCreator.generateChartPreview s retryCount forced reply =
        ({ s with
            error := some "Please select at least one X-axis column for this chart type."
            loading := false }, [])) ∧
    ((s.chartType ∈ ["pie", "doughnut", "polarArea"] ∨ s.xAxisColumns ≠ []) →
      s.yAxisColumns = [] →
      ChartCreator.generateChartPreview s retryCount forced reply =
        ({ s with
            error := some "Please select at least one Y-axis column."
            loading := false }, [])) := by
  have hne : orElse forced s.selectedExcelData ≠ "" := orElse_ne_empty _ _ hsrc
  constructor
  · intro hmem hx
    apply ChartCreator.generateChartPreview_of_error
    have hnopie : s.chartType ∉ ["pie", "doughnut", "polarArea"] := by
      simp only [List.mem_cons, List.mem_singleton, List.not_mem_nil, or_false] at hmem
      rcases hmem with h | h | h | h | h <;> rw [h] <;> decide
    simp [ChartCreator.previewValidation, hne, htype, hx, hnopie]
  · intro hpass hy
    apply ChartCreator.generateChartPreview_of_error
    unfold ChartCreator.previewValidation
    rcases hpass with hpie | hx
    · simp [hne, htype, hy, hpie]
    · simp [hne, htype, hy, hx]

theorem generateChartPreview_axis_checks_witness :
    ChartCreator.generateChartPreview { sampleCreator with xAxisColumns := [], yAxisColumns := [] }
        0 none (Except.ok none) =
      ({ sampleCreator with
          xAxisColumns := []
          yAxisColumns := []
          error := some "Please select at least one X-axis column for this chart type."
          loading := false }, []) ∧
    ChartCreator.generateChartPreview { samplePie with yAxisColumns := [] }
        0 none (Except.ok none) =
      ({ samplePie with
          yAxisColumns := []
          error := some "Please select at least one Y-axis column."
          loading := false }, []) :=
  ⟨(generateChartPreview_axis_checks { sampleCreator with xAxisColumns := [], yAxisColumns := [] }
      0 none (Except.ok none) (by decide) (by decide)).1 (by decide) rfl,
    (generateChartPreview_axis_checks { samplePie with yAxisColumns := [] }
      0 none (Except.ok none) (by decide) (by decide)).2 (Or.inl (by decide)) rfl⟩

/-- C6: validation fails fast. Whenever one of the checks of
`ChartCreator.generateChartPreview` fails (no data source, no type, a required X axis
missing, an empty Y axis, no size field for bubble, no category field for scatter or
bubble), the run issues no effect at all (no preview request, no retry timer), leaves
`previewData` unchanged, records a message and clears the loading flag. -/
theorem generateChartPreview_fails_fast (s : CreatorState) (retryCount : Nat)
    (forced : Option String) (reply : Except ApiError (Option ProcessedData))
    (hfail : orElse forced s.selectedExcelData = "" ∨ s.chartType = "" ∨
      (s.chartType ∉ ["pie", "doughnut", "polarArea"] ∧ s.xAxisColumns = []) ∨
      s.yAxisColumns = [] ∨ (s.chartType = "bubble" ∧ s.sizeColumn = "") ∨
      (s.chartType ∈ ["scatter", "bubble"] ∧ s.categoryColumn = "")) :
    (ChartCreator.generateChartPreview s retryCount forced reply).2 = [] ∧
    (ChartCreator.generateChartPreview s retryCount forced reply).1.previewData =
      s.previewData ∧
    (∃ message, (ChartCreator.generateChartPreview s retryCount forced reply).1.error =
      some message) ∧
    (ChartCreator.generateChartPreview s retryCount forced reply).1.loading = false := by
  obtain ⟨message, hm⟩ := ChartCreator.previewValidation_error_of_check s forced hfail
  rw [ChartCreator.generateChartPreview_of_error s retryCount forced reply message hm]
  exact ⟨rfl, rfl, ⟨message, rfl⟩, rfl⟩

theorem generateChartPreview_fails_fast_witness :
    (ChartCreator.generateChartPreview sampleScatter 0 none
      (Except.ok (some sampleProcessed))).2 = [] ∧
    (ChartCreator.generateChartPreview sampleScatter 0 none
      (Except.ok (some sampleProcessed))).1.previewData = sampleScatter.previewData ∧
    (∃ message, (ChartCreator.generateChartPreview sampleScatter 0 none
      (Except.ok (some sampleProcessed))).1.error = some message) ∧
    (ChartCreator.generateChartPreview sampleScatter 0 none
      (Except.ok (some sampleProcessed))).1.loading = false :=
  generateChartPreview_fails_fast sampleScatter 0 none (Except.ok (some sampleProcessed))
    (by decide)

/-! ## The aggregation method of a chart specification -/

/-- C7: every chart specification that `ChartCreator` sends, in the preview request of
`generateChartPreview` or in the request of `saveChart`, carries an aggregation method:
the selected one when it is set, `sum` when the selection is absent or empty; its X-axis
and Y-axis lists are those of the state, unchanged and in order. -/
theorem creator_config_aggregationMethod (s : CreatorState) (retryCount : Nat)
    (forced : Option String) (reply : Except ApiError (Option ProcessedData))
    (isEditMode : Bool) (id : Option String) (e : Effect) (config : ChartConfig)
    (he : e ∈ (ChartCreator.generateChartPreview s retryCount forced reply).2 ∨
      e ∈ (ChartCreator.saveChart s isEditMode id).2)
    (hconfig : e.config = some config) :
    (∀ method, s.aggregationMethod = some method → method ≠ "" →
      config.aggregationMethod = some method) ∧
    (s.aggregationMethod = none ∨ s.aggregationMethod = some "" →
      config.aggregationMethod = some "sum") ∧
    config.xAxis = s.xAxisColumns ∧ config.yAxis = s.yAxisColumns := by
  have hcases : config = ChartCreator.previewConfig s ∨
      config = (ChartCreator.saveData s).config := by
    rcases he with he | he
    · rcases ChartCreator.generateChartPreview_effects s retryCount forced reply e he with
        ⟨dataId, rfl⟩ | ⟨n, delay, rfl⟩
      · simp only [Effect.config, Option.some.injEq] at hconfig
        exact Or.inl hconfig.symm
      · simp [Effect.config] at hconfig
    · rcases ChartCreator.saveChart_effects s isEditMode id e he with rfl | ⟨chartId, rfl⟩
      · simp only [Effect.config, Option.some.injEq] at hconfig
        exact Or.inr hconfig.symm
      · simp only [Effect.config, Option.some.injEq] at hconfig
        exact Or.inr hconfig.symm
  have hagg : config.aggregationMethod = some (orElse s.aggregationMethod "sum") ∧
      config.xAxis = s.xAxisColumns ∧ config.yAxis = s.yAxisColumns := by
    rcases hcases with rfl | rfl
    · exact ⟨rfl, rfl, rfl⟩
    · exact ⟨rfl, rfl, rfl⟩
  refine ⟨?_, ?_, hagg.2.1, hagg.2.2⟩
  · intro method hm hne
    rw [hagg.1, hm]
    simp [orElse, hne]
  · intro hm
    rw [hagg.1]
    rcases hm with hm | hm <;> rw [hm] <;> rfl

theorem creator_config_aggregationMethod_witness :
    (∀ method, sampleCreator.aggregationMethod = some method → method ≠ "" →
      (ChartCreator.saveData sampleCreator).config.aggregationMethod = some method) ∧
    (sampleCreator.aggregationMethod = none ∨ sampleCreator.aggregationMethod = some "" →
      (ChartCreator.saveData sampleCreator).config.aggregationMethod = some "sum") ∧
    (ChartCreator.saveData sampleCreator).config.xAxis = sampleCreator.xAxisColumns ∧
    (ChartCreator.saveData sampleCreator).config.yAxis = sampleCreator.yAxisColumns :=
  creator_config_aggregationMethod sampleCreator 0 none (Except.ok none) false none
    (Effect.createChart (ChartCreator.saveData sampleCreator))
    (ChartCreator.saveData sampleCreator).config (Or.inr (by decide)) rfl

/-- C8, evaluated on the code: a chart stored with the aggregation method `average` is
loaded by `ChartEdit`, previewed and saved. Both requests are sent and neither config has
an `aggregationMethod` key, whereas `ChartCreator` in edit mode sends `average` for the
same chart. -/
theorem chartEdit_drops_aggregationMethod :
    (ChartEdit.generateChartPreview (ChartEdit.loadChart sampleEdit sampleServerChart)).2 =
      [Effect.postPreview "sheet-1"
        { type := some "bar", title := some "Sales by Region", description := some "",
          xAxis := ["Region"], yAxis := ["Sales"], categoryField := none, sizeField := none,
          aggregationMethod := none }] ∧
    (ChartEdit.saveChart (ChartEdit.loadChart sampleEdit sampleServerChart) "chart-1").2 =
      [Effect.putChart "chart-1"
        { title := "Sales by Region", description := "", type := "bar",
          config :=
            { type := none, title := none, description := none, xAxis := ["Region"],
              yAxis := ["Sales"], categoryField := none, sizeField := none,
              aggregationMethod := none },
          excelData := "sheet-1", file := some "file-1" }] ∧
    (ChartCreator.saveChart (ChartCreator.loadChart sampleCreator sampleServerChart) true
        (some "chart-1")).2.map Effect.config =
      [some
        { type := none, title := none, description := none, xAxis := ["Region"],
          yAxis := ["Sales"], categoryField := none, sizeField := none,
          aggregationMethod := some "average" }] := by
  decide

/-! ## Assembly of the chart data -/

/-- C9: for a chart type outside pie, doughnut and polarArea and a non-empty palette,
the dataset at position `i` of the result of `formatChartPreviewData` (positions count
the datasets kept in the output) has `backgroundColor` and `borderColor` equal to
`palette[i mod len(palette)]`: the color is a function of the position and the palette
alone, so every run on the same input assigns the same colors. -/
theorem formatChartPreviewData_palette_cycle (processedData : Option ProcessedData)
    (chartType : String) (palette : List String) (chartData : ChartData)
    (htype : chartType ∉ ["pie", "doughnut", "polarArea"]) (hpalette : palette ≠ [])
    (h : formatChartPreviewData processedData chartType (some palette) = some chartData)
    (i : Nat) (hi : i < chartData.datasets.length) :
    ∃ hlt : i % palette.length < palette.length,
      chartData.datasets[i].backgroundColor = Color.single palette[i % palette.length] ∧
      chartData.datasets[i].borderColor = some (Color.single palette[i % palette.length]) := by
  have hlt : i % palette.length < palette.length :=
    Nat.mod_lt _ (List.length_pos.mpr hpalette)
  have heff : effectivePalette (some palette) = palette := by
    cases palette with
    | nil => exact absurd rfl hpalette
    | cons c cs => rfl
  have hcolor : colorAt palette (i % palette.length) =
      Color.single palette[i % palette.length] := by
    simp [colorAt, List.getElem?_eq_getElem hlt]
  obtain ⟨pd, datasets, -, -, -, hds⟩ :=
    formatChartPreviewData_datasets processedData chartType (some palette) chartData htype h
  rw [heff] at hds
  refine ⟨hlt, ?_⟩
  rcases hds with hds | hds
  · have hlen : i < (validDatasets datasets).length := by simpa [hds] using hi
    have hget : chartData.datasets[i] =
        pointDataset palette chartType i (validDatasets datasets)[i] := by
      simp [hds]
    rw [hget]
    exact ⟨hcolor, congrArg some hcolor⟩
  · have hlen : i < (validDatasets datasets).length := by simpa [hds] using hi
    have hget : chartData.datasets[i] =
        seriesDataset palette chartType i (validDatasets datasets)[i] := by
      simp [hds]
    rw [hget]
    exact ⟨hcolor, congrArg some hcolor⟩

theorem formatChartPreviewData_palette_cycle_witness :
    ∃ hlt : 2 % ["red", "blue"].length < ["red", "blue"].length,
      sampleSeriesChart.datasets[2].backgroundColor =
        Color.single (["red", "blue"])[2 % ["red", "blue"].length] ∧
      sampleSeriesChart.datasets[2].borderColor =
        some (Color.single (["red", "blue"])[2 % ["red", "blue"].length]) :=
  formatChartPreviewData_palette_cycle (some sampleSeries) "line" ["red", "blue"]
    sampleSeriesChart (by decide) (by decide) (by decide) 2 (by decide)

/-- C10: for the chart types pie, doughnut and polarArea, a non-null result of
`formatChartPreviewData` has exactly one dataset, whose data is the data array of the
first input dataset, unchanged, and its labels are the input labels, however many
datasets the input has. -/
theorem formatChartPreviewData_pie_single_dataset (pd : ProcessedData) (chartType : String)
    (chartColors : Option (List String)) (chartData : ChartData)
    (htype : chartType ∈ ["pie", "doughnut", "polarArea"])
    (h : formatChartPreviewData (some pd) chartType chartColors = some chartData) :
    ∃ label data rest labels,
      pd.datasets = JsField.array (some { label := label, data := JsField.array data } :: rest) ∧
      pd.labels = JsField.array labels ∧
      chartData.labels = some labels ∧
      chartData.datasets.length = 1 ∧
      chartData.datasets.map (fun dataset => dataset.data) = [data] := by
  have hns : chartType ∉ ["scatter", "bubble"] := by
    simp only [List.mem_cons, List.mem_singleton, List.not_mem_nil, or_false] at htype
    rcases htype with h' | h' | h' <;> rw [h'] <;> decide
  cases hds : pd.datasets with
  | absent => simp [formatChartPreviewData, hds] at h
  | nonArray z => simp [formatChartPreviewData, hds] at h
  | array ds =>
    cases ds with
    | nil => simp [formatChartPreviewData, hds] at h
    | cons first rest =>
      cases hl : pd.labels with
      | absent => simp [formatChartPreviewData, hds, hl, hns] at h
      | nonArray z => simp [formatChartPreviewData, hds, hl, hns] at h
      | array labels =>
        simp only [formatChartPreviewData, hds, hl, if_pos htype] at h
        split_ifs at h with h1 h2
        split at h
        · rename_i label data items hitems
          simp only [Option.some.injEq] at h hitems
          subst h
          subst hitems
          exact ⟨label, data, rest, labels, rfl, rfl, rfl, rfl, rfl⟩
        · simp at h

theorem formatChartPreviewData_pie_single_dataset_witness :
    ∃ label data rest labels,
      sampleSeries.datasets =
        JsField.array (some { label := label, data := JsField.array data } :: rest) ∧
      sampleSeries.labels = JsField.array labels ∧
      samplePieChart.labels = some labels ∧
      samplePieChart.datasets.length = 1 ∧
      samplePieChart.datasets.map (fun dataset => dataset.data) = [data] :=
  formatChartPreviewData_pie_single_dataset sampleSeries "pie" (some ["red", "blue", "green"])
    samplePieChart (by decide) (by decide)

/-! ## Facts about the two formatters -/

/-- The test of `formatChartData` for a usable dataset succeeds exactly when some entry
is an object whose `data` is a non-empty array. -/
theorem hasValidDataset_iff (datasets : List (Option RawDataset)) :
    hasValidDataset datasets = true ↔
      ∃ label x xs, some { label := label, data := JsField.array (x :: xs) } ∈ datasets := by
  unfold hasValidDataset
  rw [List.any_eq_true]
  constructor
  · rintro ⟨d, hd, hvalid⟩
    split at hvalid
    · rename_i label x xs
      exact ⟨label, x, xs, hd⟩
    · exact absurd hvalid (by simp)
  · rintro ⟨label, x, xs, hd⟩
    exact ⟨_, hd, rfl⟩

/-- A non-null result of `formatChartData` determines the shape of its input and is
built from it by `viewerDataset` and `viewerOptions`; conversely every input of that
shape has this result. -/
theorem formatChartData_eq_some_iff (chart : Option ViewerChart) (isDarkMode : Bool)
    (result : FormattedChart) :
    formatChartData chart isDarkMode = some result ↔
      ∃ c pd config type datasets, chart = some c ∧ c.processedData = some pd ∧
        c.config = some config ∧ c.type = some type ∧ type ≠ "" ∧
        pd.datasets = JsField.array datasets ∧ hasValidDataset datasets = true ∧
        (type ∈ ["scatter", "bubble"] ∨ ∃ l ls, pd.labels = JsField.array (l :: ls)) ∧
        result =
          { data :=
              { labels := pd.labels
                datasets := datasets.mapIdx (viewerDataset type isDarkMode) }
            options := viewerOptions c.title type config isDarkMode } := by
  constructor
  · intro h
    cases chart with
    | none => simp [formatChartData] at h
    | some c =>
      cases hpd : c.processedData with
      | none => simp [formatChartData, hpd] at h
      | some pd =>
        cases hcfg : c.config with
        | none => simp [formatChartData, hpd, hcfg] at h
        | some config =>
          cases htype : c.type with
          | none => simp [formatChartData, hpd, hcfg, htype, orElse] at h
          | some t =>
            by_cases ht : t = ""
            · simp [formatChartData, hpd, hcfg, htype, orElse, ht] at h
            · have hor : orElse c.type "" = t := by simp [htype, orElse, ht]
              cases hds : pd.datasets with
              | absent => simp [formatChartData, hpd, hcfg, hor, ht, hds] at h
              | nonArray z => simp [formatChartData, hpd, hcfg, hor, ht, hds] at h
              | array ds =>
                cases ds with
                | nil => simp [formatChartData, hpd, hcfg, hor, ht, hds] at h
                | cons first rest =>
                  cases hv : hasValidDataset (first :: rest) with
                  | false => simp [formatChartData, hpd, hcfg, hor, ht, hds, hv] at h
                  | true =>
                    simp only [formatChartData, hpd, hcfg, hor, if_neg ht, hds, hv,
                      Bool.not_true, Bool.false_eq_true, if_false] at h
                    split_ifs at h with hlabels
                    simp only [Option.some.injEq] at h
                    refine ⟨c, pd, config, t, first :: rest, rfl, hpd, hcfg, htype, ht, hds, hv,
                      ?_, h.symm⟩
                    by_cases hs : t ∈ ["scatter", "bubble"]
                    · exact Or.inl hs
                    · right
                      cases hl : pd.labels with
                      | absent => exact absurd ⟨hs, by simp [hl]⟩ hlabels
                      | nonArray z => exact absurd ⟨hs, by simp [hl]⟩ hlabels
                      | array labels =>
                        cases labels with
                        | nil => exact absurd ⟨hs, by simp [hl]⟩ hlabels
                        | cons l ls => exact ⟨l, ls, rfl⟩
  · rintro ⟨c, pd, config, t, datasets, rfl, hpd, hcfg, htype, ht, hds, hv, hlabels, rfl⟩
    have hor : orElse c.type "" = t := by simp [htype, orElse, ht]
    cases datasets with
    | nil => simp [hasValidDataset] at hv
    | cons first rest =>
      simp only [formatChartData, hpd, hcfg, hor, if_neg ht, hds, hv,
        Bool.not_true, Bool.false_eq_true, if_false]
      rw [if_neg]
      rintro ⟨hs, hl⟩
      rcases hlabels with hmem | ⟨l, ls, hl'⟩
      · exact hs hmem
      · simp [hl'] at hl

/-- For pie, doughnut and polarArea, a non-null result of `formatChartPreviewData` is
the input labels with the single dataset built from the first input dataset. -/
theorem formatChartPreviewData_pie (pd : ProcessedData) (chartType : String)
    (chartColors : Option (List String)) (chartData : ChartData)
    (htype : chartType ∈ ["pie", "doughnut", "polarArea"])
    (h : formatChartPreviewData (some pd) chartType chartColors = some chartData) :
    ∃ label data rest labels,
      pd.datasets = JsField.array (some { label := label, data := JsField.array data } :: rest) ∧
      pd.labels = JsField.array labels ∧
      chartData =
        { labels := some labels
          datasets := [pieDataset (effectivePalette chartColors) data labels] } := by
  have hns : chartType ∉ ["scatter", "bubble"] := by
    simp only [List.mem_cons, List.mem_singleton, List.not_mem_nil, or_false] at htype
    rcases htype with h' | h' | h' <;> rw [h'] <;> decide
  cases hds : pd.datasets with
  | absent => simp [formatChartPreviewData, hds] at h
  | nonArray z => simp [formatChartPreviewData, hds] at h
  | array ds =>
    cases ds with
    | nil => simp [formatChartPreviewData, hds] at h
    | cons first rest =>
      cases hl : pd.labels with
      | absent => simp [formatChartPreviewData, hds, hl, hns] at h
      | nonArray z => simp [formatChartPreviewData, hds, hl, hns] at h
      | array labels =>
        simp only [formatChartPreviewData, hds, hl, if_pos htype] at h
        split_ifs at h with h1 h2
        split at h
        · rename_i label data items hitems
          simp only [Option.some.injEq] at h hitems
          subst hitems
          exact ⟨label, data, rest, labels, rfl, rfl, h.symm⟩
        · simp at h

/-- For scatter and bubble, a non-null result of `formatChartPreviewData` has no labels
and holds the valid input datasets, mapped in order by `pointDataset`. -/
theorem formatChartPreviewData_points (pd : ProcessedData) (chartType : String)
    (chartColors : Option (List String)) (chartData : ChartData)
    (htype : chartType ∈ ["scatter", "bubble"])
    (h : formatChartPreviewData (some pd) chartType chartColors = some chartData) :
    ∃ datasets, pd.datasets = JsField.array datasets ∧
      chartData =
        { labels := none
          datasets := (validDatasets datasets).mapIdx
            (pointDataset (effectivePalette chartColors) chartType) } := by
  have hnp : chartType ∉ ["pie", "doughnut", "polarArea"] := by
    simp only [List.mem_cons, List.mem_singleton, List.not_mem_nil, or_false] at htype
    rcases htype with h' | h' <;> rw [h'] <;> decide
  cases hds : pd.datasets with
  | absent => simp [formatChartPreviewData, hds] at h
  | nonArray z => simp [formatChartPreviewData, hds] at h
  | array ds =>
    cases ds with
    | nil => simp [formatChartPreviewData, hds] at h
    | cons first rest =>
      refine ⟨first :: rest, rfl, ?_⟩
      cases hv : validDatasets (first :: rest) with
      | nil =>
        exfalso
        simp only [formatChartPreviewData, hds, hv, if_neg hnp, if_pos htype] at h
        split_ifs at h
      | cons v vs =>
        simp only [formatChartPreviewData, hds, hv, if_neg hnp, if_pos htype] at h
        split_ifs at h with h1 h2
        simp only [Option.some.injEq] at h
        exact h.symm

/-- For every chart type outside pie, doughnut, polarArea, scatter and bubble, a non-null
result of `formatChartPreviewData` has the input labels and holds the valid input
datasets, mapped in order by `seriesDataset`. -/
theorem formatChartPreviewData_series (pd : ProcessedData) (chartType : String)
    (chartColors : Option (List String)) (chartData : ChartData)
    (hnp : chartType ∉ ["pie", "doughnut", "polarArea"])
    (hns : chartType ∉ ["scatter", "bubble"])
    (h : formatChartPreviewData (some pd) chartType chartColors = some chartData) :
    ∃ datasets labels, pd.datasets = JsField.array datasets ∧
      pd.labels = JsField.array labels ∧
      chartData =
        { labels := some labels
          datasets := (validDatasets datasets).mapIdx
            (seriesDataset (effectivePalette chartColors) chartType) } := by
  cases hds : pd.datasets with
  | absent => simp [formatChartPreviewData, hds] at h
  | nonArray z => simp [formatChartPreviewData, hds] at h
  | array ds =>
    cases ds with
    | nil => simp [formatChartPreviewData, hds] at h
    | cons first rest =>
      cases hl : pd.labels with
      | absent => simp [formatChartPreviewData, hds, hl, hns] at h
      | nonArray z => simp [formatChartPreviewData, hds, hl, hns] at h
      | array labels =>
        refine ⟨first :: rest, labels, rfl, rfl, ?_⟩
        cases hv : validDatasets (first :: rest) with
        | nil =>
          exfalso
          simp only [formatChartPreviewData, hds, hl, hv, if_neg hnp, if_neg hns] at h
          split_ifs at h
        | cons v vs =>
          simp only [formatChartPreviewData, hds, hl, hv, if_neg hnp, if_neg hns] at h
          split_ifs at h with h1 h2
          simp only [Option.some.injEq] at h
          exact h.symm

/-- The data arrays of a list built by `mapIdx` do not depend on the index when the
callback copies the data. -/
theorem map_mapIdx_of_forall {α β γ : Type} (f : Nat → α → β) (g : β → γ) (k : α → γ)
    (hfg : ∀ i a, g (f i a) = k a) (l : List α) : (l.mapIdx f).map g = l.map k := by
  apply List.ext_getElem?
  intro i
  simp only [List.getElem?_map, List.getElem?_mapIdx]
  cases l[i]? with
  | none => rfl
  | some a => simp [hfg]

/-- The data kept by `validDatasets`: the non-empty data arrays of the input, in order. -/
theorem validDatasets_map_snd (datasets : List (Option RawDataset)) :
    (validDatasets datasets).map Prod.snd =
      datasets.filterMap fun dataset =>
        match dataset with
        | some ⟨_, JsField.array (x :: xs)⟩ => some (x :: xs)
        | _ => none := by
  unfold validDatasets
  rw [List.map_filterMap]
  congr 1
  funext dataset
  split <;> simp_all

/-- An entry kept by `validDatasets` is the label and the data of an input dataset. -/
theorem mem_validDatasets (datasets : List (Option RawDataset)) (entry : Option String × List Datum)
    (h : entry ∈ validDatasets datasets) :
    some { label := entry.1, data := JsField.array entry.2 } ∈ datasets ∧ entry.2 ≠ [] := by
  unfold validDatasets at h
  rw [List.mem_filterMap] at h
  obtain ⟨dataset, hmem, hd⟩ := h
  split at hd
  · rename_i label x xs
    simp only [Option.some.injEq] at hd
    subst hd
    exact ⟨hmem, by simp⟩
  · simp at hd

/-- An element of a list built by `mapIdx` is the image of an element of the input at
some index. -/
theorem exists_of_mem_mapIdx {α β : Type} (f : Nat → α → β) (l : List α) (b : β)
    (h : b ∈ l.mapIdx f) : ∃ i a, a ∈ l ∧ b = f i a := by
  rw [List.mem_iff_getElem] at h
  obtain ⟨i, hi, hb⟩ := h
  have hlen : i < l.length := by simpa using hi
  refine ⟨i, l[i], List.getElem_mem hlen, ?_⟩
  rw [← hb]
  simp

/-! ## Colors of the pie family -/

/-- C11, evaluated on the code: a pie chart with nine labels, formatted with the
eight-color palette of `ChartCreator`, gets a `backgroundColor` list of eight entries,
one fewer than there are labels. -/
theorem formatChartPreviewData_pie_colors_truncated :
    sampleCreator.chartColors.length = 8 ∧
    sampleNineLabels.labels =
      JsField.array ["Jan", "Feb", "Mar", "Apr", "May", "Jun", "Jul", "Aug", "Sep"] ∧
    (formatChartPreviewData (some sampleNineLabels) "pie" (some sampleCreator.chartColors)).map
        (fun chartData => chartData.datasets.map fun dataset => dataset.backgroundColor) =
      some [Color.list ["#4CAF50", "#2196F3", "#FFC107", "#F44336", "#9C27B0", "#00BCD4",
        "#FF9800", "#795548"]] := by
  decide

/-- C12, evaluated on the code: for a stored pie chart with the labels East and West,
`formatChartData` gives the dataset the single color `#4285F4`, where
`formatChartPreviewData` gives the same data a list of two colors, one per label. -/
theorem formatChartData_pie_single_color :
    (formatChartData (some (sampleViewerChart "pie" sampleProcessed)) false).map
        (fun result => result.data.datasets.map fun dataset => dataset.backgroundColor) =
      some [Color.single "#4285F4"] ∧
    (formatChartPreviewData (some sampleProcessed) "pie" none).map
        (fun chartData => chartData.datasets.map fun dataset => dataset.backgroundColor) =
      some [Color.list ["#4285F4", "#EA4335"]] := by
  decide

/-! ## Presentation attributes of the preview datasets -/

/-- C13: in a result of `formatChartPreviewData`, a dataset has `fill` equal to `false`
exactly when the chart type is line, and has no `fill` attribute for every other type
(bar and radar among them); every dataset of a bar, line or radar chart has
`borderWidth` 1. -/
theorem formatChartPreviewData_fill_iff_line (processedData : Option ProcessedData)
    (chartType : String) (chartColors : Option (List String)) (chartData : ChartData)
    (h : formatChartPreviewData processedData chartType chartColors = some chartData) :
    (∀ dataset ∈ chartData.datasets,
      (dataset.fill = some false ↔ chartType = "line") ∧
      (dataset.fill = none ↔ chartType ≠ "line")) ∧
    (chartType ∈ ["bar", "line", "radar"] →
      ∀ dataset ∈ chartData.datasets, dataset.borderWidth = some 1) := by
  cases processedData with
  | none => simp [formatChartPreviewData] at h
  | some pd =>
    by_cases hp : chartType ∈ ["pie", "doughnut", "polarArea"]
    · obtain ⟨label, data, rest, labels, -, -, rfl⟩ :=
        formatChartPreviewData_pie pd chartType chartColors chartData hp h
      have hline : chartType ≠ "line" := by
        rintro rfl
        revert hp
        decide
      constructor
      · intro dataset hd
        simp only [List.mem_singleton] at hd
        subst hd
        simp [pieDataset, hline]
      · intro hmem
        exfalso
        simp only [List.mem_cons, List.mem_singleton, List.not_mem_nil, or_false] at hmem
        rcases hmem with h' | h' | h' <;> rw [h'] at hp <;> revert hp <;> decide
    · by_cases hs : chartType ∈ ["scatter", "bubble"]
      · obtain ⟨datasets, -, rfl⟩ :=
          formatChartPreviewData_points pd chartType chartColors chartData hs h
        have hline : chartType ≠ "line" := by
          rintro rfl
          revert hs
          decide
        constructor
        · intro dataset hd
          obtain ⟨i, a, -, rfl⟩ := exists_of_mem_mapIdx _ _ _ hd
          simp [pointDataset, hline]
        · intro hmem
          exfalso
          simp only [List.mem_cons, List.mem_singleton, List.not_mem_nil, or_false] at hmem
          rcases hmem with h' | h' | h' <;> rw [h'] at hs <;> revert hs <;> decide
      · obtain ⟨datasets, labels, -, -, rfl⟩ :=
          formatChartPreviewData_series pd chartType chartColors chartData hp hs h
        constructor
        · intro dataset hd
          obtain ⟨i, a, -, rfl⟩ := exists_of_mem_mapIdx _ _ _ hd
          by_cases hline : chartType = "line" <;> simp [seriesDataset, hline]
        · intro _ dataset hd
          obtain ⟨i, a, -, rfl⟩ := exists_of_mem_mapIdx _ _ _ hd
          rfl

theorem formatChartPreviewData_fill_iff_line_witness :
    (∀ dataset ∈ sampleSeriesChart.datasets,
      (dataset.fill = some false ↔ "line" = "line") ∧
      (dataset.fill = none ↔ "line" ≠ "line")) ∧
    (∀ dataset ∈ sampleSeriesChart.datasets, dataset.borderWidth = some 1) :=
  have h := formatChartPreviewData_fill_iff_line (some sampleSeries) "line"
    (some ["red", "blue"]) sampleSeriesChart (by decide)
  ⟨h.1, h.2 (by decide)⟩

/-- C14, as stated, fails: for a stored line chart `formatChartData` gives the dataset
the fill `'origin'`, not `false`, while `formatChartPreviewData` marks the dataset of the
same data `fill: false`. -/
theorem formatChartData_line_fill_is_origin :
    (formatChartData (some (sampleViewerChart "line" sampleProcessed)) false).map
        (fun result => result.data.datasets.map fun dataset => dataset.fill) =
      some [some FillMode.origin] ∧
    FillMode.origin ≠ FillMode.flag false ∧
    (formatChartPreviewData (some sampleProcessed) "line" none).map
        (fun chartData => chartData.datasets.map fun dataset => dataset.fill) =
      some [some false] := by
  decide

/-- C14 (amended): for a chart of type line, `formatChartData` builds one dataset per
input dataset; the one built from a non-null input dataset has `fill` equal to `'origin'`
and the translucent background color of its position, the one standing for a `null`
input dataset has no `fill` attribute. `formatChartPreviewData` marks every dataset of
the same data `fill: false`, so the two formatters differ on `fill`. -/
theorem formatChartData_line_fill (c : ViewerChart) (isDarkMode : Bool)
    (result : FormattedChart) (htype : c.type = some "line")
    (h : formatChartData (some c) isDarkMode = some result) :
    ∃ pd datasets, c.processedData = some pd ∧ pd.datasets = JsField.array datasets ∧
      result.data.datasets.length = datasets.length ∧
      (∀ (i : Nat) raw, datasets[i]? = some (some raw) →
        ∃ dataset, result.data.datasets[i]? = some dataset ∧
          dataset.fill = some FillMode.origin ∧
          dataset.backgroundColor = Color.single (lineBackground i)) ∧
      (∀ (i : Nat), datasets[i]? = some none →
        ∃ dataset, result.data.datasets[i]? = some dataset ∧ dataset.fill = none) ∧
      (∀ chartColors chartData,
        formatChartPreviewData (some pd) "line" chartColors = some chartData →
        ∀ dataset ∈ chartData.datasets, dataset.fill = some false) := by
  rw [formatChartData_eq_some_iff] at h
  obtain ⟨c', pd, config, type, datasets, hc, hpd, -, htype', -, hds, -, -, rfl⟩ := h
  simp only [Option.some.injEq] at hc
  subst hc
  rw [htype] at htype'
  simp only [Option.some.injEq] at htype'
  subst htype'
  refine ⟨pd, datasets, hpd, hds, by simp, ?_, ?_, ?_⟩
  · intro i raw hi
    refine ⟨viewerDataset "line" isDarkMode i (some raw), by simp [hi], ?_, ?_⟩
    · simp [viewerDataset]
    · simp [viewerDataset]
  · intro i hi
    exact ⟨viewerDataset "line" isDarkMode i none, by simp [hi], by simp [viewerDataset]⟩
  · intro chartColors chartData hpreview dataset hd
    obtain ⟨ds, labels, -, -, rfl⟩ :=
      formatChartPreviewData_series pd "line" chartColors chartData (by decide) (by decide)
        hpreview
    obtain ⟨i, a, -, rfl⟩ := exists_of_mem_mapIdx _ _ _ hd
    simp [seriesDataset]

theorem formatChartData_line_fill_witness :
    ∃ result, formatChartData (some (sampleViewerChart "line" sampleSeries)) true = some result ∧
      ∃ pd datasets, (sampleViewerChart "line" sampleSeries).processedData = some pd ∧
        pd.datasets = JsField.array datasets ∧
        result.data.datasets.length = datasets.length ∧
        (∀ (i : Nat) raw, datasets[i]? = some (some raw) →
          ∃ dataset, result.data.datasets[i]? = some dataset ∧
            dataset.fill = some FillMode.origin ∧
            dataset.backgroundColor = Color.single (lineBackground i)) ∧
        (∀ (i : Nat), datasets[i]? = some none →
          ∃ dataset, result.data.datasets[i]? = some dataset ∧ dataset.fill = none) ∧
        (∀ chartColors chartData,
          formatChartPreviewData (some pd) "line" chartColors = some chartData →
          ∀ dataset ∈ chartData.datasets, dataset.fill = some false) := by
  cases h : formatChartData (some (sampleViewerChart "line" sampleSeries)) true with
  | none => exact absurd h (by decide)
  | some result =>
    exact ⟨result, rfl,
      formatChartData_line_fill (sampleViewerChart "line" sampleSeries) true result rfl h⟩

/-! ## Data of the datasets -/

/-- C15: for the chart types scatter and bubble, a non-null result of
`formatChartPreviewData` has no `labels`, and the data arrays of its datasets are, in
order, the data arrays of the input datasets that are non-null and have a non-empty data
array, each unchanged. -/
theorem formatChartPreviewData_points_kept (pd : ProcessedData) (chartType : String)
    (chartColors : Option (List String)) (chartData : ChartData)
    (htype : chartType ∈ ["scatter", "bubble"])
    (h : formatChartPreviewData (some pd) chartType chartColors = some chartData) :
    chartData.labels = none ∧
    ∃ datasets, pd.datasets = JsField.array datasets ∧
      chartData.datasets.map (fun dataset => dataset.data) =
        datasets.filterMap fun dataset =>
          match dataset with
          | some ⟨_, JsField.array (x :: xs)⟩ => some (x :: xs)
          | _ => none := by
  obtain ⟨datasets, hds, rfl⟩ :=
    formatChartPreviewData_points pd chartType chartColors chartData htype h
  refine ⟨rfl, datasets, hds, ?_⟩
  rw [← validDatasets_map_snd]
  exact map_mapIdx_of_forall (pointDataset (effectivePalette chartColors) chartType)
    (fun dataset => dataset.data) Prod.snd (fun _ _ => rfl) (validDatasets datasets)

theorem formatChartPreviewData_points_kept_witness :
    samplePointsChart.labels = none ∧
    ∃ datasets, samplePoints.datasets = JsField.array datasets ∧
      samplePointsChart.datasets.map (fun dataset => dataset.data) =
        datasets.filterMap fun dataset =>
          match dataset with
          | some ⟨_, JsField.array (x :: xs)⟩ => some (x :: xs)
          | _ => none :=
  formatChartPreviewData_points_kept samplePoints "bubble" (some ["red", "blue"])
    samplePointsChart (by decide) (by decide)

/-- C16, as stated, fails: a bubble point of radius 0 leaves both formatters with radius
0, so no positive minimum radius bounds the radii of the output. -/
theorem bubble_radius_not_clamped :
    formatChartPreviewData (some samplePoints) "bubble" (some ["red", "blue"]) =
      some samplePointsChart ∧
    samplePointsChart.datasets.map (fun dataset => dataset.data) =
      [[Datum.point 10 3 (some 4), Datum.point 20 5 (some 2)], [Datum.point 5 1 (some 0)]] ∧
    (formatChartData (some (sampleViewerChart "bubble" samplePoints)) false).map
        (fun result => result.data.datasets.map fun dataset => dataset.data) =
      some [[Datum.point 10 3 (some 4), Datum.point 20 5 (some 2)], [],
        [Datum.point 5 1 (some 0)]] ∧
    ∀ minimum : Int, 0 < minimum →
      ∃ dataset ∈ samplePointsChart.datasets, ∃ x y r,
        Datum.point x y (some r) ∈ dataset.data ∧ r < minimum := by
  refine ⟨by decide, by decide, by decide, ?_⟩
  intro minimum hpos
  refine ⟨_, List.mem_cons_of_mem _ (List.mem_singleton.mpr rfl), 5, 1, 0, ?_, hpos⟩
  exact List.mem_singleton.mpr rfl

/-- C16 (amended): for the chart type bubble both formatters pass the points through
unchanged, radius included. `formatChartPreviewData` keeps the data array of every
dataset it keeps and sets `pointRadius: null` on it; `formatChartData` keeps the data
array of every dataset (an entry without a data array gets the empty list). -/
theorem bubble_points_unchanged (pd : ProcessedData) (chartColors : Option (List String))
    (chartData : ChartData) (c : ViewerChart) (isDarkMode : Bool) (result : FormattedChart)
    (hpreview : formatChartPreviewData (some pd) "bubble" chartColors = some chartData)
    (hdata : c.processedData = some pd) (_htype : c.type = some "bubble")
    (hview : formatChartData (some c) isDarkMode = some result) :
    ∃ datasets, pd.datasets = JsField.array datasets ∧
      chartData.datasets.map (fun dataset => dataset.data) =
        (datasets.filterMap fun dataset =>
          match dataset with
          | some ⟨_, JsField.array (x :: xs)⟩ => some (x :: xs)
          | _ => none) ∧
      (∀ dataset ∈ chartData.datasets, dataset.pointRadius = some none) ∧
      result.data.datasets.map (fun dataset => dataset.data) =
        datasets.map fun dataset =>
          match dataset with
          | some ⟨_, JsField.array items⟩ => items
          | _ => [] := by
  obtain ⟨datasets, hds, rfl⟩ :=
    formatChartPreviewData_points pd "bubble" chartColors chartData (by decide) hpreview
  rw [formatChartData_eq_some_iff] at hview
  obtain ⟨c', pd', config, type, datasets', hc, hpd, -, -, -, hds', -, -, rfl⟩ := hview
  simp only [Option.some.injEq] at hc
  subst hc
  rw [hdata] at hpd
  simp only [Option.some.injEq] at hpd
  subst hpd
  rw [hds] at hds'
  simp only [JsField.array.injEq] at hds'
  subst hds'
  refine ⟨datasets, hds, ?_, ?_, ?_⟩
  · rw [← validDatasets_map_snd]
    exact map_mapIdx_of_forall (pointDataset (effectivePalette chartColors) "bubble")
      (fun dataset => dataset.data) Prod.snd (fun _ _ => rfl) (validDatasets datasets)
  · intro dataset hd
    obtain ⟨i, a, -, rfl⟩ := exists_of_mem_mapIdx _ _ _ hd
    simp [pointDataset]
  · apply map_mapIdx_of_forall
    intro i dataset
    cases dataset with
    | none => rfl
    | some raw =>
      obtain ⟨label, data⟩ := raw
      cases data <;> rfl

theorem bubble_points_unchanged_witness :
    ∃ result, formatChartData (some (sampleViewerChart "bubble" samplePoints)) false =
        some result ∧
      ∃ datasets, samplePoints.datasets = JsField.array datasets ∧
        samplePointsChart.datasets.map (fun dataset => dataset.data) =
          (datasets.filterMap fun dataset =>
            match dataset with
            | some ⟨_, JsField.array (x :: xs)⟩ => some (x :: xs)
            | _ => none) ∧
        (∀ dataset ∈ samplePointsChart.datasets, dataset.pointRadius = some none) ∧
        result.data.datasets.map (fun dataset => dataset.data) =
          datasets.map fun dataset =>
            match dataset with
            | some ⟨_, JsField.array items⟩ => items
            | _ => [] := by
  cases h : formatChartData (some (sampleViewerChart "bubble" samplePoints)) false with
  | none => exact absurd h (by decide)
  | some result =>
    exact ⟨result, rfl,
      bubble_points_unchanged samplePoints (some ["red", "blue"]) samplePointsChart
        (sampleViewerChart "bubble" samplePoints) false result (by decide) rfl rfl h⟩

/-- C17: for a chart type outside scatter and bubble and data in which the data array
of every dataset has as many entries as there are labels, every dataset of a non-null
result of `formatChartPreviewData` has as many data entries as the result has labels. -/
theorem formatChartPreviewData_data_length (pd : ProcessedData) (chartType : String)
    (chartColors : Option (List String)) (chartData : ChartData)
    (htype : chartType ∉ ["scatter", "bubble"])
    (hlen : ∀ datasets labels label data, pd.datasets = JsField.array datasets →
      pd.labels = JsField.array labels →
      some { label := label, data := JsField.array data } ∈ datasets →
      data.length = labels.length)
    (h : formatChartPreviewData (some pd) chartType chartColors = some chartData) :
    ∃ labels, chartData.labels = some labels ∧
      ∀ dataset ∈ chartData.datasets, dataset.data.length = labels.length := by
  by_cases hp : chartType ∈ ["pie", "doughnut", "polarArea"]
  · obtain ⟨label, data, rest, labels, hds, hl, rfl⟩ :=
      formatChartPreviewData_pie pd chartType chartColors chartData hp h
    refine ⟨labels, rfl, ?_⟩
    intro dataset hd
    simp only [List.mem_singleton] at hd
    subst hd
    exact hlen _ labels label data hds hl (List.mem_cons_self _ _)
  · obtain ⟨datasets, labels, hds, hl, rfl⟩ :=
      formatChartPreviewData_series pd chartType chartColors chartData hp htype h
    refine ⟨labels, rfl, ?_⟩
    intro dataset hd
    obtain ⟨i, entry, hentry, rfl⟩ := exists_of_mem_mapIdx _ _ _ hd
    exact hlen datasets labels entry.1 entry.2 hds hl (mem_validDatasets datasets entry hentry).1

theorem formatChartPreviewData_data_length_witness :
    ∃ labels, sampleSeriesChart.labels = some labels ∧
      ∀ dataset ∈ sampleSeriesChart.datasets, dataset.data.length = labels.length :=
  formatChartPreviewData_data_length sampleSeries "line" (some ["red", "blue"])
    sampleSeriesChart (by decide)
    (by
      intro datasets labels label data hds hl hmem
      simp only [sampleSeries, JsField.array.injEq] at hds hl
      subst hds
      subst hl
      simp only [List.mem_cons, List.mem_singleton, List.not_mem_nil, or_false,
        Option.some.injEq, RawDataset.mk.injEq, JsField.array.injEq] at hmem
      rcases hmem with ⟨-, rfl⟩ | h | ⟨-, rfl⟩ | ⟨-, rfl⟩
      · rfl
      · exact absurd h (by simp)
      · rfl
      · rfl)
    (by decide)

/-! ## Options and null results of `formatChartData` -/

/-- The options of a non-null result of `formatChartData` are those that `viewerOptions`
builds from the title, type and config of the chart. -/
theorem formatChartData_options (c : ViewerChart) (isDarkMode : Bool)
    (result : FormattedChart) (type : String) (config : ViewerConfig)
    (htype : c.type = some type) (hconfig : c.config = some config)
    (h : formatChartData (some c) isDarkMode = some result) :
    result.options = viewerOptions c.title type config isDarkMode := by
  rw [formatChartData_eq_some_iff] at h
  obtain ⟨c', pd, config', type', datasets, hc, -, hconfig', htype', -, -, -, -, rfl⟩ := h
  simp only [Option.some.injEq] at hc
  subst hc
  rw [htype] at htype'
  rw [hconfig] at hconfig'
  simp only [Option.some.injEq] at htype' hconfig'
  subst htype'
  subst hconfig'
  rfl

/-- C18: in the options of a non-null result of `formatChartData` there is no `scales`
entry for the types pie, doughnut and polarArea; for radar the `scales` entry has the
single key `r`; for every other type it has exactly the keys `x` and `y`. -/
theorem formatChartData_scales (c : ViewerChart) (isDarkMode : Bool)
    (result : FormattedChart) (type : String) (htype : c.type = some type)
    (h : formatChartData (some c) isDarkMode = some result) :
    (type ∈ ["pie", "doughnut", "polarArea"] → result.options.scales = none) ∧
    (type = "radar" → ∃ r, result.options.scales = some [("r", r)]) ∧
    (type ∉ ["pie", "doughnut", "polarArea"] → type ≠ "radar" →
      ∃ x y, result.options.scales = some [("x", x), ("y", y)]) := by
  cases hconfig : c.config with
  | none =>
    rw [formatChartData_eq_some_iff] at h
    obtain ⟨c', pd, config', type', datasets, hc, -, hconfig', -⟩ := h
    simp only [Option.some.injEq] at hc
    subst hc
    rw [hconfig] at hconfig'
    exact absurd hconfig' (by simp)
  | some config =>
    rw [formatChartData_options c isDarkMode result type config htype hconfig h]
    refine ⟨?_, ?_, ?_⟩
    · intro hp
      simp only [List.mem_cons, List.mem_singleton, List.not_mem_nil, or_false] at hp
      simp [viewerOptions, hp]
    · rintro rfl
      simp [viewerOptions]
    · intro hp hr
      simp only [List.mem_cons, List.mem_singleton, List.not_mem_nil, or_false] at hp
      simp [viewerOptions, hp, hr]

theorem formatChartData_scales_witness :
    ∃ result, formatChartData (some (sampleViewerChart "radar" sampleProcessed)) false =
        some result ∧
      ∃ r, result.options.scales = some [("r", r)] := by
  cases h : formatChartData (some (sampleViewerChart "radar" sampleProcessed)) false with
  | none => exact absurd h (by decide)
  | some result =>
    exact ⟨result, rfl,
      (formatChartData_scales (sampleViewerChart "radar" sampleProcessed) false result "radar"
        rfl h).2.1 rfl⟩

/-- C19: for a chart type with cartesian scales (any type but pie, doughnut, polarArea
and radar), the options of a non-null result of `formatChartData` have an x-axis title
whose text is the `xAxis` column names joined with `', '` when `config.xAxis` is a list,
and `config.xAxis` itself when it is not; likewise the y-axis title and `config.yAxis`. -/
theorem formatChartData_axis_titles (c : ViewerChart) (isDarkMode : Bool)
    (result : FormattedChart) (type : String) (config : ViewerConfig)
    (htype : c.type = some type) (hconfig : c.config = some config)
    (hpie : type ∉ ["pie", "doughnut", "polarArea"]) (hradar : type ≠ "radar")
    (h : formatChartData (some c) isDarkMode = some result) :
    ∃ x y xTitle yTitle, result.options.scales = some [("x", x), ("y", y)] ∧
      x.title = some xTitle ∧ y.title = some yTitle ∧
      (∀ names, config.xAxis = AxisField.columns names →
        xTitle.text = some (", ".intercalate names)) ∧
      (∀ value, config.xAxis = AxisField.other value → xTitle.text = value) ∧
      (∀ names, config.yAxis = AxisField.columns names →
        yTitle.text = some (", ".intercalate names)) ∧
      (∀ value, config.yAxis = AxisField.other value → yTitle.text = value) := by
  rw [formatChartData_options c isDarkMode result type config htype hconfig h]
  simp only [List.mem_cons, List.mem_singleton, List.not_mem_nil, or_false] at hpie
  refine ⟨_, _, _, _, by simp only [viewerOptions, if_neg hpie, if_neg hradar]; rfl, rfl, rfl,
    ?_, ?_, ?_, ?_⟩
  · intro names hx
    simp [hx, axisTitleText]
  · intro value hx
    simp [hx, axisTitleText]
  · intro names hy
    simp [hy, axisTitleText]
  · intro value hy
    simp [hy, axisTitleText]

theorem formatChartData_axis_titles_witness :
    ∃ result, formatChartData (some (sampleViewerChart "bar" sampleProcessed)) false =
        some result ∧
      ∃ x y xTitle yTitle, result.options.scales = some [("x", x), ("y", y)] ∧
        x.title = some xTitle ∧ y.title = some yTitle ∧
        xTitle.text = some "Region, Year" ∧ yTitle.text = some "Sales" := by
  cases h : formatChartData (some (sampleViewerChart "bar" sampleProcessed)) false with
  | none => exact absurd h (by decide)
  | some result =>
    obtain ⟨x, y, xTitle, yTitle, hscales, hx, hy, hxcols, -, hycols, -⟩ :=
      formatChartData_axis_titles (sampleViewerChart "bar" sampleProcessed) false result "bar"
        { xAxis := AxisField.columns ["Region", "Year"], yAxis := AxisField.columns ["Sales"] }
        rfl rfl (by decide) (by decide) h
    exact ⟨result, rfl, x, y, xTitle, yTitle, hscales, hx, hy,
      (hxcols ["Region", "Year"] rfl).trans (by decide),
      (hycols ["Sales"] rfl).trans (by decide)⟩

/-- C20: `formatChartData` returns `null` if and only if the chart is missing, or its
`processedData`, `config` or `type` is missing, or `processedData.datasets` is not a
non-empty array, or no dataset has a non-empty data array, or the type is outside scatter
and bubble and `processedData.labels` is not a non-empty array. In every other case the
result has a `data` and an `options` part and as many datasets as the input. -/
theorem formatChartData_null_iff (chart : Option ViewerChart) (isDarkMode : Bool) :
    (formatChartData chart isDarkMode = none ↔
      (chart = none ∨
        ∃ c, chart = some c ∧
          (c.processedData = none ∨ c.config = none ∨ c.type = none ∨ c.type = some "" ∨
            ∃ pd type, c.processedData = some pd ∧ c.type = some type ∧
              ((∀ first rest, pd.datasets ≠ JsField.array (first :: rest)) ∨
                (∀ datasets, pd.datasets = JsField.array datasets →
                  ∀ label x xs,
                    some { label := label, data := JsField.array (x :: xs) } ∉ datasets) ∨
                (type ∉ ["scatter", "bubble"] ∧
                  ∀ l ls, pd.labels ≠ JsField.array (l :: ls)))))) ∧
    (∀ result, formatChartData chart isDarkMode = some result →
      ∃ c pd datasets, chart = some c ∧ c.processedData = some pd ∧
        pd.datasets = JsField.array datasets ∧
        result.data.datasets.length = datasets.length) := by
  constructor
  · constructor
    · intro hnull
      cases chart with
      | none => exact Or.inl rfl
      | some c =>
        refine Or.inr ⟨c, rfl, ?_⟩
        cases hpd : c.processedData with
        | none => exact Or.inl rfl
        | some pd =>
          cases hconfig : c.config with
          | none => exact Or.inr (Or.inl rfl)
          | some config =>
            cases htype : c.type with
            | none => exact Or.inr (Or.inr (Or.inl rfl))
            | some type =>
              by_cases hempty : type = ""
              · exact Or.inr (Or.inr (Or.inr (Or.inl (by rw [hempty]))))
              · refine Or.inr (Or.inr (Or.inr (Or.inr ⟨pd, type, rfl, rfl, ?_⟩)))
                by_contra hnot
                simp only [not_or, not_forall, not_and, not_not] at hnot
                obtain ⟨⟨first, rest, hds⟩, hvalid, hlabels⟩ := hnot
                obtain ⟨datasets, hds', label, x, xs, hmem⟩ := hvalid
                have hv : hasValidDataset datasets = true :=
                  (hasValidDataset_iff datasets).2 ⟨label, x, xs, hmem⟩
                have hl : type ∈ ["scatter", "bubble"] ∨
                    ∃ l ls, pd.labels = JsField.array (l :: ls) := by
                  by_cases hs : type ∈ ["scatter", "bubble"]
                  · exact Or.inl hs
                  · exact Or.inr (hlabels hs)
                have hsome := (formatChartData_eq_some_iff (some c) isDarkMode _).2
                  ⟨c, pd, config, type, datasets, rfl, hpd, hconfig, htype, hempty, hds', hv,
                    hl, rfl⟩
                rw [hnull] at hsome
                exact absurd hsome (by simp)
    · intro hcases
      cases hresult : formatChartData chart isDarkMode with
      | none => rfl
      | some result =>
        exfalso
        rw [formatChartData_eq_some_iff] at hresult
        obtain ⟨c, pd, config, type, datasets, hc, hpd, hconfig, htype, hempty, hds, hv, hl,
          -⟩ := hresult
        rcases hcases with hnone | ⟨c', hc', hrest⟩
        · rw [hnone] at hc
          exact absurd hc (by simp)
        · rw [hc'] at hc
          simp only [Option.some.injEq] at hc
          subst hc
          rcases hrest with h | h | h | h | ⟨pd', type', hpd', htype', h⟩
          · rw [h] at hpd
            exact absurd hpd (by simp)
          · rw [h] at hconfig
            exact absurd hconfig (by simp)
          · rw [h] at htype
            exact absurd htype (by simp)
          · rw [h] at htype
            simp only [Option.some.injEq] at htype
            exact hempty htype.symm
          · rw [hpd'] at hpd
            rw [htype'] at htype
            simp only [Option.some.injEq] at hpd htype
            subst hpd
            subst htype
            obtain ⟨label, x, xs, hmem⟩ := (hasValidDataset_iff datasets).1 hv
            rcases h with h | h | ⟨hs, h⟩
            · cases datasets with
              | nil => exact absurd hmem (List.not_mem_nil _)
              | cons first rest => exact h first rest hds
            · exact h datasets hds label x xs hmem
            · rcases hl with hl | ⟨l, ls, hl⟩
              · exact hs hl
              · exact h l ls hl
  · intro result hresult
    rw [formatChartData_eq_some_iff] at hresult
    obtain ⟨c, pd, config, type, datasets, hc, hpd, -, -, -, hds, -, -, rfl⟩ := hresult
    exact ⟨c, pd, datasets, hc, hpd, hds, by simp⟩

/-! ## Null results and the palette of `formatChartPreviewData` -/

/-- No dataset is kept by `validDatasets` exactly when no entry of the input is an
object whose `data` is a non-empty array. -/
theorem validDatasets_eq_nil_iff (datasets : List (Option RawDataset)) :
    validDatasets datasets = [] ↔
      ∀ label x xs, some { label := label, data := JsField.array (x :: xs) } ∉ datasets := by
  constructor
  · intro hnil label x xs hmem
    have hin : (label, x :: xs) ∈ validDatasets datasets := by
      unfold validDatasets
      rw [List.mem_filterMap]
      exact ⟨_, hmem, rfl⟩
    rw [hnil] at hin
    exact absurd hin (List.not_mem_nil _)
  · intro hall
    cases hv : validDatasets datasets with
    | nil => rfl
    | cons entry rest =>
      exfalso
      have hin : entry ∈ validDatasets datasets := by
        rw [hv]
        exact List.mem_cons_self _ _
      obtain ⟨hmem, hne⟩ := mem_validDatasets datasets entry hin
      cases hdata : entry.2 with
      | nil => exact hne hdata
      | cons x xs =>
        rw [hdata] at hmem
        exact hall entry.1 x xs hmem

/-- C21: `formatChartPreviewData` returns `null` if and only if `processedData` or
`chartType` is missing, or `datasets` is not a non-empty array, or the type is outside
scatter and bubble and `labels` is not an array, or the type is pie, doughnut or
polarArea and the first dataset has no data array, or the type is none of these three
and no dataset has a non-empty data array. An empty `labels` array is accepted, and so
is, for the pie family, an empty data array in the first dataset. -/
theorem formatChartPreviewData_null_iff (processedData : Option ProcessedData)
    (chartType : String) (chartColors : Option (List String)) :
    (formatChartPreviewData processedData chartType chartColors = none ↔
      (processedData = none ∨ chartType = "" ∨
        ∃ pd, processedData = some pd ∧
          ((∀ first rest, pd.datasets ≠ JsField.array (first :: rest)) ∨
            (chartType ∉ ["scatter", "bubble"] ∧ ∀ labels, pd.labels ≠ JsField.array labels) ∨
            (chartType ∈ ["pie", "doughnut", "polarArea"] ∧
              ∀ label data rest, pd.datasets ≠
                JsField.array (some { label := label, data := JsField.array data } :: rest)) ∨
            (chartType ∉ ["pie", "doughnut", "polarArea"] ∧
              ∀ datasets, pd.datasets = JsField.array datasets →
                ∀ label x xs,
                  some { label := label, data := JsField.array (x :: xs) } ∉ datasets)))) ∧
    (∀ label rest,
      formatChartPreviewData
          (some { labels := JsField.array [],
                  datasets := JsField.array
                    (some { label := label, data := JsField.array [] } :: rest) })
          "pie" chartColors =
        some { labels := some [], datasets := [pieDataset (effectivePalette chartColors) [] []] }) ∧
    (∀ label x xs rest,
      formatChartPreviewData
          (some { labels := JsField.array [],
                  datasets := JsField.array
                    (some { label := label, data := JsField.array (x :: xs) } :: rest) })
          "bar" chartColors ≠ none) := by
  refine ⟨⟨?_, ?_⟩, ?_, ?_⟩
  · intro hnull
    cases processedData with
    | none => exact Or.inl rfl
    | some pd =>
      by_cases hempty : chartType = ""
      · exact Or.inr (Or.inl hempty)
      · refine Or.inr (Or.inr ⟨pd, rfl, ?_⟩)
        by_contra hnot
        simp only [not_or, not_forall, not_and, not_not] at hnot
        obtain ⟨⟨first, rest, hds⟩, hlabels, hpie, hother⟩ := hnot
        by_cases hp : chartType ∈ ["pie", "doughnut", "polarArea"]
        · have hns : chartType ∉ ["scatter", "bubble"] := by
            simp only [List.mem_cons, List.mem_singleton, List.not_mem_nil, or_false] at hp
            rcases hp with h' | h' | h' <;> rw [h'] <;> decide
          obtain ⟨labels, hl⟩ := hlabels hns
          obtain ⟨label, data, rest', hds'⟩ := hpie hp
          simp [formatChartPreviewData, hempty, hds', hl, hns, hp] at hnull
        · obtain ⟨datasets, hds', label, x, xs, hmem⟩ := hother hp
          rw [hds] at hds'
          simp only [JsField.array.injEq] at hds'
          subst hds'
          have hvalid : validDatasets (first :: rest) ≠ [] := by
            intro hnil
            exact (validDatasets_eq_nil_iff _).1 hnil label x xs hmem
          cases hv : validDatasets (first :: rest) with
          | nil => exact hvalid hv
          | cons v vs =>
            by_cases hs : chartType ∈ ["scatter", "bubble"]
            · simp [formatChartPreviewData, hempty, hds, hv, hs, hp] at hnull
            · obtain ⟨labels, hl⟩ := hlabels hs
              simp [formatChartPreviewData, hempty, hds, hv, hs, hp, hl] at hnull
  · intro hcases
    cases hresult : formatChartPreviewData processedData chartType chartColors with
    | none => rfl
    | some chartData =>
      exfalso
      rcases hcases with hnone | hempty | ⟨pd, hpd, hrest⟩
      · rw [hnone] at hresult
        simp [formatChartPreviewData] at hresult
      · cases processedData <;> simp [formatChartPreviewData, hempty] at hresult
      · subst hpd
        by_cases hp : chartType ∈ ["pie", "doughnut", "polarArea"]
        · have hns : chartType ∉ ["scatter", "bubble"] := by
            simp only [List.mem_cons, List.mem_singleton, List.not_mem_nil, or_false] at hp
            rcases hp with h' | h' | h' <;> rw [h'] <;> decide
          obtain ⟨label, data, rest, labels, hds, hl, -⟩ :=
            formatChartPreviewData_pie pd chartType chartColors chartData hp hresult
          rcases hrest with h | ⟨-, h⟩ | ⟨-, h⟩ | ⟨h, -⟩
          · exact h _ _ hds
          · exact h _ hl
          · exact h _ _ _ hds
          · exact h hp
        · obtain ⟨pd', datasets, hpd', hds, hvalid, -⟩ :=
            formatChartPreviewData_datasets (some pd) chartType chartColors chartData hp hresult
          simp only [Option.some.injEq] at hpd'
          subst hpd'
          rcases hrest with h | ⟨hs, h⟩ | ⟨h, -⟩ | ⟨-, h⟩
          · cases datasets with
            | nil => exact hvalid rfl
            | cons first rest => exact h _ _ hds
          · obtain ⟨ds, labels, -, hl, -⟩ :=
              formatChartPreviewData_series pd chartType chartColors chartData hp hs hresult
            exact h _ hl
          · exact hp h
          · exact hvalid ((validDatasets_eq_nil_iff datasets).2 (h datasets hds))
  · intro label rest
    simp [formatChartPreviewData]
  · intro label x xs rest
    simp [formatChartPreviewData, validDatasets]

/-- C28: when the `chartColors` argument of `formatChartPreviewData` is missing, not an
array or an empty array, the built-in palette of ten colors is used; the palette in
effect is never empty, so `index % palette.length` is a position of the palette, and
every dataset of a non-null result for a type outside pie, doughnut and polarArea gets a
defined color as `backgroundColor` and `borderColor`. -/
theorem formatChartPreviewData_palette_never_empty (processedData : Option ProcessedData)
    (chartType : String) (chartColors : Option (List String)) (chartData : ChartData)
    (htype : chartType ∉ ["pie", "doughnut", "polarArea"])
    (h : formatChartPreviewData processedData chartType chartColors = some chartData) :
    effectivePalette none = defaultPreviewColors ∧
    effectivePalette (some []) = defaultPreviewColors ∧
    defaultPreviewColors.length = 10 ∧
    effectivePalette chartColors ≠ [] ∧
    (∀ index : Nat,
      index % (effectivePalette chartColors).length < (effectivePalette chartColors).length) ∧
    (∀ dataset ∈ chartData.datasets, ∃ color,
      color ∈ effectivePalette chartColors ∧
      dataset.backgroundColor = Color.single color ∧
      dataset.borderColor = some (Color.single color)) := by
  have hne : effectivePalette chartColors ≠ [] := by
    unfold effectivePalette
    split
    · simp
    · decide
  have hlt : ∀ index : Nat,
      index % (effectivePalette chartColors).length < (effectivePalette chartColors).length :=
    fun index => Nat.mod_lt _ (List.length_pos.mpr hne)
  have hcolor : ∀ index : Nat, ∃ color, color ∈ effectivePalette chartColors ∧
      colorAt (effectivePalette chartColors) (index % (effectivePalette chartColors).length) =
        Color.single color := by
    intro index
    have hi := hlt index
    refine ⟨(effectivePalette chartColors)[index % (effectivePalette chartColors).length],
      List.getElem_mem hi, ?_⟩
    simp [colorAt, List.getElem?_eq_getElem hi]
  refine ⟨rfl, rfl, rfl, hne, hlt, ?_⟩
  obtain ⟨pd, datasets, -, -, -, hds⟩ :=
    formatChartPreviewData_datasets processedData chartType chartColors chartData htype h
  intro dataset hd
  rcases hds with hds | hds
  · rw [hds] at hd
    obtain ⟨i, a, -, rfl⟩ := exists_of_mem_mapIdx _ _ _ hd
    obtain ⟨color, hmem, hc⟩ := hcolor i
    exact ⟨color, hmem, hc, congrArg some hc⟩
  · rw [hds] at hd
    obtain ⟨i, a, -, rfl⟩ := exists_of_mem_mapIdx _ _ _ hd
    obtain ⟨color, hmem, hc⟩ := hcolor i
    exact ⟨color, hmem, hc, congrArg some hc⟩

theorem formatChartPreviewData_palette_never_empty_witness :
    ∃ chartData, formatChartPreviewData (some sampleSeries) "bar" (some []) = some chartData ∧
      effectivePalette (some []) ≠ [] ∧
      ∀ dataset ∈ chartData.datasets, ∃ color,
        color ∈ effectivePalette (some []) ∧
        dataset.backgroundColor = Color.single color ∧
        dataset.borderColor = some (Color.single color) := by
  cases h : formatChartPreviewData (some sampleSeries) "bar" (some []) with
  | none => exact absurd h (by decide)
  | some chartData =>
    have hall := formatChartPreviewData_palette_never_empty (some sampleSeries) "bar" (some [])
      chartData (by decide) h
    exact ⟨chartData, rfl, hall.2.2.2.1, hall.2.2.2.2.2⟩

/-! ## The title check of `ChartCreator.saveChart` -/

/-- The pattern `/^[a-zA-Z0-9\s]+$/` accepts the non-empty strings made of ASCII letters,
digits and white space. -/
theorem ChartCreator.titlePattern_iff (title : List Char) :
    ChartCreator.titlePattern title = true ↔
      title ≠ [] ∧ ∀ c ∈ title, ('a' ≤ c ∧ c ≤ 'z') ∨ ('A' ≤ c ∧ c ≤ 'Z') ∨
        ('0' ≤ c ∧ c ≤ '9') ∨ ChartCreator.isJsSpace c = true := by
  unfold ChartCreator.titlePattern
  cases title with
  | nil => simp
  | cons c cs =>
    simp only [List.isEmpty_cons, Bool.not_false, Bool.true_and, List.all_eq_true,
      Bool.or_eq_true, Bool.and_eq_true, decide_eq_true_eq, ne_eq, reduceCtorEq,
      not_false_eq_true, true_and]
    constructor
    · intro h x hx
      rcases h x hx with ((h' | h') | h') | h'
      · exact Or.inl h'
      · exact Or.inr (Or.inl h')
      · exact Or.inr (Or.inr (Or.inl h'))
      · exact Or.inr (Or.inr (Or.inr h'))
    · intro h x hx
      rcases h x hx with h' | h' | h' | h'
      · exact Or.inl (Or.inl (Or.inl h'))
      · exact Or.inl (Or.inl (Or.inr h'))
      · exact Or.inl (Or.inr h')
      · exact Or.inr h'

/-- C27: `ChartCreator.saveChart` passes its title check if and only if the trimmed
title has at least 3 characters (UTF-16 code units, as `length` counts them) and the
title consists only of ASCII letters, digits and white space. Otherwise it sets the
length message when the trimmed title is shorter than 3 and the character-set message
when it is not, as `error` and as `errorMessage`, moves the wizard to step 2, clears the
loading flag and sends no request. -/
theorem saveChart_title_check (s : CreatorState) (isEditMode : Bool) (id : Option String) :
    ((3 ≤ ChartCreator.jsLength (ChartCreator.jsTrim s.chartTitle.toList) ∧
        ∀ c ∈ s.chartTitle.toList, ('a' ≤ c ∧ c ≤ 'z') ∨ ('A' ≤ c ∧ c ≤ 'Z') ∨
          ('0' ≤ c ∧ c ≤ '9') ∨ ChartCreator.isJsSpace c = true) ↔
      (ChartCreator.saveValidation s ≠
          Except.error ("Please enter a chart title with at least 3 characters.", 2) ∧
        ChartCreator.saveValidation s ≠
          Except.error ("Chart title can only contain letters, numbers, and spaces.", 2))) ∧
    (ChartCreator.jsLength (ChartCreator.jsTrim s.chartTitle.toList) < 3 →
      ChartCreator.saveChart s isEditMode id =
        ({ s with
            error := some "Please enter a chart title with at least 3 characters."
            errorMessage := some "Please enter a chart title with at least 3 characters."
            activeStep := 2
            loading := false }, [])) ∧
    (3 ≤ ChartCreator.jsLength (ChartCreator.jsTrim s.chartTitle.toList) →
      (¬ ∀ c ∈ s.chartTitle.toList, ('a' ≤ c ∧ c ≤ 'z') ∨ ('A' ≤ c ∧ c ≤ 'Z') ∨
          ('0' ≤ c ∧ c ≤ '9') ∨ ChartCreator.isJsSpace c = true) →
      ChartCreator.saveChart s isEditMode id =
        ({ s with
            error := some "Chart title can only contain letters, numbers, and spaces."
            errorMessage := some "Chart title can only contain letters, numbers, and spaces."
            activeStep := 2
            loading := false }, [])) := by
  have hshort : ChartCreator.jsLength (ChartCreator.jsTrim s.chartTitle.toList) < 3 →
      ChartCreator.saveValidation s =
        Except.error ("Please enter a chart title with at least 3 characters.", 2) := by
    intro hlt
    have hlt' : ChartCreator.jsLength (ChartCreator.jsTrim s.chartTitle.data) < 3 := hlt
    simp [ChartCreator.saveValidation, hlt']
  have hchars : 3 ≤ ChartCreator.jsLength (ChartCreator.jsTrim s.chartTitle.toList) →
      ChartCreator.titlePattern s.chartTitle.toList = false →
      ChartCreator.saveValidation s =
        Except.error ("Chart title can only contain letters, numbers, and spaces.", 2) := by
    intro hge hpat
    have hge' : ¬ ChartCreator.jsLength (ChartCreator.jsTrim s.chartTitle.data) < 3 :=
      Nat.not_lt.mpr hge
    have hne : ¬ ChartCreator.jsTrim s.chartTitle.data = [] := by
      intro ht
      apply hge'
      rw [ht]
      decide
    have hpat' : ChartCreator.titlePattern s.chartTitle.data = false := hpat
    simp [ChartCreator.saveValidation, hge', hne, hpat']
  have hpass : 3 ≤ ChartCreator.jsLength (ChartCreator.jsTrim s.chartTitle.toList) →
      ChartCreator.titlePattern s.chartTitle.toList = true →
      ChartCreator.saveValidation s ≠
          Except.error ("Please enter a chart title with at least 3 characters.", 2) ∧
        ChartCreator.saveValidation s ≠
          Except.error ("Chart title can only contain letters, numbers, and spaces.", 2) := by
    intro hge hpat
    have hge' : ¬ ChartCreator.jsLength (ChartCreator.jsTrim s.chartTitle.data) < 3 :=
      Nat.not_lt.mpr hge
    have hne : ¬ ChartCreator.jsTrim s.chartTitle.data = [] := by
      intro ht
      apply hge'
      rw [ht]
      decide
    have hpat' : ChartCreator.titlePattern s.chartTitle.data = true := hpat
    have hfalse : ((ChartCreator.jsTrim s.chartTitle.toList).isEmpty ||
          decide (ChartCreator.jsLength (ChartCreator.jsTrim s.chartTitle.toList) < 3) ||
        !ChartCreator.titlePattern s.chartTitle.toList) = false := by
      simp [hne, hge', hpat']
    unfold ChartCreator.saveValidation
    simp only [hfalse, Bool.false_eq_true, if_false]
    split_ifs with h1 h2 h3 h4 h5 hcat <;> try exact ⟨by decide, by decide⟩
    simp only [List.mem_cons, List.mem_singleton, List.not_mem_nil, or_false] at hcat
    rcases hcat.1 with h' | h' <;> rw [h'] <;> exact ⟨by decide, by decide⟩
  have hnonempty : 3 ≤ ChartCreator.jsLength (ChartCreator.jsTrim s.chartTitle.toList) →
      s.chartTitle.toList ≠ [] := by
    intro hge hnil
    rw [hnil] at hge
    revert hge
    decide
  refine ⟨⟨?_, ?_⟩, ?_, ?_⟩
  · rintro ⟨hge, hall⟩
    exact hpass hge ((ChartCreator.titlePattern_iff _).2 ⟨hnonempty hge, hall⟩)
  · rintro ⟨hlen, hset⟩
    by_cases hlt : ChartCreator.jsLength (ChartCreator.jsTrim s.chartTitle.toList) < 3
    · exact absurd (hshort hlt) hlen
    · have hge := Nat.not_lt.mp hlt
      refine ⟨hge, ?_⟩
      cases hpat : ChartCreator.titlePattern s.chartTitle.toList with
      | false => exact absurd (hchars hge hpat) hset
      | true => exact ((ChartCreator.titlePattern_iff _).1 hpat).2
  · intro hlt
    simp [ChartCreator.saveChart, hshort hlt]
  · intro hge hnot
    have hpat : ChartCreator.titlePattern s.chartTitle.toList = false := by
      cases hpat : ChartCreator.titlePattern s.chartTitle.toList with
      | false => rfl
      | true => exact absurd ((ChartCreator.titlePattern_iff _).1 hpat).2 hnot
    simp [ChartCreator.saveChart, hchars hge hpat]

/-! ## The axis handlers of `ChartCreator` -/

/-- Every axis handler keeps both column lists free of duplicates and of the empty
string. -/
theorem ChartCreator.applyAxisAction_invariant (s : AxisSelection)
    (action : ChartCreator.AxisAction)
    (hx : s.xAxisColumns.Nodup ∧ "" ∉ s.xAxisColumns)
    (hy : s.yAxisColumns.Nodup ∧ "" ∉ s.yAxisColumns) :
    ((ChartCreator.applyAxisAction s action).xAxisColumns.Nodup ∧
      "" ∉ (ChartCreator.applyAxisAction s action).xAxisColumns) ∧
    ((ChartCreator.applyAxisAction s action).yAxisColumns.Nodup ∧
      "" ∉ (ChartCreator.applyAxisAction s action).yAxisColumns) := by
  have happend : ∀ (columns : List String) (value : String), columns.Nodup → "" ∉ columns →
      value ∉ columns → value ≠ "" →
      (columns ++ [value]).Nodup ∧ "" ∉ columns ++ [value] := by
    intro columns value hnodup hempty hnew hne
    constructor
    · rw [List.nodup_append]
      refine ⟨hnodup, List.nodup_singleton _, ?_⟩
      intro a ha hb
      rw [List.mem_singleton] at hb
      exact hnew (hb ▸ ha)
    · intro hmem
      rw [List.mem_append, List.mem_singleton] at hmem
      rcases hmem with h | h
      · exact hempty h
      · exact hne h.symm
  have hfilter : ∀ (columns : List String) (name : String), columns.Nodup → "" ∉ columns →
      (columns.filter fun col => col ≠ name).Nodup ∧
        "" ∉ columns.filter fun col => col ≠ name := by
    intro columns name hnodup hempty
    exact ⟨hnodup.filter _, fun hmem => hempty (List.mem_of_mem_filter hmem)⟩
  cases action with
  | tempXAxisChange value =>
    simp only [ChartCreator.applyAxisAction, ChartCreator.handleTempXAxisChange]
    split_ifs with h1 h2
    · exact ⟨happend _ _ hx.1 hx.2 h2.1 h2.2, hy⟩
    · exact ⟨hx, hy⟩
    · exact ⟨hx, hy⟩
  | tempYAxisChange value =>
    simp only [ChartCreator.applyAxisAction, ChartCreator.handleTempYAxisChange]
    split_ifs with h1 h2
    · exact ⟨hx, happend _ _ hy.1 hy.2 h2.1 h2.2⟩
    · exact ⟨hx, hy⟩
    · exact ⟨hx, hy⟩
  | addAxis axisType =>
    simp only [ChartCreator.applyAxisAction, ChartCreator.addAxisToChart]
    split_ifs with h1 h2
    · exact ⟨happend _ _ hx.1 hx.2 h1.2.2 h1.2.1, hy⟩
    · exact ⟨hx, happend _ _ hy.1 hy.2 h2.2.2 h2.2.1⟩
    · exact ⟨hx, hy⟩
  | removeAxis axisType columnName =>
    simp only [ChartCreator.applyAxisAction, ChartCreator.removeAxisFromChart]
    split_ifs with h1 h2
    · exact ⟨hfilter _ _ hx.1 hx.2, hy⟩
    · exact ⟨hx, hfilter _ _ hy.1 hy.2⟩
    · exact ⟨hx, hy⟩
  | chartTypeChange type =>
    simp only [ChartCreator.applyAxisAction, ChartCreator.handleChartTypeChange]
    split_ifs with h1
    · exact ⟨⟨List.nodup_nil, List.not_mem_nil _⟩, hy⟩
    · exact ⟨hx, hy⟩
  | toggleUpdateMode => exact ⟨hx, hy⟩

/-- Every sequence of axis handler calls keeps both column lists free of duplicates and
of the empty string. -/
theorem ChartCreator.runAxisActions_invariant (actions : List ChartCreator.AxisAction)
    (s : AxisSelection)
    (hx : s.xAxisColumns.Nodup ∧ "" ∉ s.xAxisColumns)
    (hy : s.yAxisColumns.Nodup ∧ "" ∉ s.yAxisColumns) :
    ((ChartCreator.runAxisActions s actions).xAxisColumns.Nodup ∧
      "" ∉ (ChartCreator.runAxisActions s actions).xAxisColumns) ∧
    ((ChartCreator.runAxisActions s actions).yAxisColumns.Nodup ∧
      "" ∉ (ChartCreator.runAxisActions s actions).yAxisColumns) := by
  induction actions generalizing s with
  | nil => exact ⟨hx, hy⟩
  | cons action rest ih =>
    have hstep := ChartCreator.applyAxisAction_invariant s action hx hy
    exact ih (ChartCreator.applyAxisAction s action) hstep.1 hstep.2

/-- C29: starting from empty selections, every sequence of calls of
`handleTempXAxisChange`, `handleTempYAxisChange`, `addAxisToChart`,
`removeAxisFromChart`, `handleChartTypeChange` (and `toggleAxisUpdateMode`) keeps
`xAxisColumns` and `yAxisColumns` free of duplicates and of the empty string. A handler
that adds a column appends it at the end of the list and leaves the rest in place, and
otherwise leaves the list as it is; removing filters out exactly the named column;
switching to pie, doughnut or polarArea empties `xAxisColumns` and leaves `yAxisColumns`
unchanged. -/
theorem axis_handlers_keep_columns_distinct (actions : List ChartCreator.AxisAction)
    (s : AxisSelection) (hx : s.xAxisColumns = []) (hy : s.yAxisColumns = []) :
    ((ChartCreator.runAxisActions s actions).xAxisColumns.Nodup ∧
      "" ∉ (ChartCreator.runAxisActions s actions).xAxisColumns ∧
      (ChartCreator.runAxisActions s actions).yAxisColumns.Nodup ∧
      "" ∉ (ChartCreator.runAxisActions s actions).yAxisColumns) ∧
    (∀ (t : AxisSelection) (value : String),
      ((t.axisUpdateMode = "immediate" ∧ value ∉ t.xAxisColumns ∧ value ≠ "" →
          (ChartCreator.handleTempXAxisChange t value).xAxisColumns =
            t.xAxisColumns ++ [value]) ∧
        (¬ (t.axisUpdateMode = "immediate" ∧ value ∉ t.xAxisColumns ∧ value ≠ "") →
          (ChartCreator.handleTempXAxisChange t value).xAxisColumns = t.xAxisColumns) ∧
        (ChartCreator.handleTempXAxisChange t value).yAxisColumns = t.yAxisColumns) ∧
      ((t.axisUpdateMode = "immediate" ∧ value ∉ t.yAxisColumns ∧ value ≠ "" →
          (ChartCreator.handleTempYAxisChange t value).yAxisColumns =
            t.yAxisColumns ++ [value]) ∧
        (¬ (t.axisUpdateMode = "immediate" ∧ value ∉ t.yAxisColumns ∧ value ≠ "") →
          (ChartCreator.handleTempYAxisChange t value).yAxisColumns = t.yAxisColumns) ∧
        (ChartCreator.handleTempYAxisChange t value).xAxisColumns = t.xAxisColumns)) ∧
    (∀ t : AxisSelection,
      (t.tempXAxisColumn ≠ "" ∧ t.tempXAxisColumn ∉ t.xAxisColumns →
        (ChartCreator.addAxisToChart t "x").xAxisColumns =
          t.xAxisColumns ++ [t.tempXAxisColumn]) ∧
      (¬ (t.tempXAxisColumn ≠ "" ∧ t.tempXAxisColumn ∉ t.xAxisColumns) →
        (ChartCreator.addAxisToChart t "x").xAxisColumns = t.xAxisColumns) ∧
      (ChartCreator.addAxisToChart t "x").yAxisColumns = t.yAxisColumns ∧
      (t.tempYAxisColumn ≠ "" ∧ t.tempYAxisColumn ∉ t.yAxisColumns →
        (ChartCreator.addAxisToChart t "y").yAxisColumns =
          t.yAxisColumns ++ [t.tempYAxisColumn]) ∧
      (¬ (t.tempYAxisColumn ≠ "" ∧ t.tempYAxisColumn ∉ t.yAxisColumns) →
        (ChartCreator.addAxisToChart t "y").yAxisColumns = t.yAxisColumns) ∧
      (ChartCreator.addAxisToChart t "y").xAxisColumns = t.xAxisColumns) ∧
    (∀ (t : AxisSelection) (columnName : String),
      (ChartCreator.removeAxisFromChart t "x" columnName).xAxisColumns =
        t.xAxisColumns.filter (fun col => col ≠ columnName) ∧
      (ChartCreator.removeAxisFromChart t "x" columnName).yAxisColumns = t.yAxisColumns ∧
      (ChartCreator.removeAxisFromChart t "y" columnName).yAxisColumns =
        t.yAxisColumns.filter (fun col => col ≠ columnName) ∧
      (ChartCreator.removeAxisFromChart t "y" columnName).xAxisColumns = t.xAxisColumns) ∧
    (∀ (t : AxisSelection) (type : String), type ∈ ["pie", "doughnut", "polarArea"] →
      (ChartCreator.handleChartTypeChange t type).xAxisColumns = [] ∧
      (ChartCreator.handleChartTypeChange t type).yAxisColumns = t.yAxisColumns) := by
  refine ⟨?_, ?_, ?_, ?_, ?_⟩
  · have h := ChartCreator.runAxisActions_invariant actions s
      (by rw [hx]; exact ⟨List.nodup_nil, List.not_mem_nil _⟩)
      (by rw [hy]; exact ⟨List.nodup_nil, List.not_mem_nil _⟩)
    exact ⟨h.1.1, h.1.2, h.2.1, h.2.2⟩
  · intro t value
    refine ⟨⟨?_, ?_, ?_⟩, ⟨?_, ?_, ?_⟩⟩
    · intro h
      simp [ChartCreator.handleTempXAxisChange, h.1, h.2.1, h.2.2]
    · intro h
      unfold ChartCreator.handleTempXAxisChange
      split_ifs with h1 h2
      · exact absurd ⟨h1, h2⟩ h
      · rfl
      · rfl
    · unfold ChartCreator.handleTempXAxisChange
      split_ifs <;> rfl
    · intro h
      simp [ChartCreator.handleTempYAxisChange, h.1, h.2.1, h.2.2]
    · intro h
      unfold ChartCreator.handleTempYAxisChange
      split_ifs with h1 h2
      · exact absurd ⟨h1, h2⟩ h
      · rfl
      · rfl
    · unfold ChartCreator.handleTempYAxisChange
      split_ifs <;> rfl
  · intro t
    refine ⟨?_, ?_, ?_, ?_, ?_, ?_⟩
    · intro h
      simp [ChartCreator.addAxisToChart, h.1, h.2]
    · intro h
      unfold ChartCreator.addAxisToChart
      split_ifs with h1 h2
      · exact absurd h1.2 h
      · exact absurd h2.1 (by decide)
      · rfl
    · unfold ChartCreator.addAxisToChart
      split_ifs with h1 h2
      · rfl
      · exact absurd h2.1 (by decide)
      · rfl
    · intro h
      simp [ChartCreator.addAxisToChart, h.1, h.2]
    · intro h
      unfold ChartCreator.addAxisToChart
      split_ifs with h1 h2
      · exact absurd h1.1 (by decide)
      · exact absurd h2.2 h
      · rfl
    · unfold ChartCreator.addAxisToChart
      split_ifs with h1 h2
      · exact absurd h1.1 (by decide)
      · rfl
      · rfl
  · intro t columnName
    refine ⟨?_, ?_, ?_, ?_⟩ <;> simp [ChartCreator.removeAxisFromChart]
  · intro t type htype
    simp [ChartCreator.handleChartTypeChange, htype]

theorem axis_handlers_keep_columns_distinct_witness :
    (ChartCreator.runAxisActions ChartCreator.initialAxisSelection
        [ChartCreator.AxisAction.tempXAxisChange "Region",
         ChartCreator.AxisAction.tempXAxisChange "Region",
         ChartCreator.AxisAction.tempYAxisChange "Sales",
         ChartCreator.AxisAction.toggleUpdateMode,
         ChartCreator.AxisAction.tempYAxisChange "Units",
         ChartCreator.AxisAction.addAxis "y",
         ChartCreator.AxisAction.removeAxis "y" "Sales",
         ChartCreator.AxisAction.chartTypeChange "pie"]).xAxisColumns.Nodup ∧
    (ChartCreator.runAxisActions ChartCreator.initialAxisSelection
        [ChartCreator.AxisAction.tempXAxisChange "Region",
         ChartCreator.AxisAction.tempXAxisChange "Region",
         ChartCreator.AxisAction.tempYAxisChange "Sales",
         ChartCreator.AxisAction.toggleUpdateMode,
         ChartCreator.AxisAction.tempYAxisChange "Units",
         ChartCreator.AxisAction.addAxis "y",
         ChartCreator.AxisAction.removeAxis "y" "Sales",
         ChartCreator.AxisAction.chartTypeChange "pie"]).yAxisColumns = ["Units"] :=
  ⟨(axis_handlers_keep_columns_distinct _ ChartCreator.initialAxisSelection rfl rfl).1.1,
    by decide⟩

/-! ## The retrying client of `api.js` -/

/-- After the assignments of the response interceptor the error has a non-empty
`userMessage`. -/
theorem Api.withUserMessage_nonempty (online : Bool) (error : AxiosError) :
    ∃ message, (Api.withUserMessage online error).userMessage = some message ∧
      message ≠ "" := by
  unfold Api.withUserMessage
  simp only []
  split_ifs with hfalsy
  · exact ⟨_, rfl, orElse_ne_empty _ _ (by decide)⟩
  · cases hassigned : Api.assignedUserMessage online error with
    | none =>
      rw [hassigned] at hfalsy
      exact absurd rfl hfalsy
    | some message =>
      refine ⟨message, rfl, ?_⟩
      intro hempty
      rw [hassigned, hempty] at hfalsy
      exact absurd rfl hfalsy

/-- The response error interceptor on an error whose config is defined. -/
theorem Api.responseError_of_config (online : Bool) (error : AxiosError)
    (config : RequestConfig) (hconfig : error.config = some config) :
    Api.responseError online error =
      if Api.shouldRetry online error config then
        Api.Outcome.retrying
          { Api.withUserMessage online error with config := some (Api.incremented config) }
          (Api.incremented config) (Api.baseBackoff (Api.incremented config))
          (Api.additionalDelay (Api.incremented config))
      else Api.Outcome.rejected (Api.withUserMessage online error) := by
  simp [Api.responseError, hconfig]

/-- A non-empty message assigned by one of the six cases is the final `userMessage`. -/
theorem Api.withUserMessage_of_assigned (online : Bool) (error : AxiosError)
    (message : String) (hassigned : Api.assignedUserMessage online error = some message)
    (hne : message ≠ "") :
    (Api.withUserMessage online error).userMessage = some message := by
  unfold Api.withUserMessage
  simp only [hassigned, orElse, if_neg hne]

/-- When none of the six cases assigns a message, the fallback does. -/
theorem Api.withUserMessage_of_unassigned (online : Bool) (error : AxiosError)
    (hassigned : Api.assignedUserMessage online error = none) :
    (Api.withUserMessage online error).userMessage =
      some (orElse (Api.dataMessage error) "An unexpected error occurred. Please try again.") := by
  unfold Api.withUserMessage
  simp only [hassigned, orElse]
  rfl

/-- Every error with which a call of `api(config)` is rejected has a non-empty
`userMessage`. -/
theorem Api.send_rejected_nonempty (replies : List Api.Reply) (config : RequestConfig)
    (surfaced : AxiosError)
    (h : (Api.send config replies).1 = Api.RunResult.rejected surfaced) :
    ∃ message, surfaced.userMessage = some message ∧ message ≠ "" := by
  induction replies generalizing config with
  | nil => simp [Api.send] at h
  | cons reply rest ih =>
    cases reply with
    | success => simp [Api.send] at h
    | failure failure =>
      simp only [Api.send] at h
      rw [Api.responseError_of_config failure.online _ (Api.requestInterceptor config) rfl] at h
      by_cases hretry : Api.shouldRetry failure.online
          (Api.failureError failure (Api.requestInterceptor config))
          (Api.requestInterceptor config) = true
      · rw [if_pos hretry] at h
        cases hline : failure.onlineAtTimer with
        | false =>
          simp only [Api.verifyAndRetry, hline, Bool.not_false, if_true,
            Api.RunResult.rejected.injEq] at h
          subst h
          exact ⟨Api.connectionLostMessage, rfl, by decide⟩
        | true =>
          simp only [Api.verifyAndRetry, hline, Bool.not_true, Bool.false_eq_true,
            if_false] at h
          exact ih _ h
      · rw [if_neg hretry] at h
        simp only [Api.RunResult.rejected.injEq] at h
        subst h
        exact Api.withUserMessage_nonempty _ _

/-- C22: every error that the response interceptor hands to its caller, for a request
whose config is defined, has a non-empty `userMessage`, whether it is rejected at once,
rejected because the device is offline when the retry timer fires, or rejected at the end
of a run of retries. The message is the one for 400 (the server's message or the
invalid-request one), 404, 5xx, timeout, network error or 401 when that case is the last
one of the source that applies, and the server's message or the generic one when none
applies. -/
theorem surfaced_error_has_userMessage (online : Bool) (error : AxiosError)
    (config : RequestConfig) (hconfig : error.config = some config) :
    (∀ surfaced, Api.responseError online error = Api.Outcome.rejected surfaced →
      surfaced = Api.withUserMessage online error ∧
      ∃ message, surfaced.userMessage = some message ∧ message ≠ "") ∧
    (∀ kept config₁ base additional surfaced,
      Api.responseError online error = Api.Outcome.retrying kept config₁ base additional →
      Api.verifyAndRetry false kept config₁ = Except.error surfaced →
      surfaced.userMessage = some Api.connectionLostMessage ∧
      Api.connectionLostMessage ≠ "") ∧
    (∀ replies surfaced, (Api.send config replies).1 = Api.RunResult.rejected surfaced →
      ∃ message, surfaced.userMessage = some message ∧ message ≠ "") ∧
    (Api.status error = some 400 →
      (Api.withUserMessage online error).userMessage =
        some (orElse (Api.dataMessage error)
          "Invalid request. Please check your input and try again.")) ∧
    (Api.status error = some 404 →
      (Api.withUserMessage online error).userMessage = some Api.notFoundMessage) ∧
    (Api.isServerError error = true →
      (Api.withUserMessage online error).userMessage = some Api.serverMessage) ∧
    (error.code = some "ECONNABORTED" → error.response = none →
      (Api.withUserMessage online error).userMessage = some Api.timeoutMessage) ∧
    (error.message = "Network Error" → error.code ≠ some "ECONNABORTED" →
      error.response = none →
      (Api.withUserMessage online error).userMessage = some (Api.networkMessage online)) ∧
    (Api.status error = some 401 → error.message ≠ "Network Error" →
      error.code ≠ some "ECONNABORTED" →
      (Api.withUserMessage online error).userMessage = some Api.sessionExpiredMessage) ∧
    (error.userMessage = none → error.message ≠ "Network Error" →
      error.code ≠ some "ECONNABORTED" → Api.isServerError error = false →
      Api.status error ≠ some 401 → Api.status error ≠ some 404 →
      Api.status error ≠ some 400 →
      (Api.withUserMessage online error).userMessage =
        some (orElse (Api.dataMessage error)
          "An unexpected error occurred. Please try again.")) := by
  have hstep := Api.responseError_of_config online error config hconfig
  refine ⟨?_, ?_, ?_, ?_, ?_, ?_, ?_, ?_, ?_, ?_⟩
  · intro surfaced hrejected
    rw [hstep] at hrejected
    split_ifs at hrejected
    simp only [Api.Outcome.rejected.injEq] at hrejected
    subst hrejected
    exact ⟨rfl, Api.withUserMessage_nonempty online error⟩
  · intro kept config₁ base additional surfaced _ hverify
    simp only [Api.verifyAndRetry, Bool.not_false, if_true, Except.error.injEq] at hverify
    subst hverify
    exact ⟨rfl, by decide⟩
  · intro replies surfaced hrun
    exact Api.send_rejected_nonempty replies config surfaced hrun
  · intro h400
    apply Api.withUserMessage_of_assigned
    · simp [Api.assignedUserMessage, h400]
    · exact orElse_ne_empty _ _ (by decide)
  · intro h404
    apply Api.withUserMessage_of_assigned
    · simp [Api.assignedUserMessage, h404]
    · decide
  · intro h500
    apply Api.withUserMessage_of_assigned
    · cases hresponse : error.response with
      | none => simp [Api.isServerError, hresponse] at h500
      | some response =>
        simp only [Api.isServerError, hresponse, decide_eq_true_eq] at h500
        have h404 : response.status ≠ 404 := by omega
        have h400 : response.status ≠ 400 := by omega
        simp [Api.assignedUserMessage, Api.isServerError, Api.status, hresponse, h500, h404,
          h400]
    · decide
  · intro hcode hresponse
    apply Api.withUserMessage_of_assigned
    · simp [Api.assignedUserMessage, Api.isServerError, Api.status, hresponse, hcode]
    · decide
  · intro hmessage hcode hresponse
    apply Api.withUserMessage_of_assigned
    · simp [Api.assignedUserMessage, Api.isServerError, Api.status, hresponse, hcode,
        hmessage]
    · unfold Api.networkMessage
      split_ifs <;> decide
  · intro h401 hmessage hcode
    apply Api.withUserMessage_of_assigned
    · cases hresponse : error.response with
      | none => simp [Api.status, hresponse] at h401
      | some response =>
        simp only [Api.status, hresponse, Option.map_some', Option.some.injEq] at h401
        simp [Api.assignedUserMessage, Api.isServerError, Api.status, hresponse, h401, hcode,
          hmessage]
    · decide
  · intro hnone hmessage hcode h500 h401 h404 h400
    apply Api.withUserMessage_of_unassigned
    simp [Api.assignedUserMessage, hnone, hmessage, hcode, h500, h401, h404, h400]

theorem surfaced_error_has_userMessage_witness :
    Api.responseError true sampleNotFoundError =
      Api.Outcome.rejected (Api.withUserMessage true sampleNotFoundError) ∧
    (Api.withUserMessage true sampleNotFoundError).userMessage =
      some "The requested resource was not found. Please check the URL and try again." :=
  ⟨by decide,
    (surfaced_error_has_userMessage true sampleNotFoundError
      (Api.requestInterceptor sampleUploadsConfig) rfl).2.2.2.2.1 (by decide)⟩

/-- C23, as stated, fails: an error with the message `Network Error` that carries a 400
response, for the request of the list of uploads sent while online with retry count 0, is
not rejected but retried, with retry count 1 and a delay of 1000 ms; against seven such
failures the call sends four requests before it is rejected. -/
theorem responseError_retries_bad_request_response :
    (Api.failureError sampleNetworkBadRequest
        (Api.requestInterceptor sampleUploadsConfig)).response =
      some { status := 400, dataMessage := none } ∧
    Api.isChartOperation (Api.requestInterceptor sampleUploadsConfig) = false ∧
    Api.responseError true
        (Api.failureError sampleNetworkBadRequest (Api.requestInterceptor sampleUploadsConfig)) =
      Api.Outcome.retrying
        { Api.withUserMessage true
            (Api.failureError sampleNetworkBadRequest
              (Api.requestInterceptor sampleUploadsConfig)) with
          config := some { url := some "/api/uploads", retryCount := some 1 } }
        { url := some "/api/uploads", retryCount := some 1 } 1000 0 ∧
    (Api.send sampleUploadsConfig
        (List.replicate 7 (Api.Reply.failure sampleNetworkBadRequest))).2.map
      (fun sent => sent.retryCount) = [some 0, some 1, some 2, some 3] := by
  refine ⟨rfl, ?_, ?_, ?_⟩ <;> decide

/-- C23 (amended): for an error whose config is defined and carries a retry count, the
response interceptor schedules a retry if and only if the browser is online, the retry
count is below the maximum (5 for a chart URL, 3 otherwise), and the error is a network
error, a timeout, a response with a status of 500 or more, or a 404 response on a chart
URL, a chart URL being one that contains `/api/charts` or `/charts/`. An error that is
neither a network error nor a timeout and whose response has status 400, 401 or 403, or
404 on a URL that is not a chart URL, is rejected without a retry. -/
theorem responseError_retries_iff (online : Bool) (error : AxiosError)
    (config : RequestConfig) (retryCount : Nat) (hconfig : error.config = some config)
    (hcount : config.retryCount = some retryCount) :
    ((∃ kept config₁ base additional,
        Api.responseError online error = Api.Outcome.retrying kept config₁ base additional) ↔
      (online = true ∧
        retryCount < (if Api.isChartOperation config = true then 5 else 3) ∧
        (error.message = "Network Error" ∨ error.code = some "ECONNABORTED" ∨
          (∃ response, error.response = some response ∧ 500 ≤ response.status) ∨
          (Api.isChartOperation config = true ∧
            ∃ response, error.response = some response ∧ response.status = 404)))) ∧
    (Api.isChartOperation config = true ↔
      ∃ url, config.url = some url ∧
        (jsIncludes url "/api/charts" = true ∨ jsIncludes url "/charts/" = true)) ∧
    (error.message ≠ "Network Error" → error.code ≠ some "ECONNABORTED" →
      ∀ response, error.response = some response →
        (response.status = 400 ∨ response.status = 401 ∨ response.status = 403 ∨
          (response.status = 404 ∧ Api.isChartOperation config = false)) →
        Api.responseError online error =
          Api.Outcome.rejected (Api.withUserMessage online error)) := by
  have hstep := Api.responseError_of_config online error config hconfig
  have hshould : Api.shouldRetry online error config = true ↔
      (online = true ∧
        retryCount < (if Api.isChartOperation config = true then 5 else 3) ∧
        (error.message = "Network Error" ∨ error.code = some "ECONNABORTED" ∨
          (∃ response, error.response = some response ∧ 500 ≤ response.status) ∨
          (Api.isChartOperation config = true ∧
            ∃ response, error.response = some response ∧ response.status = 404))) := by
    have hserver : Api.isServerError error = true ↔
        ∃ response, error.response = some response ∧ 500 ≤ response.status := by
      cases hresponse : error.response with
      | none => simp [Api.isServerError, hresponse]
      | some response => simp [Api.isServerError, hresponse]
    have hnotFound : (Api.status error == some 404) = true ↔
        ∃ response, error.response = some response ∧ response.status = 404 := by
      cases hresponse : error.response with
      | none => simp [Api.status, hresponse]
      | some response => simp [Api.status, hresponse]
    simp only [Api.shouldRetry, hcount, Api.maxRetries, Bool.and_eq_true, Bool.or_eq_true,
      beq_iff_eq, decide_eq_true_eq, hserver, hnotFound]
    constructor
    · rintro ⟨⟨honline, hkind⟩, hlt⟩
      refine ⟨honline, hlt, ?_⟩
      rcases hkind with ((h | h) | h) | h
      · exact Or.inl h
      · exact Or.inr (Or.inl h)
      · exact Or.inr (Or.inr (Or.inl h))
      · exact Or.inr (Or.inr (Or.inr h))
    · rintro ⟨honline, hlt, hkind⟩
      refine ⟨⟨honline, ?_⟩, hlt⟩
      rcases hkind with h | h | h | h
      · exact Or.inl (Or.inl (Or.inl h))
      · exact Or.inl (Or.inl (Or.inr h))
      · exact Or.inl (Or.inr h)
      · exact Or.inr h
  refine ⟨?_, ?_, ?_⟩
  · rw [← hshould, hstep]
    constructor
    · rintro ⟨kept, config₁, base, additional, h⟩
      by_contra hnot
      rw [if_neg hnot] at h
      exact absurd h (by simp)
    · intro h
      rw [if_pos h]
      exact ⟨_, _, _, _, rfl⟩
  · unfold Api.isChartOperation
    cases hurl : config.url with
    | none => simp
    | some url =>
      simp only [Bool.and_eq_true, bne_iff_ne, ne_eq, Bool.or_eq_true, Option.some.injEq,
        exists_eq_left']
      constructor
      · rintro ⟨-, h⟩
        exact h
      · intro h
        refine ⟨?_, h⟩
        rintro rfl
        revert h
        decide
  · intro hmessage hcode response hresponse hstatus
    rw [hstep, if_neg]
    rw [hshould]
    rintro ⟨-, -, h | h | ⟨r, hr, h⟩ | ⟨hchart, r, hr, h⟩⟩
    · exact hmessage h
    · exact hcode h
    · rw [hresponse] at hr
      simp only [Option.some.injEq] at hr
      subst hr
      omega
    · rw [hresponse] at hr
      simp only [Option.some.injEq] at hr
      subst hr
      rcases hstatus with h' | h' | h' | ⟨-, h'⟩
      · omega
      · omega
      · omega
      · rw [hchart] at h'
        exact absurd h' (by decide)

theorem responseError_retries_iff_witness :
    (∃ kept config₁ base additional,
      Api.responseError true (Api.failureError sampleServerFailure
          (Api.requestInterceptor sampleChartConfig)) =
        Api.Outcome.retrying kept config₁ base additional) ∧
    Api.responseError true sampleNotFoundError =
      Api.Outcome.rejected (Api.withUserMessage true sampleNotFoundError) :=
  ⟨(responseError_retries_iff true
      (Api.failureError sampleServerFailure (Api.requestInterceptor sampleChartConfig))
      (Api.requestInterceptor sampleChartConfig) 0 rfl rfl).1.2
      ⟨rfl, by decide, Or.inr (Or.inr (Or.inl ⟨_, rfl, by decide⟩))⟩,
    (responseError_retries_iff true sampleNotFoundError
      (Api.requestInterceptor sampleUploadsConfig) 0 rfl rfl).2.2 (by decide) (by decide)
      _ rfl (Or.inr (Or.inr (Or.inr ⟨rfl, by decide⟩)))⟩

/-- The maximum number of retries depends on the URL of the config only. -/
theorem Api.maxRetries_congr (config config₁ : RequestConfig) (hurl : config₁.url = config.url) :
    Api.maxRetries config₁ = Api.maxRetries config := by
  simp [Api.maxRetries, Api.isChartOperation, hurl]

/-- A retry is scheduled only while the retry count is below the maximum. -/
theorem Api.lt_of_shouldRetry (online : Bool) (error : AxiosError) (config : RequestConfig)
    (k : Nat) (hk : config.retryCount = some k)
    (h : Api.shouldRetry online error config = true) : k < Api.maxRetries config := by
  simp only [Api.shouldRetry, hk, Bool.and_eq_true, decide_eq_true_eq] at h
  exact h.2

/-- The requests sent by a call of `api(config)` whose first request carries the retry
count `k`: their retry counts are `k`, `k + 1`, ... in order, there are at most
`maxRetries - k + 1` of them, and the call has ended once more than `maxRetries - k`
replies have come. -/
theorem Api.send_counts (replies : List Api.Reply) (config : RequestConfig) (k : Nat)
    (hk : (Api.requestInterceptor config).retryCount = some k) :
    (∀ (i : Nat) sent, (Api.send config replies).2[i]? = some sent →
      sent.retryCount = some (k + i) ∧ sent.url = config.url) ∧
    (Api.send config replies).2.length ≤ Api.maxRetries config - k + 1 ∧
    (Api.maxRetries config - k < replies.length →
      (Api.send config replies).1 ≠ Api.RunResult.pending) := by
  induction replies generalizing config k with
  | nil =>
    refine ⟨?_, by simp [Api.send], by simp⟩
    intro i sent hsent
    cases i with
    | zero =>
      simp only [Api.send, List.getElem?_cons_zero, Option.some.injEq] at hsent
      subst hsent
      exact ⟨hk, rfl⟩
    | succ i => simp [Api.send] at hsent
  | cons reply rest ih =>
    cases reply with
    | success =>
      refine ⟨?_, by simp [Api.send], by simp [Api.send]⟩
      intro i sent hsent
      cases i with
      | zero =>
        simp only [Api.send, List.getElem?_cons_zero, Option.some.injEq] at hsent
        subst hsent
        exact ⟨hk, rfl⟩
      | succ i => simp [Api.send] at hsent
    | failure failure =>
      have hstep := Api.responseError_of_config failure.online
        (Api.failureError failure (Api.requestInterceptor config))
        (Api.requestInterceptor config) rfl
      by_cases hretry : Api.shouldRetry failure.online
          (Api.failureError failure (Api.requestInterceptor config))
          (Api.requestInterceptor config) = true
      · have hlt : k < Api.maxRetries config := by
          have h := Api.lt_of_shouldRetry _ _ _ k hk hretry
          rwa [Api.maxRetries_congr config (Api.requestInterceptor config) rfl] at h
        cases hline : failure.onlineAtTimer with
        | false =>
          have hsend : Api.send config (Api.Reply.failure failure :: rest) =
              (Api.RunResult.rejected
                { Api.withUserMessage failure.online
                    (Api.failureError failure (Api.requestInterceptor config)) with
                  config := some (Api.incremented (Api.requestInterceptor config))
                  userMessage := some Api.connectionLostMessage },
                [Api.requestInterceptor config]) := by
            simp only [Api.send, hstep, if_pos hretry, Api.verifyAndRetry, hline,
              Bool.not_false, if_true]
          rw [hsend]
          refine ⟨?_, by simp, by simp⟩
          intro i sent hsent
          cases i with
          | zero =>
            simp only [List.getElem?_cons_zero, Option.some.injEq] at hsent
            subst hsent
            exact ⟨hk, rfl⟩
          | succ i => simp at hsent
        | true =>
          have hsend : Api.send config (Api.Reply.failure failure :: rest) =
              ((Api.send (Api.incremented (Api.requestInterceptor config)) rest).1,
                Api.requestInterceptor config ::
                  (Api.send (Api.incremented (Api.requestInterceptor config)) rest).2) := by
            simp only [Api.send, hstep, if_pos hretry, Api.verifyAndRetry, hline,
              Bool.not_true, Bool.false_eq_true, if_false]
          have hcount : (Api.requestInterceptor
              (Api.incremented (Api.requestInterceptor config))).retryCount = some (k + 1) := by
            show some ((some ((Api.requestInterceptor config).retryCount.getD 0 + 1)).getD 0) =
              some (k + 1)
            rw [hk]
            rfl
          have hnext := ih (Api.incremented (Api.requestInterceptor config)) (k + 1) hcount
          have hmax : Api.maxRetries (Api.incremented (Api.requestInterceptor config)) =
              Api.maxRetries config := Api.maxRetries_congr _ _ rfl
          rw [hmax] at hnext
          rw [hsend]
          refine ⟨?_, ?_, ?_⟩
          · intro i sent hsent
            cases i with
            | zero =>
              simp only [List.getElem?_cons_zero, Option.some.injEq] at hsent
              subst hsent
              exact ⟨hk, rfl⟩
            | succ i =>
              simp only [List.getElem?_cons_succ] at hsent
              obtain ⟨hcount, hurl⟩ := hnext.1 i sent hsent
              refine ⟨?_, hurl⟩
              rw [hcount]
              congr 1
              omega
          · simp only [List.length_cons]
            have := hnext.2.1
            omega
          · intro hlen
            simp only [List.length_cons] at hlen
            exact hnext.2.2 (by omega)
      · have hsend : Api.send config (Api.Reply.failure failure :: rest) =
            (Api.RunResult.rejected (Api.withUserMessage failure.online
              (Api.failureError failure (Api.requestInterceptor config))),
              [Api.requestInterceptor config]) := by
          simp only [Api.send, hstep, if_neg hretry]
        rw [hsend]
        refine ⟨?_, by simp, by simp⟩
        intro i sent hsent
        cases i with
        | zero =>
          simp only [List.getElem?_cons_zero, Option.some.injEq] at hsent
          subst hsent
          exact ⟨hk, rfl⟩
        | succ i => simp at hsent

/-- C24: for every sequence of replies to one request whose config starts without a
retry count (or with 0), the interceptor retries at most 5 times when the URL is a chart
operation and at most 3 times otherwise. The request sent at position `i` carries the
retry count `i`, so the count starts at 0, grows by exactly 1 per retry and never exceeds
the maximum; an error whose retry count has reached the maximum is rejected without a
retry, and the call has ended once more replies than the maximum have come. -/
theorem api_retry_bound (config : RequestConfig) (replies : List Api.Reply)
    (hstart : config.retryCount = none ∨ config.retryCount = some 0) :
    Api.maxRetries config = (if Api.isChartOperation config = true then 5 else 3) ∧
    (∀ (i : Nat) sent, (Api.send config replies).2[i]? = some sent →
      sent.retryCount = some i ∧ i ≤ Api.maxRetries config) ∧
    (Api.send config replies).2.length ≤ Api.maxRetries config + 1 ∧
    (Api.maxRetries config < replies.length →
      (Api.send config replies).1 ≠ Api.RunResult.pending) ∧
    (∀ online error (current : RequestConfig) (count : Nat), error.config = some current →
      current.retryCount = some count → Api.maxRetries current ≤ count →
      Api.responseError online error =
        Api.Outcome.rejected (Api.withUserMessage online error)) := by
  have hzero : (Api.requestInterceptor config).retryCount = some 0 := by
    rcases hstart with h | h <;> simp [Api.requestInterceptor, h]
  have hcounts := Api.send_counts replies config 0 hzero
  simp only [Nat.zero_add, Nat.sub_zero] at hcounts
  refine ⟨rfl, ?_, hcounts.2.1, hcounts.2.2, ?_⟩
  · intro i sent hsent
    refine ⟨(hcounts.1 i sent hsent).1, ?_⟩
    have hi : i < (Api.send config replies).2.length := by
      by_contra hnot
      rw [List.getElem?_eq_none (Nat.not_lt.mp hnot)] at hsent
      exact absurd hsent (by simp)
    have := hcounts.2.1
    omega
  · intro online error current count hcurrent hcount hmax
    rw [Api.responseError_of_config online error current hcurrent, if_neg]
    intro hretry
    have := Api.lt_of_shouldRetry online error current count hcount hretry
    omega

theorem api_retry_bound_witness :
    (Api.send sampleChartConfig
        (List.replicate 7 (Api.Reply.failure sampleServerFailure))).2.length ≤ 5 + 1 ∧
    (Api.send sampleChartConfig
        (List.replicate 7 (Api.Reply.failure sampleServerFailure))).2.map
          (fun sent => sent.retryCount) =
      [some 0, some 1, some 2, some 3, some 4, some 5] ∧
    (Api.send sampleUploadsConfig
        (List.replicate 7 (Api.Reply.failure sampleServerFailure))).2.length = 3 + 1 :=
  ⟨(api_retry_bound sampleChartConfig
      (List.replicate 7 (Api.Reply.failure sampleServerFailure)) (Or.inl rfl)).2.2.1,
    by decide, by decide⟩

/-! ## The Y-axis column filters -/

/-- C25, as stated, fails: on a sheet none of whose columns is numeric, the Y-axis filter
of `ChartCreator` offers the string column `Region`, which is not of type number, has
`isNumericField` false and is not a mixed column. -/
theorem yAxisFilter_offers_text_column :
    sampleRegionColumn ∈
      offeredColumns (ChartCreator.yAxisFilter sampleTextColumns []) sampleTextColumns ∧
    sampleRegionColumn.type ≠ "number" ∧ sampleRegionColumn.isNumericField = false ∧
    sampleRegionColumn.type ≠ "mixed" ∧
    (offeredColumns (ChartCreator.yAxisFilter sampleTextColumns []) sampleTextColumns).map
        (fun column => column.name) = ["Region", "Manager"] := by
  decide

/-- The numeric test of the Y-axis filter of `ChartCreator`, spelled out. -/
theorem isNumericColumn_iff (column : DataColumn) :
    isNumericColumn column = true ↔
      column.type = "number" ∨ column.isNumericField = true ∨
      (jsIncludes column.type "int" = true ∨ jsIncludes column.type "float" = true ∨
        jsIncludes column.type "decimal" = true ∨ jsIncludes column.type "double" = true) ∨
      (column.type = "mixed" ∧ ∃ value ∈ column.uniqueValues, value.isNumber = true) := by
  simp only [isNumericColumn, Bool.or_eq_true, Bool.and_eq_true, beq_iff_eq, List.any_eq_true]
  tauto

/-- C25 (amended): the Y-axis filter of `ChartCreator` offers a column exactly when the
column is not yet selected and either passes the numeric test (type number,
`isNumericField` true, a type name containing int, float, decimal or double, or a mixed
column with a sample value that parses as a number) or no column of the sheet passes it.
So when the sheet has a numeric column and the column types are those of the profiler,
every column offered is of type number, has `isNumericField` true or is a mixed column
with a numeric sample value. The filter of `ChartEdit` offers exactly the unselected
columns with `isNumericField` true. -/
theorem yAxisFilter_offers_iff (dataColumns : List DataColumn) (yAxisColumns : List String)
    (column : DataColumn) :
    (column ∈ offeredColumns (ChartCreator.yAxisFilter dataColumns yAxisColumns) dataColumns ↔
      column ∈ dataColumns ∧ column.name ∉ yAxisColumns ∧
        (isNumericColumn column = true ∨
          ∀ other ∈ dataColumns, isNumericColumn other = false)) ∧
    (isNumericColumn column = true ↔
      column.type = "number" ∨ column.isNumericField = true ∨
      (jsIncludes column.type "int" = true ∨ jsIncludes column.type "float" = true ∨
        jsIncludes column.type "decimal" = true ∨ jsIncludes column.type "double" = true) ∨
      (column.type = "mixed" ∧ ∃ value ∈ column.uniqueValues, value.isNumber = true)) ∧
    ((∃ other ∈ dataColumns, isNumericColumn other = true) →
      column.type ∈ ["number", "date", "string", "mixed", "unknown"] →
      column ∈ offeredColumns (ChartCreator.yAxisFilter dataColumns yAxisColumns) dataColumns →
      column.type = "number" ∨ column.isNumericField = true ∨
        (column.type = "mixed" ∧ ∃ value ∈ column.uniqueValues, value.isNumber = true)) ∧
    (column ∈ offeredColumns (ChartEdit.yAxisFilter yAxisColumns) dataColumns ↔
      column ∈ dataColumns ∧ column.isNumericField = true ∧ column.name ∉ yAxisColumns) := by
  have hoffered : column ∈
        offeredColumns (ChartCreator.yAxisFilter dataColumns yAxisColumns) dataColumns ↔
      column ∈ dataColumns ∧ column.name ∉ yAxisColumns ∧
        (isNumericColumn column = true ∨
          ∀ other ∈ dataColumns, isNumericColumn other = false) := by
    simp only [offeredColumns, List.mem_filter, ChartCreator.yAxisFilter, Bool.and_eq_true,
      Bool.or_eq_true, Bool.not_eq_true', List.any_eq_false,
      Bool.not_eq_true, List.elem_eq_mem, decide_eq_false_iff_not]
    tauto
  refine ⟨hoffered, isNumericColumn_iff column, ?_, ?_⟩
  · rintro ⟨other, hother, hnumeric⟩ htype hmem
    obtain ⟨-, -, hcolumn⟩ := hoffered.1 hmem
    have hnum : isNumericColumn column = true := by
      rcases hcolumn with h | h
      · exact h
      · rw [h other hother] at hnumeric
        exact absurd hnumeric (by decide)
    rcases (isNumericColumn_iff column).1 hnum with h | h | h | h
    · exact Or.inl h
    · exact Or.inr (Or.inl h)
    · exfalso
      simp only [List.mem_cons, List.mem_singleton, List.not_mem_nil, or_false] at htype
      rcases htype with h' | h' | h' | h' | h' <;> rw [h'] at h <;> revert h <;> decide
    · exact Or.inr (Or.inr h)
  · simp only [offeredColumns, List.mem_filter, ChartEdit.yAxisFilter, Bool.and_eq_true,
      Bool.not_eq_true', List.elem_eq_mem, decide_eq_false_iff_not]

/-! ## The retries of `ChartViewer.fetchChart` -/

/-- The `catch` block of `fetchChart` schedules a retry after a 404 only below 8 and
after a server error only below 5, and otherwise shows an error. -/
theorem ChartViewer.handleError_cases (retryCount : Nat) (err : ChartViewer.FetchError) :
    (∃ message, ChartViewer.handleError retryCount err = ChartViewer.Step.failed message) ∨
    (∃ notice, ChartViewer.handleError retryCount err =
        ChartViewer.Step.retry ChartViewer.RetryKind.notFound notice ∧ retryCount < 8) ∨
    (∃ notice, ChartViewer.handleError retryCount err =
        ChartViewer.Step.retry ChartViewer.RetryKind.server notice ∧ retryCount < 5) := by
  unfold ChartViewer.handleError
  by_cases h1 : err.code = some "ECONNABORTED"
  · exact Or.inl ⟨_, by rw [if_pos h1]⟩
  · rw [if_neg h1]
    by_cases h2 : err.status = some 404
    · rw [if_pos h2]
      by_cases h3 : retryCount < 8
      · exact Or.inr (Or.inl ⟨_, by rw [if_pos h3], h3⟩)
      · exact Or.inl ⟨_, by rw [if_neg h3]⟩
    · rw [if_neg h2]
      by_cases h4 : err.status = some 403
      · exact Or.inl ⟨_, by rw [if_pos h4]⟩
      · rw [if_neg h4]
        cases err.status with
        | none =>
          simp only []
          split_ifs <;> exact Or.inl ⟨_, rfl⟩
        | some status =>
          simp only []
          by_cases h5 : 500 ≤ status
          · rw [if_pos h5]
            by_cases h6 : retryCount < 5
            · exact Or.inr (Or.inr ⟨_, by rw [if_pos h6], h6⟩)
            · exact Or.inl ⟨_, by rw [if_neg h6]⟩
          · rw [if_neg h5]
            split_ifs <;> exact Or.inl ⟨_, rfl⟩

/-- One run of `fetchChart` shows the chart or an error, or waits for the database when
the health check says so, or schedules a retry within the bounds of `handleError`. -/
theorem ChartViewer.fetchChartStep_cases (id : String) (retryCount : Nat)
    (attempt : ChartViewer.Attempt) :
    ChartViewer.fetchChartStep id retryCount attempt = ChartViewer.Step.loaded ∨
    (∃ message, ChartViewer.fetchChartStep id retryCount attempt =
        ChartViewer.Step.failed message) ∨
    (ChartViewer.fetchChartStep id retryCount attempt = ChartViewer.Step.healthWait ∧
      attempt.databaseNotReady = true) ∨
    (∃ notice, ChartViewer.fetchChartStep id retryCount attempt =
        ChartViewer.Step.retry ChartViewer.RetryKind.notFound notice ∧ retryCount < 8) ∨
    (∃ notice, ChartViewer.fetchChartStep id retryCount attempt =
        ChartViewer.Step.retry ChartViewer.RetryKind.server notice ∧ retryCount < 5) := by
  have hlift : ∀ err, ChartViewer.fetchChartStep id retryCount attempt =
      ChartViewer.handleError retryCount err →
      (∃ message, ChartViewer.fetchChartStep id retryCount attempt =
          ChartViewer.Step.failed message) ∨
      (ChartViewer.fetchChartStep id retryCount attempt = ChartViewer.Step.healthWait ∧
        attempt.databaseNotReady = true) ∨
      (∃ notice, ChartViewer.fetchChartStep id retryCount attempt =
          ChartViewer.Step.retry ChartViewer.RetryKind.notFound notice ∧ retryCount < 8) ∨
      (∃ notice, ChartViewer.fetchChartStep id retryCount attempt =
          ChartViewer.Step.retry ChartViewer.RetryKind.server notice ∧ retryCount < 5) := by
    intro err heq
    rw [heq]
    rcases ChartViewer.handleError_cases retryCount err with h | h | h
    · exact Or.inl h
    · exact Or.inr (Or.inr (Or.inl h))
    · exact Or.inr (Or.inr (Or.inr h))
  by_cases hid : id = ""
  · exact Or.inr (hlift
      { code := none, status := none, serverMessage := none, message := "Invalid chart ID" }
      (by simp [ChartViewer.fetchChartStep, hid]))
  · cases hhealth : attempt.health with
    | queryFailing =>
      exact Or.inr (Or.inr (Or.inl
        ⟨by simp [ChartViewer.fetchChartStep, hid, hhealth],
          by simp [ChartViewer.Attempt.databaseNotReady, hhealth]⟩))
    | disconnected =>
      exact Or.inr (Or.inr (Or.inl
        ⟨by simp [ChartViewer.fetchChartStep, hid, hhealth],
          by simp [ChartViewer.Attempt.databaseNotReady, hhealth]⟩))
    | connected =>
      cases hfetch : attempt.fetch with
      | loaded => exact Or.inl (by simp [ChartViewer.fetchChartStep, hid, hhealth, hfetch])
      | error err =>
        exact Or.inr (hlift err (by simp [ChartViewer.fetchChartStep, hid, hhealth, hfetch]))
    | failed =>
      cases hfetch : attempt.fetch with
      | loaded => exact Or.inl (by simp [ChartViewer.fetchChartStep, hid, hhealth, hfetch])
      | error err =>
        exact Or.inr (hlift err (by simp [ChartViewer.fetchChartStep, hid, hhealth, hfetch]))

/-- The runs started by `fetchChart(retryCount)`: the retries after 404 and after server
errors together are at most `8 - retryCount`, those after server errors at most
`5 - retryCount`; the runs are at most one more than the retries and the waits for the
database; and either the last run shows the chart or an error, or every attempt given
was used up by a retry or a wait. -/
theorem ChartViewer.fetchChart_bounds (id : String) (attempts : List ChartViewer.Attempt)
    (retryCount : Nat) :
    (ChartViewer.fetchChart id retryCount attempts).countP
        (ChartViewer.Step.isRetry ChartViewer.RetryKind.notFound) +
      (ChartViewer.fetchChart id retryCount attempts).countP
        (ChartViewer.Step.isRetry ChartViewer.RetryKind.server) ≤ 8 - retryCount ∧
    (ChartViewer.fetchChart id retryCount attempts).countP
        (ChartViewer.Step.isRetry ChartViewer.RetryKind.server) ≤ 5 - retryCount ∧
    (ChartViewer.fetchChart id retryCount attempts).length ≤
      8 - retryCount + 1 + attempts.countP ChartViewer.Attempt.databaseNotReady ∧
    ((∃ steps step, ChartViewer.fetchChart id retryCount attempts = steps ++ [step] ∧
        step.isFinal = true) ∨
      ((ChartViewer.fetchChart id retryCount attempts).length = attempts.length ∧
        attempts.length ≤
          8 - retryCount + attempts.countP ChartViewer.Attempt.databaseNotReady)) := by
  induction attempts generalizing retryCount with
  | nil => simp [ChartViewer.fetchChart]
  | cons attempt rest ih =>
    rcases ChartViewer.fetchChartStep_cases id retryCount attempt with
      h | ⟨message, h⟩ | ⟨h, hwait⟩ | ⟨notice, h, hlt⟩ | ⟨notice, h, hlt⟩
    · simp only [ChartViewer.fetchChart, h]
      refine ⟨by simp [ChartViewer.Step.isRetry], by simp [ChartViewer.Step.isRetry],
        by simp only [List.length_singleton]; omega, Or.inl ⟨[], _, rfl, rfl⟩⟩
    · simp only [ChartViewer.fetchChart, h]
      refine ⟨by simp [ChartViewer.Step.isRetry], by simp [ChartViewer.Step.isRetry],
        by simp only [List.length_singleton]; omega, Or.inl ⟨[], _, rfl, rfl⟩⟩
    · simp only [ChartViewer.fetchChart, h]
      obtain ⟨h1, h2, h3, h4⟩ := ih retryCount
      refine ⟨by simpa [ChartViewer.Step.isRetry] using h1,
        by simpa [ChartViewer.Step.isRetry] using h2, ?_, ?_⟩
      · simp only [List.length_cons, List.countP_cons, hwait, if_true]
        omega
      · rcases h4 with ⟨steps, step, hsteps, hfinal⟩ | ⟨hlen, hle⟩
        · exact Or.inl ⟨ChartViewer.Step.healthWait :: steps, step, by rw [hsteps]; rfl, hfinal⟩
        · right
          simp only [List.length_cons, List.countP_cons, hwait, if_true]
          omega
    · simp only [ChartViewer.fetchChart, h]
      obtain ⟨h1, h2, h3, h4⟩ := ih (retryCount + 1)
      refine ⟨?_, ?_, ?_, ?_⟩
      · simp only [List.countP_cons, ChartViewer.Step.isRetry, beq_self_eq_true, if_true]
        have hserver : (ChartViewer.RetryKind.notFound == ChartViewer.RetryKind.server) =
            false := by decide
        simp only [hserver, Bool.false_eq_true, if_false]
        omega
      · have hserver : (ChartViewer.RetryKind.notFound == ChartViewer.RetryKind.server) =
            false := by decide
        simp only [List.countP_cons, ChartViewer.Step.isRetry, hserver, Bool.false_eq_true,
          if_false]
        omega
      · simp only [List.length_cons, List.countP_cons]
        split_ifs <;> omega
      · rcases h4 with ⟨steps, step, hsteps, hfinal⟩ | ⟨hlen, hle⟩
        · exact Or.inl ⟨_ :: steps, step, by rw [hsteps]; rfl, hfinal⟩
        · right
          simp only [List.length_cons, List.countP_cons]
          split_ifs <;> omega
    · simp only [ChartViewer.fetchChart, h]
      obtain ⟨h1, h2, h3, h4⟩ := ih (retryCount + 1)
      refine ⟨?_, ?_, ?_, ?_⟩
      · have hnotFound : (ChartViewer.RetryKind.server == ChartViewer.RetryKind.notFound) =
            false := by decide
        simp only [List.countP_cons, ChartViewer.Step.isRetry, beq_self_eq_true, if_true,
          hnotFound, Bool.false_eq_true, if_false]
        omega
      · simp only [List.countP_cons, ChartViewer.Step.isRetry, beq_self_eq_true, if_true]
        omega
      · simp only [List.length_cons, List.countP_cons]
        split_ifs <;> omega
      · rcases h4 with ⟨steps, step, hsteps, hfinal⟩ | ⟨hlen, hle⟩
        · exact Or.inl ⟨_ :: steps, step, by rw [hsteps]; rfl, hfinal⟩
        · right
          simp only [List.length_cons, List.countP_cons]
          split_ifs <;> omega

/-- C30, as stated, fails: while the health check reports a database that is not
connected, every run of `fetchChart` waits and calls `fetchChart` again with the same
retry count, so twenty such replies give twenty runs, and `n` of them give `n` runs, none
of which ends the loading. -/
theorem fetchChart_waits_without_bound :
    ChartViewer.fetchChart "42" 0 (List.replicate 20 sampleDisconnected) =
      List.replicate 20 ChartViewer.Step.healthWait ∧
    ∀ n : Nat, ChartViewer.fetchChart "42" 0 (List.replicate n sampleDisconnected) =
      List.replicate n ChartViewer.Step.healthWait := by
  have hall : ∀ n : Nat, ChartViewer.fetchChart "42" 0 (List.replicate n sampleDisconnected) =
      List.replicate n ChartViewer.Step.healthWait := by
    intro n
    induction n with
    | zero => rfl
    | succ n ih =>
      have hstep : ChartViewer.fetchChartStep "42" 0 sampleDisconnected =
          ChartViewer.Step.healthWait := by decide
      simp only [List.replicate_succ, ChartViewer.fetchChart, hstep, ih]
  exact ⟨hall 20, hall⟩

/-- C30 (amended): for every sequence of replies, the runs of `ChartViewer.fetchChart`
started by `fetchChart()` schedule at most 8 retries after 404 responses and at most 5
after server errors, at most 8 retries in all (both kinds advance the same counter); at
retry count 8 a 404 response, and at retry count 5 a server error, ends the loading with
an error message. The runs number at most 9 plus the runs in which the health check
reports a database that is not ready, each of which waits and calls `fetchChart` again
with the retry count unchanged; so without such health replies there are at most 9 runs,
and once more than 8 plus the number of such health replies have come the last run has
shown the chart or an error. -/
theorem fetchChart_retry_bounds (id : String) (attempts : List ChartViewer.Attempt) :
    (ChartViewer.fetchChart id 0 attempts).countP
        (ChartViewer.Step.isRetry ChartViewer.RetryKind.notFound) ≤ 8 ∧
    (ChartViewer.fetchChart id 0 attempts).countP
        (ChartViewer.Step.isRetry ChartViewer.RetryKind.server) ≤ 5 ∧
    (ChartViewer.fetchChart id 0 attempts).countP
        (ChartViewer.Step.isRetry ChartViewer.RetryKind.notFound) +
      (ChartViewer.fetchChart id 0 attempts).countP
        (ChartViewer.Step.isRetry ChartViewer.RetryKind.server) ≤ 8 ∧
    (ChartViewer.fetchChart id 0 attempts).length ≤
      9 + attempts.countP ChartViewer.Attempt.databaseNotReady ∧
    ((∀ attempt ∈ attempts, attempt.databaseNotReady = false) →
      (ChartViewer.fetchChart id 0 attempts).length ≤ 9) ∧
    (8 + attempts.countP ChartViewer.Attempt.databaseNotReady < attempts.length →
      ∃ steps step, ChartViewer.fetchChart id 0 attempts = steps ++ [step] ∧
        step.isFinal = true) ∧
    (∀ err : ChartViewer.FetchError, err.code ≠ some "ECONNABORTED" → err.status = some 404 →
      ChartViewer.handleError 8 err =
        ChartViewer.Step.failed "Chart not found. It may have been deleted.") ∧
    (∀ (err : ChartViewer.FetchError) (status : Nat), err.code ≠ some "ECONNABORTED" →
      err.status = some status → 500 ≤ status →
      ChartViewer.handleError 5 err =
        ChartViewer.Step.failed
          ("Server error (" ++ toString status ++ "). Please try again later.")) := by
  obtain ⟨h1, h2, h3, h4⟩ := ChartViewer.fetchChart_bounds id attempts 0
  simp only [Nat.sub_zero] at h1 h2 h3 h4
  refine ⟨by omega, h2, h1, by omega, ?_, ?_, ?_, ?_⟩
  · intro hready
    have hzero : attempts.countP ChartViewer.Attempt.databaseNotReady = 0 := by
      rw [List.countP_eq_zero]
      intro attempt hmem
      rw [hready attempt hmem]
      decide
    omega
  · intro hlen
    rcases h4 with h | ⟨-, hle⟩
    · exact h
    · omega
  · intro err hcode hstatus
    simp [ChartViewer.handleError, hcode, hstatus]
  · intro err status hcode hstatus hserver
    have h404 : status ≠ 404 := by omega
    have h403 : status ≠ 403 := by omega
    simp [ChartViewer.handleError, hcode, hstatus, hserver, h404, h403]

/-! ## The sums of the series aggregator -/

theorem SeriesAggregator.map_fst_addRow (key : String) (row : List SeriesAggregator.Cell)
    (groups : List (String × List (List SeriesAggregator.Cell))) :
    (SeriesAggregator.addRow key row groups).map Prod.fst =
      if key ∈ groups.map Prod.fst then groups.map Prod.fst
      else groups.map Prod.fst ++ [key] := by
  induction groups with
  | nil => simp [SeriesAggregator.addRow]
  | cons group rest ih =>
    obtain ⟨k, rows⟩ := group
    by_cases hk : k = key
    · simp [SeriesAggregator.addRow, hk]
    · have hne : ¬ key = k := fun h => hk h.symm
      by_cases hmem : key ∈ rest.map Prod.fst
      · simp only [SeriesAggregator.addRow, if_neg hk, List.map_cons, ih, if_pos hmem,
          List.mem_cons, hmem, or_true, if_true]
      · simp only [SeriesAggregator.addRow, if_neg hk, List.map_cons, ih, if_neg hmem,
          List.mem_cons, hne, hmem, or_self, if_false, List.cons_append]

theorem SeriesAggregator.mem_addRow (key : String) (row : List SeriesAggregator.Cell)
    (groups : List (String × List (List SeriesAggregator.Cell)))
    (hnodup : (groups.map Prod.fst).Nodup)
    (group : String × List (List SeriesAggregator.Cell))
    (hmem : group ∈ SeriesAggregator.addRow key row groups) :
    (group ∈ groups ∧ group.1 ≠ key) ∨
    (group.1 = key ∧ ∃ rows, group.2 = rows ++ [row] ∧ (key, rows) ∈ groups) ∨
    (group = (key, [row]) ∧ key ∉ groups.map Prod.fst) := by
  induction groups with
  | nil =>
    simp only [SeriesAggregator.addRow, List.mem_singleton] at hmem
    exact Or.inr (Or.inr ⟨hmem, by simp⟩)
  | cons first rest ih =>
    obtain ⟨k, rows⟩ := first
    rw [List.map_cons, List.nodup_cons] at hnodup
    obtain ⟨hfresh, hrest⟩ := hnodup
    by_cases hk : k = key
    · simp only [SeriesAggregator.addRow, if_pos hk, List.mem_cons] at hmem
      rcases hmem with h | h
      · refine Or.inr (Or.inl ⟨by rw [h]; exact hk, rows, by rw [h], ?_⟩)
        rw [← hk]
        exact List.mem_cons_self _ _
      · refine Or.inl ⟨List.mem_cons_of_mem _ h, ?_⟩
        intro hkey
        apply hfresh
        rw [hk, ← hkey]
        exact List.mem_map.mpr ⟨group, h, rfl⟩
    · simp only [SeriesAggregator.addRow, if_neg hk, List.mem_cons] at hmem
      rcases hmem with h | h
      · refine Or.inl ⟨by rw [h]; exact List.mem_cons_self _ _, by rw [h]; exact hk⟩
      · rcases ih hrest h with ⟨h1, h2⟩ | ⟨h1, rs, h2, h3⟩ | ⟨h1, h2⟩
        · exact Or.inl ⟨List.mem_cons_of_mem _ h1, h2⟩
        · exact Or.inr (Or.inl ⟨h1, rs, h2, List.mem_cons_of_mem _ h3⟩)
        · refine Or.inr (Or.inr ⟨h1, ?_⟩)
          rw [List.map_cons, List.mem_cons]
          rintro (h3 | h3)
          · exact hk h3.symm
          · exact h2 h3

theorem SeriesAggregator.groupRows_append (c : SeriesAggregator.Coercion)
    (headers xAxis : List String) (rows : List (List SeriesAggregator.Cell))
    (row : List SeriesAggregator.Cell) :
    SeriesAggregator.groupRows c headers xAxis (rows ++ [row]) =
      SeriesAggregator.addRow (SeriesAggregator.groupingKey c headers xAxis row) row
        (SeriesAggregator.groupRows c headers xAxis rows) := by
  simp [SeriesAggregator.groupRows, List.foldl_append]

theorem SeriesAggregator.firstSeen_append (keys : List String) (key : String) :
    SeriesAggregator.firstSeen (keys ++ [key]) =
      if key ∈ SeriesAggregator.firstSeen keys then SeriesAggregator.firstSeen keys
      else SeriesAggregator.firstSeen keys ++ [key] := by
  simp [SeriesAggregator.firstSeen, List.foldl_append]

theorem SeriesAggregator.groupRows_keys (c : SeriesAggregator.Coercion)
    (headers xAxis : List String) (rows : List (List SeriesAggregator.Cell)) :
    (SeriesAggregator.groupRows c headers xAxis rows).map Prod.fst =
      SeriesAggregator.firstSeen (rows.map (SeriesAggregator.groupingKey c headers xAxis)) := by
  induction rows using List.reverseRecOn with
  | nil => rfl
  | append_singleton rows row ih =>
    rw [SeriesAggregator.groupRows_append, SeriesAggregator.map_fst_addRow, List.map_append,
      List.map_singleton, SeriesAggregator.firstSeen_append, ih]

theorem SeriesAggregator.firstSeen_nodup (keys : List String) :
    (SeriesAggregator.firstSeen keys).Nodup := by
  induction keys using List.reverseRecOn with
  | nil => exact List.nodup_nil
  | append_singleton keys key ih =>
    rw [SeriesAggregator.firstSeen_append]
    by_cases hmem : key ∈ SeriesAggregator.firstSeen keys
    · rw [if_pos hmem]
      exact ih
    · rw [if_neg hmem]
      exact List.Nodup.append ih (List.nodup_singleton _)
        (by
          intro k h1 h2
          rw [List.mem_singleton] at h2
          exact hmem (h2 ▸ h1))

theorem SeriesAggregator.mem_firstSeen (keys : List String) (key : String) :
    key ∈ SeriesAggregator.firstSeen keys ↔ key ∈ keys := by
  induction keys using List.reverseRecOn with
  | nil => simp [SeriesAggregator.firstSeen]
  | append_singleton keys last ih =>
    rw [SeriesAggregator.firstSeen_append]
    by_cases hmem : last ∈ SeriesAggregator.firstSeen keys
    · rw [if_pos hmem, List.mem_append, List.mem_singleton, ih]
      constructor
      · exact Or.inl
      · rintro (h | h)
        · exact h
        · subst h
          exact ih.mp hmem
    · rw [if_neg hmem, List.mem_append, List.mem_append, ih]

theorem SeriesAggregator.groupRows_rows (c : SeriesAggregator.Coercion)
    (headers xAxis : List String) (rows : List (List SeriesAggregator.Cell))
    (group : String × List (List SeriesAggregator.Cell))
    (hmem : group ∈ SeriesAggregator.groupRows c headers xAxis rows) :
    group.2 = rows.filter
      fun row => decide (SeriesAggregator.groupingKey c headers xAxis row = group.1) := by
  induction rows using List.reverseRecOn generalizing group with
  | nil => simp [SeriesAggregator.groupRows] at hmem
  | append_singleton rows row ih =>
    rw [SeriesAggregator.groupRows_append] at hmem
    have hnodup : ((SeriesAggregator.groupRows c headers xAxis rows).map Prod.fst).Nodup := by
      rw [SeriesAggregator.groupRows_keys]
      exact SeriesAggregator.firstSeen_nodup _
    rw [List.filter_append]
    rcases SeriesAggregator.mem_addRow _ _ _ hnodup group hmem with
      ⟨h1, h2⟩ | ⟨h1, rs, h2, h3⟩ | ⟨h1, h2⟩
    · have hne : ¬ SeriesAggregator.groupingKey c headers xAxis row = group.1 :=
        fun h => h2 h.symm
      rw [ih group h1]
      simp [hne]
    · have hrs := ih (SeriesAggregator.groupingKey c headers xAxis row, rs) h3
      simp only at hrs
      rw [h2, hrs, h1]
      simp
    · subst h1
      have hnone : rows.filter
          (fun r => decide (SeriesAggregator.groupingKey c headers xAxis r =
            SeriesAggregator.groupingKey c headers xAxis row)) = [] := by
        rw [List.filter_eq_nil_iff]
        intro r hr hkey
        apply h2
        rw [SeriesAggregator.groupRows_keys, SeriesAggregator.mem_firstSeen]
        rw [decide_eq_true_eq] at hkey
        rw [← hkey]
        exact List.mem_map_of_mem _ hr
      simp only
      rw [hnone]
      simp

theorem SeriesAggregator.groupRows_ne_nil (c : SeriesAggregator.Coercion)
    (headers xAxis : List String) (row : List SeriesAggregator.Cell)
    (rows : List (List SeriesAggregator.Cell)) :
    SeriesAggregator.groupRows c headers xAxis (row :: rows) ≠ [] := by
  intro hnil
  have hkey : SeriesAggregator.groupingKey c headers xAxis row ∈
      (SeriesAggregator.groupRows c headers xAxis (row :: rows)).map Prod.fst := by
    rw [SeriesAggregator.groupRows_keys, SeriesAggregator.mem_firstSeen]
    exact List.mem_map_of_mem _ (List.mem_cons_self _ _)
  rw [hnil] at hkey
  exact absurd hkey (List.not_mem_nil _)

theorem SeriesAggregator.groupRows_isEmpty (c : SeriesAggregator.Coercion)
    (headers xAxis : List String) (rows : List (List SeriesAggregator.Cell)) :
    (SeriesAggregator.groupRows c headers xAxis rows).isEmpty = rows.isEmpty := by
  cases rows with
  | nil => rfl
  | cons row rows =>
    have hne := SeriesAggregator.groupRows_ne_nil c headers xAxis row rows
    cases hgroups : SeriesAggregator.groupRows c headers xAxis (row :: rows) with
    | nil => exact absurd hgroups hne
    | cons group groups => rfl

theorem SeriesAggregator.all_isEmpty {γ : Type} (groups : List γ)
    (value : String → γ → Option ℚ) (yAxis : List String) :
    ((yAxis.map fun column : String =>
        ({ label := column, data := groups.map (value column) } :
          SeriesAggregator.Series)).all fun series => series.data.isEmpty) =
      (groups.isEmpty || yAxis.isEmpty) := by
  cases groups with
  | nil => simp
  | cons group groups =>
    cases yAxis with
    | nil => simp
    | cons column columns => simp

/-- C26: the category-keyed aggregation under method sum fails with `EmptyResultError`
when the sheet has no rows or no `yAxis` column is given, and otherwise returns, as
labels, the distinct grouping keys of the rows in first-seen order and, for every `yAxis`
column, one Series whose value for each label is the arithmetic sum of the
numeric-coercible values of that column over the rows that share the label as grouping
key, the non-coercible values being skipped; for the rows East/10, East/20, West/5 with
xAxis Region and yAxis Sales the labels are East, West and the data 30, 5. -/
theorem aggregate_sum (c : SeriesAggregator.Coercion) (sheet : SeriesAggregator.Sheet)
    (xAxis yAxis : List String) :
    SeriesAggregator.aggregate c sheet xAxis yAxis SeriesAggregator.AggregationMethod.sum =
      (if sheet.rows.isEmpty || yAxis.isEmpty then
        Except.error SeriesAggregator.AggregatorError.emptyResult
      else
        Except.ok
          { labels := SeriesAggregator.firstSeen
              (sheet.rows.map (SeriesAggregator.groupingKey c sheet.headers xAxis))
            datasets := yAxis.map fun column =>
              { label := column
                data := (SeriesAggregator.firstSeen
                    (sheet.rows.map (SeriesAggregator.groupingKey c sheet.headers xAxis))).map
                  fun key => some
                    ((sheet.rows.filter fun row =>
                        decide (SeriesAggregator.groupingKey c sheet.headers xAxis row = key)).filterMap
                      fun row => SeriesAggregator.coerce c
                        (SeriesAggregator.cellAt sheet.headers row column)).sum } }) ∧
    (SeriesAggregator.firstSeen
      (sheet.rows.map (SeriesAggregator.groupingKey c sheet.headers xAxis))).Nodup ∧
    (∀ key, key ∈ SeriesAggregator.firstSeen
        (sheet.rows.map (SeriesAggregator.groupingKey c sheet.headers xAxis)) ↔
      ∃ row ∈ sheet.rows, SeriesAggregator.groupingKey c sheet.headers xAxis row = key) ∧
    SeriesAggregator.aggregate c sampleRegionSheet ["Region"] ["Sales"]
      SeriesAggregator.AggregationMethod.sum = Except.ok sampleRegionSums := by
  refine ⟨?_, SeriesAggregator.firstSeen_nodup _, ?_, ?_⟩
  · have hdata : ∀ column : String,
        (SeriesAggregator.groupRows c sheet.headers xAxis sheet.rows).map
          (fun group => SeriesAggregator.aggregateValues SeriesAggregator.AggregationMethod.sum
            (SeriesAggregator.coercibleValues c sheet.headers column group.2)) =
        (SeriesAggregator.firstSeen
          (sheet.rows.map (SeriesAggregator.groupingKey c sheet.headers xAxis))).map
          fun key => some
            ((sheet.rows.filter fun row =>
                decide (SeriesAggregator.groupingKey c sheet.headers xAxis row = key)).filterMap
              fun row => SeriesAggregator.coerce c
                (SeriesAggregator.cellAt sheet.headers row column)).sum := by
      intro column
      rw [← SeriesAggregator.groupRows_keys, List.map_map]
      apply List.map_congr_left
      intro group hmem
      rw [SeriesAggregator.groupRows_rows c sheet.headers xAxis sheet.rows group hmem]
      rfl
    unfold SeriesAggregator.aggregate
    simp only [SeriesAggregator.all_isEmpty]
    simp only [SeriesAggregator.groupRows_isEmpty, hdata, SeriesAggregator.groupRows_keys]
  · intro key
    rw [SeriesAggregator.mem_firstSeen, List.mem_map]
  · simp [SeriesAggregator.aggregate, SeriesAggregator.groupRows, sampleRegionSheet,
      SeriesAggregator.groupingKey, SeriesAggregator.cellAt, SeriesAggregator.keyPart,
      SeriesAggregator.addRow, SeriesAggregator.coercibleValues, SeriesAggregator.coerce,
      SeriesAggregator.aggregateValues, sampleRegionSums, String.intercalate,
      String.intercalate.go, List.indexOf, List.findIdx, List.findIdx.go]
    norm_num

end ExcelAnalytics
